import Mathlib

/-!
# Vy4cheSlave/qna: the HTTP handler layer, embedded in Lean

A shallow embedding of the request pipeline of the question-and-answer backend
(`internal/infrastructure/rest`, `internal/domain`, `dto/request`, `dto/response`,
`middleware`), followed by the theorems that settle the claims of its specification.

Conventions of the embedding:

* Go `int` is `Int`; `strconv.Atoi` checks the 64-bit range explicitly.
* Go `string` is `String`; where Go indexes bytes (`strconv`, `uuid`) the UTF-8 bytes of the
  string are computed by `goBytes`.
* a Go pointer result that may be `nil` is an `Option`; a Go slice that may be `nil` is a
  `Slice` (`none` is the nil slice).
* a Go `error` result is `Option GoError` (`none` is `nil`).
* a handler is a function from the `ResponseWriter` and `Request` it receives to an
  `Outcome`: the writer after the handler, the service with the record of the calls made
  on it, the request with its updated context, and the panic, if the handler panicked.
* library code the handlers call (`strconv.Atoi`, `uuid.Parse`, `encoding/json`,
  `net/http`'s response writer) is modelled next to them, each definition naming the
  library function it follows.
-/

set_option autoImplicit false

namespace QNA

/-! ## Errors -/

/-- Go `error` values as the code builds them. -/
inductive GoError where
  /-- Value of `errors.New(msg)`. -/
  | new (msg : String)
  /-- Value of `errors.Wrap(cause, msg)` of `github.com/pkg/errors`. -/
  | wrap (cause : GoError) (msg : String)
  /-- Value `*strconv.NumError` with its fields `Func`, `Num` and the text of `Err`. -/
  | numError (Func Num Err : String)
  /-- Value `*json.UnmarshalTypeError` with its fields `Value` and `Field`. -/
  | unmarshalTypeError (Value Field : String)
  /-- Value `uuid.invalidLengthError` with the length it reports. -/
  | invalidLengthError (len : Nat)
  /-- Any other error a library or the environment hands over (a JSON syntax error, `io.EOF`,
  a failed write on the connection, a store error): the package it comes from and its text. -/
  | foreign (pkg detail : String)
  deriving DecidableEq, Repr

/-- Root of a chain of wrapped errors: `errors.Cause`. -/
def GoError.Cause : GoError → GoError
  | .wrap cause _ => cause.Cause
  | e => e

/-- A Go slice: `none` is the nil slice, `some xs` a non-nil slice holding `xs`. -/
abbrev Slice (α : Type) := Option (List α)

/-- UTF-8 bytes of one character. -/
def charBytes (c : Char) : List Nat :=
  let n := c.toNat
  if n < 0x80 then [n]
  else if n < 0x800 then [0xC0 + n / 64, 0x80 + n % 64]
  else if n < 0x10000 then [0xE0 + n / 4096, 0x80 + (n / 64) % 64, 0x80 + n % 64]
  else [0xF0 + n / 262144, 0x80 + (n / 4096) % 64, 0x80 + (n / 64) % 64, 0x80 + n % 64]

/-- The bytes of a Go string: what `len(s)` counts and `s[i]` indexes. -/
def goBytes (s : String) : List Nat :=
  s.toList.flatMap charBytes

/-! ## `internal/domain/entity.go` -/

namespace domain

/-- Source: `type Question struct { Id int; Text string }`. -/
structure Question where
  Id : Int
  Text : String
  deriving DecidableEq, Repr

/-- Source: `type Answer struct { Id int; QuestionId int; UserId string; Text string }`. -/
structure Answer where
  Id : Int
  QuestionId : Int
  UserId : String
  Text : String
  deriving DecidableEq, Repr

/-- Source: `type User struct { Id string; Name string }`. -/
structure User where
  Id : String
  Name : String
  deriving DecidableEq, Repr

end domain

/-! ## `strconv.Atoi` (Go standard library, 64-bit `int`) -/

namespace strconv

/-- Text of `strconv.ErrSyntax`. -/
def errInvalid : String := "invalid syntax"

/-- Text of `strconv.ErrRange`. -/
def errRange : String := "value out of range"

/-- The loop of `Atoi`'s fast path: `ch -= '0'` in byte arithmetic, `if ch > 9` it is a
syntax error, else `n = n*10 + int(ch)`. -/
def atoiLoop : List Nat → Int → Option Int
  | [], n => some n
  | ch :: rest, n =>
    let d := (ch + 256 - 48) % 256
    if d > 9 then none else atoiLoop rest (n * 10 + (d : Int))

/-- Outcome of the digit loop of `ParseUint` in base 10 with `bitSize` 64. -/
inductive UintResult where
  | ok (n : Nat)
  | badDigit
  | outOfRange
  deriving DecidableEq, Repr

/-- The loop of `ParseUint(s, 10, 64)`: a byte that is no decimal digit is a syntax error
(a letter passes the first switch and fails `d >= byte(base)`), `n >= cutoff` with
`cutoff = maxUint64/10 + 1` and `n*10 + d > maxVal` are range errors. -/
def parseUintLoop : List Nat → Nat → UintResult
  | [], n => .ok n
  | c :: rest, n =>
    if 48 ≤ c ∧ c ≤ 57 then
      let d := c - 48
      if n ≥ (2 ^ 64 - 1) / 10 + 1 then .outOfRange
      else
        let n1 := n * 10 + d
        if n1 > 2 ^ 64 - 1 then .outOfRange else parseUintLoop rest n1
    else .badDigit

/-- Model of `strconv.ParseUint(s, 10, 64)` on the bytes of `s`: the empty text is a syntax
error. -/
def ParseUint (s : List Nat) : UintResult :=
  if s = [] then .badDigit else parseUintLoop s 0

/-- Model of `strconv.ParseInt(s, 10, 0)` with `IntSize = 64`, as `Atoi` calls it: the
`NumError` already carries `Func = "Atoi"`. -/
def ParseInt (s0 : String) : Except GoError Int :=
  let s := goBytes s0
  match s with
  | [] => .error (.numError "Atoi" s0 errInvalid)
  | c :: rest =>
    let neg := c == 45
    let digits := if c == 43 ∨ c == 45 then rest else s
    match ParseUint digits with
    | .badDigit => .error (.numError "Atoi" s0 errInvalid)
    | .outOfRange => .error (.numError "Atoi" s0 errRange)
    | .ok un =>
      let cutoff : Nat := 2 ^ 63
      if ¬ neg ∧ un ≥ cutoff then .error (.numError "Atoi" s0 errRange)
      else if neg ∧ un > cutoff then .error (.numError "Atoi" s0 errRange)
      else if neg then .ok (-(un : Int)) else .ok (un : Int)

/-- Model of `strconv.Atoi`: the fast path for `0 < len(s) < 19`, else `ParseInt`. -/
def Atoi (s0 : String) : Except GoError Int :=
  let s := goBytes s0
  if 0 < s.length ∧ s.length < 19 then
    match s with
    | [] => .error (.numError "Atoi" s0 errInvalid)
    | c :: rest =>
      let signed := c == 45 ∨ c == 43
      let digits := if signed then rest else s
      if signed ∧ digits.length < 1 then .error (.numError "Atoi" s0 errInvalid)
      else
        match atoiLoop digits 0 with
        | none => .error (.numError "Atoi" s0 errInvalid)
        | some n => if c == 45 then .ok (-n) else .ok n
  else ParseInt s0

/-- The value of a run of decimal digit bytes, continuing from `acc`; `none` when a byte is
no decimal digit. -/
def digitsValue : List Nat → Nat → Option Nat
  | [], acc => some acc
  | c :: rest, acc =>
    if 48 ≤ c ∧ c ≤ 57 then digitsValue rest (acc * 10 + (c - 48)) else none

/-- What the specification calls a decimal integer: an optional sign `-` or `+` followed by
at least one decimal digit, and nothing else; its value, whatever its size. -/
def decimalInteger (s : String) : Option Int :=
  match goBytes s with
  | [] => none
  | c :: rest =>
    if c = 45 then
      if rest = [] then none else (digitsValue rest 0).map (fun v => -(Int.ofNat v))
    else if c = 43 then
      if rest = [] then none else (digitsValue rest 0).map Int.ofNat
    else (digitsValue (c :: rest) 0).map Int.ofNat

end strconv

/-! ## `uuid.Parse` (github.com/google/uuid) -/

namespace uuid

/-- The table `xvalues` of the library: the value of a hexadecimal digit byte, 255 for any
other byte. -/
def xvalue (b : Nat) : Nat :=
  if 48 ≤ b ∧ b ≤ 57 then b - 48
  else if 65 ≤ b ∧ b ≤ 70 then b - 55
  else if 97 ≤ b ∧ b ≤ 102 then b - 87
  else 255

/-- Library function `xtob`: `(b1 << 4) | b2` for the table values of two bytes, and whether
both were hex digits. -/
def xtob (x1 x2 : Nat) : Nat × Bool :=
  let b1 := xvalue x1
  let b2 := xvalue x2
  ((b1 * 16 % 256) ||| b2, b1 != 255 && b2 != 255)

/-- Decode the hex pairs of `s` that start at the given offsets, failing at the first pair
that is not hexadecimal. -/
def hexPairs (s : List Nat) : List Nat → Option (List Nat)
  | [] => some []
  | x :: xs =>
    match xtob (s.getD x 0) (s.getD (x + 1) 0) with
    | (v, true) => (hexPairs s xs).map (fun vs => v :: vs)
    | (_, false) => none

/-- ASCII lower-casing of a byte, as `strings.EqualFold` needs it against `urn:uuid:`. -/
def lowerByte (b : Nat) : Nat :=
  if 65 ≤ b ∧ b ≤ 90 then b + 32 else b

/-- The 36-byte form `xxxxxxxx-xxxx-xxxx-xxxx-xxxxxxxxxxxx`: the tail of `Parse`. -/
def parseCanonical (s : List Nat) : Except GoError (List Nat) :=
  if s.getD 8 0 ≠ 45 ∨ s.getD 13 0 ≠ 45 ∨ s.getD 18 0 ≠ 45 ∨ s.getD 23 0 ≠ 45 then
    .error (.new "invalid UUID format")
  else
    match hexPairs s [0, 2, 4, 6, 9, 11, 14, 16, 19, 21, 24, 26, 28, 30, 32, 34] with
    | none => .error (.new "invalid UUID format")
    | some u => .ok u

/-- Model of `uuid.Parse`: by the byte length of `s`, the canonical form (36), the form with
the `urn:uuid:` prefix (45), the form inside one leading and one trailing byte (38), the
32 hex digits, and an `invalidLengthError` for every other length. -/
def Parse (str : String) : Except GoError (List Nat) :=
  let s := goBytes str
  if s.length = 36 then parseCanonical s
  else if s.length = 36 + 9 then
    if (s.take 9).map lowerByte ≠ goBytes "urn:uuid:" then
      .error (.foreign "uuid" "invalid urn prefix")
    else parseCanonical (s.drop 9)
  else if s.length = 36 + 2 then parseCanonical (s.drop 1)
  else if s.length = 32 then
    match hexPairs s ((List.range 16).map (fun i => i * 2)) with
    | none => .error (.new "invalid UUID format")
    | some u => .ok u
  else .error (.invalidLengthError s.length)

end uuid

/-! ## `encoding/json`: decoding a request body into a struct of string fields -/

/-- A JSON value, as the decoder's scanner delimits it in the request stream. Strings hold
their unquoted text, numbers their literal. -/
inductive JSON where
  | null
  | bool (b : Bool)
  | number (lit : String)
  | string (s : String)
  | array (elems : List JSON)
  | object (members : List (String × JSON))

namespace json

/-- The name `UnmarshalTypeError.Value` gives to a JSON value that does not fit its target. -/
def kind : JSON → String
  | .null => "null"
  | .bool _ => "bool"
  | .number _ => "number"
  | .string _ => "string"
  | .array _ => "array"
  | .object _ => "object"

/-- One rune of `foldName`: ASCII letters go to upper case, and the two other runes whose
simple-folding orbit holds an ASCII letter (U+017F LATIN SMALL LETTER LONG S, U+212A KELVIN
SIGN) go to the smallest rune of that orbit. Every other rune folds within the non-ASCII
runes, so keeping it as it is leaves the comparison with an ASCII field name unchanged. -/
def foldRune (c : Char) : Char :=
  if 97 ≤ c.toNat ∧ c.toNat ≤ 122 then Char.ofNat (c.toNat - 32)
  else if c.toNat = 0x17F then 'S'
  else if c.toNat = 0x212A then 'K'
  else c

/-- Model of `foldName`: the key the decoder uses for its case-insensitive field lookup. -/
def foldName (s : String) : String :=
  String.mk (s.toList.map foldRune)

/-- The struct field a JSON object key is stored in: `fields.byExactName[key]`, and when there
is none `fields.byFoldedName[foldName(key)]`. -/
def findField (fields : List String) (key : String) : Option String :=
  match fields.find? (fun f => f == key) with
  | some f => some f
  | none => fields.find? (fun f => foldName f == foldName key)

/-- Decoder method `saveError`: only the first error is kept. -/
def saveError (saved : Option GoError) (err : GoError) : Option GoError :=
  match saved with
  | none => some err
  | some e => some e

/-- The loop of the decoder's `object` method for a struct whose fields are all strings:
for each member in turn, a key that names no field is skipped, a string value is stored, a
`null` leaves the field as it is, and any other value saves an `UnmarshalTypeError` and
decoding goes on. -/
def decodeMembers {α : Type} (fields : List String) (set : α → String → String → α) :
    List (String × JSON) → α → Option GoError → α × Option GoError
  | [], v, saved => (v, saved)
  | (key, val) :: rest, v, saved =>
    match findField fields key with
    | none => decodeMembers fields set rest v saved
    | some f =>
      match val with
      | .string s => decodeMembers fields set rest (set v f s) saved
      | .null => decodeMembers fields set rest v saved
      | other => decodeMembers fields set rest v (saveError saved (.unmarshalTypeError (kind other) f))

/-- Model of `json.NewDecoder(r.Body).Decode(&req)` for a struct of string fields. The body
is what the scanner finds at the head of the stream: `none` when that is no well-formed JSON
value (a syntax error, or the end of the stream), else the first value. `null` leaves the
struct as it is, an object is decoded member by member, any other value is an
`UnmarshalTypeError`. The struct is returned as far as it was filled, next to the error. -/
def Decode {α : Type} (fields : List String) (set : α → String → String → α) (req : α)
    (body : Option JSON) : α × Option GoError :=
  match body with
  | none => (req, some (.foreign "encoding/json" "no JSON value to decode"))
  | some .null => (req, none)
  | some (.object members) => decodeMembers fields set members req none
  | some other => (req, some (.unmarshalTypeError (kind other) ""))

/-- Hexadecimal digit of the encoder's table `hex`. -/
def hexDigit (n : Nat) : Char :=
  "0123456789abcdef".toList.getD n '0'

/-- One character of a string in the encoder (`appendString` with `escapeHTML` on, as
`Encoder` has it by default): quote and backslash get a backslash, backspace, form feed,
newline, carriage return and tab their letter, the other control characters and `<`, `>`,
`&` the form with `u00` and two hex digits, U+2028 and U+2029 the form with `u202`, and
everything else is copied. -/
def encodeChar (c : Char) : List Char :=
  let b := c.toNat
  if b = 92 ∨ b = 34 then [Char.ofNat 92, c]
  else if b = 8 then [Char.ofNat 92, 'b']
  else if b = 12 then [Char.ofNat 92, 'f']
  else if b = 10 then [Char.ofNat 92, 'n']
  else if b = 13 then [Char.ofNat 92, 'r']
  else if b = 9 then [Char.ofNat 92, 't']
  else if b < 32 ∨ b = 60 ∨ b = 62 ∨ b = 38 then
    [Char.ofNat 92, 'u', '0', '0', hexDigit (b / 16), hexDigit (b % 16)]
  else if b = 0x2028 ∨ b = 0x2029 then
    [Char.ofNat 92, 'u', '2', '0', '2', hexDigit (b % 16)]
  else [c]

/-- A Go string as the encoder writes it: quoted, each character through `encodeChar`. -/
def encodeString (s : String) : String :=
  "\"" ++ String.mk (s.toList.flatMap encodeChar) ++ "\""

/-- A Go `int` as the encoder writes it: its decimal digits, with `-` when negative. -/
def encodeInt (n : Int) : String :=
  toString n

/-- A slice as the encoder writes it: `null` for the nil slice, else the elements between
brackets, separated by commas, in order. -/
def encodeSlice {α : Type} (enc : α → String) : Slice α → String
  | none => "null"
  | some xs => "[" ++ ",".intercalate (xs.map enc) ++ "]"

end json

/-! ## `internal/infrastructure/rest/dto/request/request.go` -/

namespace request

/-- Source: `type CreateUserRequest struct { Name string "json:name" }`. -/
structure CreateUserRequest where
  Name : String
  deriving DecidableEq, Repr

/-- Source: `type CreateQuestionRequest struct { Text string "json:text" }`. -/
structure CreateQuestionRequest where
  Text : String
  deriving DecidableEq, Repr

/-- Source: `type CreateAnswerToQuestionRequest struct { UserId string "json:user_id";
Text string "json:text" }`. -/
structure CreateAnswerToQuestionRequest where
  UserId : String
  Text : String
  deriving DecidableEq, Repr

/-- Decoding into a `CreateUserRequest`: the JSON name of its one field is `name`. -/
def decodeCreateUserRequest (req : CreateUserRequest) (body : Option JSON) :
    CreateUserRequest × Option GoError :=
  json.Decode ["name"]
    (fun v f s => if f == "name" then { v with Name := s } else v) req body

/-- Decoding into a `CreateQuestionRequest`: the JSON name of its one field is `text`. -/
def decodeCreateQuestionRequest (req : CreateQuestionRequest) (body : Option JSON) :
    CreateQuestionRequest × Option GoError :=
  json.Decode ["text"]
    (fun v f s => if f == "text" then { v with Text := s } else v) req body

/-- Decoding into a `CreateAnswerToQuestionRequest`: the JSON names of its fields are
`user_id` and `text`, in that order. -/
def decodeCreateAnswerToQuestionRequest (req : CreateAnswerToQuestionRequest)
    (body : Option JSON) : CreateAnswerToQuestionRequest × Option GoError :=
  json.Decode ["user_id", "text"]
    (fun v f s =>
      if f == "user_id" then { v with UserId := s }
      else if f == "text" then { v with Text := s } else v) req body

end request

/-! ## `net/http`: status texts and the response writer -/

namespace http

/-- Source: `http.StatusOK`. -/
def StatusOK : Int := 200

/-- Source: `http.StatusBadRequest`. -/
def StatusBadRequest : Int := 400

/-- Source: `http.StatusInternalServerError`. -/
def StatusInternalServerError : Int := 500

/-- The cases of the switch in `http.StatusText`. -/
def statusTexts : List (Int × String) :=
  [(100, "Continue"),
   (101, "Switching Protocols"),
   (102, "Processing"),
   (103, "Early Hints"),
   (200, "OK"),
   (201, "Created"),
   (202, "Accepted"),
   (203, "Non-Authoritative Information"),
   (204, "No Content"),
   (205, "Reset Content"),
   (206, "Partial Content"),
   (207, "Multi-Status"),
   (208, "Already Reported"),
   (226, "IM Used"),
   (300, "Multiple Choices"),
   (301, "Moved Permanently"),
   (302, "Found"),
   (303, "See Other"),
   (304, "Not Modified"),
   (305, "Use Proxy"),
   (307, "Temporary Redirect"),
   (308, "Permanent Redirect"),
   (400, "Bad Request"),
   (401, "Unauthorized"),
   (402, "Payment Required"),
   (403, "Forbidden"),
   (404, "Not Found"),
   (405, "Method Not Allowed"),
   (406, "Not Acceptable"),
   (407, "Proxy Authentication Required"),
   (408, "Request Timeout"),
   (409, "Conflict"),
   (410, "Gone"),
   (411, "Length Required"),
   (412, "Precondition Failed"),
   (413, "Request Entity Too Large"),
   (414, "Request URI Too Long"),
   (415, "Unsupported Media Type"),
   (416, "Requested Range Not Satisfiable"),
   (417, "Expectation Failed"),
   (418, "I\x27m a teapot"),
   (421, "Misdirected Request"),
   (422, "Unprocessable Entity"),
   (423, "Locked"),
   (424, "Failed Dependency"),
   (425, "Too Early"),
   (426, "Upgrade Required"),
   (428, "Precondition Required"),
   (429, "Too Many Requests"),
   (431, "Request Header Fields Too Large"),
   (451, "Unavailable For Legal Reasons"),
   (500, "Internal Server Error"),
   (501, "Not Implemented"),
   (502, "Bad Gateway"),
   (503, "Service Unavailable"),
   (504, "Gateway Timeout"),
   (505, "HTTP Version Not Supported"),
   (506, "Variant Also Negotiates"),
   (507, "Insufficient Storage"),
   (508, "Loop Detected"),
   (510, "Not Extended"),
   (511, "Network Authentication Required")]

/-- Model of `http.StatusText`: the text of a known code, the empty string for any other. -/
def StatusText (code : Int) : String :=
  match statusTexts.find? (fun e => e.1 == code) with
  | some e => e.2
  | none => ""

/-- A header map, `http.Header`, restricted to single values. -/
abbrev Header := List (String × String)

/-- Model of `Header.Set` for a key in canonical form (`Content-Type` is): the value of the
key is replaced. -/
def Header.Set (h : Header) (key value : String) : Header :=
  (key, value) :: h.filter (fun kv => kv.1 != key)

/-- Model of `Header.Get`. -/
def Header.Get (h : Header) (key : String) : String :=
  match h.find? (fun kv => kv.1 == key) with
  | some kv => kv.2
  | none => ""

/-- The state of an `http.ResponseWriter` as the server implements it. -/
structure ResponseWriter where
  /-- The map `w.Header()` returns, which the handler may change at any time. -/
  handlerHeader : Header
  /-- Whether the status line was written. -/
  wroteHeader : Bool
  /-- The status code of the status line; meaningful once `wroteHeader`. -/
  status : Int
  /-- The header map in force when the status line was written: the one that is sent. -/
  sentHeader : Header
  /-- The informational (1xx) status lines sent before the final one. -/
  informational : List Int
  /-- The body bytes accepted so far. -/
  body : String
  /-- What the connection answers to a write: `none` when it takes the bytes. -/
  writeErr : Option GoError
  deriving DecidableEq, Repr

/-- A writer as a handler receives it: nothing written yet, the headers the middleware in
front of it has set, and the connection with its way of answering writes. -/
def ResponseWriter.fresh (hdr : Header) (writeErr : Option GoError) : ResponseWriter :=
  { handlerHeader := hdr, wroteHeader := false, status := 0, sentHeader := [],
    informational := [], body := "", writeErr := writeErr }

/-- Model of `w.Header().Set(key, value)`. -/
def ResponseWriter.SetHeader (w : ResponseWriter) (key value : String) : ResponseWriter :=
  { w with handlerHeader := w.handlerHeader.Set key value }

/-- Model of `w.WriteHeader(code)`: a second call is ignored, a code outside 100..999 panics
(`checkWriteHeaderCode`), an informational code other than 101 is sent at once and leaves the
writer waiting for the final code, any other code fixes the status and the headers sent. -/
def ResponseWriter.WriteHeader (w : ResponseWriter) (code : Int) : Except String ResponseWriter :=
  if w.wroteHeader then .ok w
  else if code < 100 ∨ code > 999 then .error ("invalid WriteHeader code " ++ toString code)
  else if 100 ≤ code ∧ code ≤ 199 ∧ code ≠ 101 then
    .ok { w with informational := w.informational ++ [code] }
  else .ok { w with wroteHeader := true, status := code, sentHeader := w.handlerHeader }

/-- Source: `bodyAllowedForStatus` of `net/http`. -/
def bodyAllowedForStatus (status : Int) : Bool :=
  if 100 ≤ status ∧ status ≤ 199 then false
  else if status = 204 then false
  else if status = 304 then false
  else true

/-- Model of `w.Write(data)`: the status line is written with 200 if it was not yet, a status
without body refuses the bytes (`http.ErrBodyNotAllowed`), and otherwise the connection
takes them or reports its error. -/
def ResponseWriter.Write (w : ResponseWriter) (data : String) : ResponseWriter × Option GoError :=
  let w := if w.wroteHeader then w
    else { w with wroteHeader := true, status := StatusOK, sentHeader := w.handlerHeader }
  if ¬ bodyAllowedForStatus w.status then
    (w, some (.new "http: request method or response status code does not allow body"))
  else
    match w.writeErr with
    | some e => (w, some e)
    | none => ({ w with body := w.body ++ data }, none)

end http

/-! ## `internal/infrastructure/rest/dto/response/response.go` -/

namespace response

/-- Source: `ErrCodeValidationFailed`. -/
def ErrCodeValidationFailed : String := "VALIDATION_FAILED"

/-- Source: `ErrCodeJsonParsingFailed`. -/
def ErrCodeJsonParsingFailed : String := "JSON_PARSING_FAILED"

/-- Source: `ErrCodeInternalServerError`. -/
def ErrCodeInternalServerError : String := "INTERNAL_SERVER_ERROR"

/-- Source: `type Error struct { Code string "json:code"; Desc string "json:desc,omitempty" }`. -/
structure Error where
  Code : String
  Desc : String
  deriving DecidableEq, Repr

/-- Source: `type CreateUserResponse struct { UserId string "json:user_id" }`. -/
structure CreateUserResponse where
  UserId : String
  deriving DecidableEq, Repr

/-- Source: `type CreateQuestionResponse struct { QuestionId int "json:question_id" }`. -/
structure CreateQuestionResponse where
  QuestionId : Int
  deriving DecidableEq, Repr

/-- Source: `type GetQuestionAndAnswersResponse struct { Question domain.Question
"json:question"; Answers []domain.Answer "json:answers" }`. -/
structure GetQuestionAndAnswersResponse where
  Question : domain.Question
  Answers : Slice domain.Answer
  deriving DecidableEq, Repr

/-- Source: `type CreateAnswerToQuestionResponse struct { AnswerId int "json:answer_id" }`. -/
structure CreateAnswerToQuestionResponse where
  AnswerId : Int
  deriving DecidableEq, Repr

/-- The values the handlers store in the field `Data any` of `Response`, by their Go type. -/
inductive Data where
  | createUser (v : CreateUserResponse)
  | users (v : Slice domain.User)
  | questions (v : Slice domain.Question)
  | createQuestion (v : CreateQuestionResponse)
  | questionAndAnswers (v : GetQuestionAndAnswersResponse)
  | createAnswerToQuestion (v : CreateAnswerToQuestionResponse)
  | answer (v : Option domain.Answer)
  deriving DecidableEq, Repr

/-- Source: `type Response struct { Status string "json:status"; Error *Error
"json:error,omitempty"; Data any "json:data,omitempty" }`. -/
structure Response where
  Status : String
  Error : Option Error
  Data : Option Data
  deriving DecidableEq, Repr

/-- Source: `type Option func(*Response)`. -/
abbrev ResponseOption := Response → Response

/-- Source: `WithError`. -/
def WithError (code desc : String) : ResponseOption :=
  fun r => { r with Error := some { Code := code, Desc := desc } }

/-- Source: `WithData`. Every handler passes a value of a concrete type, so the interface
stored is never the nil interface. -/
def WithData (data : Data) : ResponseOption :=
  fun r => { r with Data := some data }

/-- JSON of a `domain.Question`: the struct has no tags, so the keys are the Go field names. -/
def encodeQuestion (q : domain.Question) : String :=
  "\x7b\"Id\":" ++ json.encodeInt q.Id ++ ",\"Text\":" ++ json.encodeString q.Text ++ "\x7d"

/-- JSON of a `domain.Answer`: the struct has no tags, so the keys are the Go field names. -/
def encodeAnswer (a : domain.Answer) : String :=
  "\x7b\"Id\":" ++ json.encodeInt a.Id ++ ",\"QuestionId\":" ++ json.encodeInt a.QuestionId
    ++ ",\"UserId\":" ++ json.encodeString a.UserId ++ ",\"Text\":" ++ json.encodeString a.Text
    ++ "\x7d"

/-- JSON of a `domain.User`: the struct has no tags, so the keys are the Go field names. -/
def encodeUser (u : domain.User) : String :=
  "\x7b\"Id\":" ++ json.encodeString u.Id ++ ",\"Name\":" ++ json.encodeString u.Name ++ "\x7d"

/-- JSON of the value in `Data`, by its type: a struct by its tagged fields in declaration
order, a slice by `json.encodeSlice`, a nil pointer as `null`. -/
def encodeData : Data → String
  | .createUser v => "\x7b\"user_id\":" ++ json.encodeString v.UserId ++ "\x7d"
  | .users v => json.encodeSlice encodeUser v
  | .questions v => json.encodeSlice encodeQuestion v
  | .createQuestion v => "\x7b\"question_id\":" ++ json.encodeInt v.QuestionId ++ "\x7d"
  | .questionAndAnswers v =>
    "\x7b\"question\":" ++ encodeQuestion v.Question ++ ",\"answers\":"
      ++ json.encodeSlice encodeAnswer v.Answers ++ "\x7d"
  | .createAnswerToQuestion v => "\x7b\"answer_id\":" ++ json.encodeInt v.AnswerId ++ "\x7d"
  | .answer none => "null"
  | .answer (some a) => encodeAnswer a

/-- JSON of an `Error`: `desc` is left out when empty (`omitempty`). -/
def encodeError (e : Error) : String :=
  "\x7b\"code\":" ++ json.encodeString e.Code
    ++ (if e.Desc = "" then "" else ",\"desc\":" ++ json.encodeString e.Desc) ++ "\x7d"

/-- JSON of a `Response`: `error` is left out when the pointer is nil and `data` when the
interface is nil (`omitempty`). -/
def encodeResponse (r : Response) : String :=
  "\x7b\"status\":" ++ json.encodeString r.Status
    ++ (match r.Error with
        | none => ""
        | some e => ",\"error\":" ++ encodeError e)
    ++ (match r.Data with
        | none => ""
        | some d => ",\"data\":" ++ encodeData d)
    ++ "\x7d"

/-- Model of `json.NewEncoder(w).Encode(resp)`: the JSON text and a newline go to `w.Write`
in one call; the values encoded here cannot fail to marshal, so the only error is the
writer's. -/
def Encode (w : http.ResponseWriter) (resp : Response) : http.ResponseWriter × Option GoError :=
  w.Write (encodeResponse resp ++ "\n")

/-- Source: `ReturnResponse`. The envelope gets the status text, the options are applied in
order, then `WriteHeader`, then `Header().Set`, then the encoding; an encoding error comes
back wrapped. A panic of `WriteHeader` is the `error` of the result. -/
def ReturnResponse (w : http.ResponseWriter) (httpStatus : Int) (opts : List ResponseOption) :
    Except String (http.ResponseWriter × Option GoError) :=
  let resp : Response := { Status := http.StatusText httpStatus, Error := none, Data := none }
  let resp := opts.foldl (fun r opt => opt r) resp
  match w.WriteHeader httpStatus with
  | .error p => .error p
  | .ok w =>
    let w := w.SetHeader "Content-Type" "application/json"
    match Encode w resp with
    | (w, some err) => .ok (w, some (.wrap err "failed to encode and write JSON response"))
    | (w, none) => .ok (w, none)

end response

/-! ## `internal/infrastructure/rest/middleware/logg.go`: the request context -/

namespace middleware

/-- Source: `CtxKeyStatus`. -/
def CtxKeyStatus : String := "status"

/-- Source: `CtxKeyErrorList`. -/
def CtxKeyErrorList : String := "error_list"

/-- The values `UpdateContext` stores in the request context. -/
inductive CtxValue where
  | int (n : Int)
  | errors (list : List GoError)
  deriving DecidableEq, Repr

/-- A `context.Context` as a chain of key/value pairs, the most recent first. -/
abbrev Context := List (String × CtxValue)

/-- Model of `context.WithValue`. -/
def WithValue (ctx : Context) (key : String) (val : CtxValue) : Context :=
  (key, val) :: ctx

/-- Model of `ctx.Value(key)`: the most recent value stored under the key. -/
def Value (ctx : Context) (key : String) : Option CtxValue :=
  match ctx.find? (fun kv => kv.1 == key) with
  | some kv => some kv.2
  | none => none

end middleware

/-- An `*http.Request` as far as the handlers read and write it: the values of the path
wildcards, the body as the JSON decoder finds it (see `json.Decode`), and the context. -/
structure Request where
  pathValues : List (String × String)
  Body : Option JSON
  ctx : middleware.Context

/-- Model of `r.PathValue(name)`: the value of the wildcard, the empty string when the
pattern has no such wildcard. -/
def Request.PathValue (r : Request) (name : String) : String :=
  match r.pathValues.find? (fun kv => kv.1 == name) with
  | some kv => kv.2
  | none => ""

/-- Model of `r.Context()`. -/
def Request.Context (r : Request) : middleware.Context :=
  r.ctx

/-- Source: `middleware.UpdateContext`: the status and the error list are stored in the
context that is passed, and the request gets that context. -/
def middleware.UpdateContext (ctx : middleware.Context) (r : Request) (status : Int)
    (errorList : List GoError) : Request :=
  let ctx := middleware.WithValue ctx middleware.CtxKeyStatus (.int status)
  let ctx := middleware.WithValue ctx middleware.CtxKeyErrorList (.errors errorList)
  { r with ctx := ctx }

/-- Go's builtin `len` on a string: the number of its bytes. -/
def len (s : String) : Nat :=
  (goBytes s).length

/-- The statement `if err != nil { errorList = append(errorList, err) }`. -/
def appendIfErr (errorList : List GoError) (err : Option GoError) : List GoError :=
  match err with
  | some e => errorList ++ [e]
  | none => errorList

/-- Text of the run-time panic of dereferencing a nil pointer. -/
def nilDereference : String :=
  "runtime error: invalid memory address or nil pointer dereference"

/-! ## `internal/infrastructure/rest/handler.go` -/

namespace rest

/-- A call of a method of `QNADispatcher`, with its arguments (pointer arguments by the value
they point to). -/
inductive Call where
  | CreateUser (userName : String)
  | GetUsers
  | DeleteUser (userId : String)
  | GetQuestions
  | CreateQuestion (question : String)
  | GetQuestionAndAnswers (questionId : Int)
  | DeleteQuestionAndAnswers (questionId : Int)
  | CreateAnswerToQuestion (answer : domain.Answer)
  | GetAnswer (answerId : Int)
  | DeleteAnswer (answerId : Int)
  deriving DecidableEq, Repr

/-- An implementation of the interface `QNADispatcher`: what each method returns for its
arguments, and the record of the calls made so far, oldest first. A pointer result is an
`Option`, `none` being nil. -/
structure QNADispatcher where
  createUser : String → Option String × Option GoError
  getUsers : Option (Slice domain.User) × Option GoError
  deleteUser : String → Option GoError
  getQuestions : Option (Slice domain.Question) × Option GoError
  createQuestion : String → Int × Option GoError
  getQuestionAndAnswers : Int → Option domain.Question × Option (Slice domain.Answer) × Option GoError
  deleteQuestionAndAnswers : Int → Option GoError
  createAnswerToQuestion : domain.Answer → Int × Option GoError
  getAnswer : Int → Option domain.Answer × Option GoError
  deleteAnswer : Int → Option GoError
  calls : List Call

namespace QNADispatcher

/-- The service after one more call is recorded. -/
def record (s : QNADispatcher) (c : Call) : QNADispatcher :=
  { s with calls := s.calls ++ [c] }

/-- Interface method `CreateUser`. -/
def CreateUser (s : QNADispatcher) (userName : String) :
    (Option String × Option GoError) × QNADispatcher :=
  (s.createUser userName, s.record (.CreateUser userName))

/-- Interface method `GetUsers`. -/
def GetUsers (s : QNADispatcher) : (Option (Slice domain.User) × Option GoError) × QNADispatcher :=
  (s.getUsers, s.record .GetUsers)

/-- Interface method `DeleteUser`. -/
def DeleteUser (s : QNADispatcher) (userId : String) : Option GoError × QNADispatcher :=
  (s.deleteUser userId, s.record (.DeleteUser userId))

/-- Interface method `GetQuestions`. -/
def GetQuestions (s : QNADispatcher) :
    (Option (Slice domain.Question) × Option GoError) × QNADispatcher :=
  (s.getQuestions, s.record .GetQuestions)

/-- Interface method `CreateQuestion`. -/
def CreateQuestion (s : QNADispatcher) (question : String) :
    (Int × Option GoError) × QNADispatcher :=
  (s.createQuestion question, s.record (.CreateQuestion question))

/-- Interface method `GetQuestionAndAnswers`. -/
def GetQuestionAndAnswers (s : QNADispatcher) (questionId : Int) :
    (Option domain.Question × Option (Slice domain.Answer) × Option GoError) × QNADispatcher :=
  (s.getQuestionAndAnswers questionId, s.record (.GetQuestionAndAnswers questionId))

/-- Interface method `DeleteQuestionAndAnswers`. -/
def DeleteQuestionAndAnswers (s : QNADispatcher) (questionId : Int) :
    Option GoError × QNADispatcher :=
  (s.deleteQuestionAndAnswers questionId, s.record (.DeleteQuestionAndAnswers questionId))

/-- Interface method `CreateAnswerToQuestion`. -/
def CreateAnswerToQuestion (s : QNADispatcher) (answer : domain.Answer) :
    (Int × Option GoError) × QNADispatcher :=
  (s.createAnswerToQuestion answer, s.record (.CreateAnswerToQuestion answer))

/-- Interface method `GetAnswer`. -/
def GetAnswer (s : QNADispatcher) (answerId : Int) :
    (Option domain.Answer × Option GoError) × QNADispatcher :=
  (s.getAnswer answerId, s.record (.GetAnswer answerId))

/-- Interface method `DeleteAnswer`. -/
def DeleteAnswer (s : QNADispatcher) (answerId : Int) : Option GoError × QNADispatcher :=
  (s.deleteAnswer answerId, s.record (.DeleteAnswer answerId))

end QNADispatcher

/-- Source: `type serverAPI struct`; the handlers use its `service` only. -/
structure serverAPI where
  service : QNADispatcher

/-- What a handler leaves behind: the writer, the service with its record of calls, the
request with its context, and the panic that ended the handler, if one did. A panic leaves
the writer and the request as they were when it was raised. -/
structure Outcome where
  w : http.ResponseWriter
  service : QNADispatcher
  r : Request
  panicked : Option String

namespace serverAPI

/-- Source: `serverAPI.CreateUser`. -/
def CreateUser (t : serverAPI) (w : http.ResponseWriter) (r : Request) : Outcome :=
  let errorList : List GoError := []
  let ctx := r.Context
  let req : request.CreateUserRequest := { Name := "" }
  match request.decodeCreateUserRequest req r.Body with
  | (_, some err) =>
    let errorList := errorList ++ [err]
    match response.ReturnResponse w http.StatusBadRequest
        [response.WithError response.ErrCodeJsonParsingFailed "Invalid request body"] with
    | .error p => { w := w, service := t.service, r := r, panicked := some p }
    | .ok (w, err) =>
      let errorList := appendIfErr errorList err
      { w := w, service := t.service, panicked := none,
        r := middleware.UpdateContext ctx r http.StatusBadRequest errorList }
  | (req, none) =>
    if len req.Name = 0 then
      let errorList := errorList ++ [.new "field \"name\" must not be empty"]
      match response.ReturnResponse w http.StatusBadRequest
          [response.WithError response.ErrCodeValidationFailed "field \"name\" must not be empty"] with
      | .error p => { w := w, service := t.service, r := r, panicked := some p }
      | .ok (w, err) =>
        let errorList := appendIfErr errorList err
        { w := w, service := t.service, panicked := none,
          r := middleware.UpdateContext ctx r http.StatusBadRequest errorList }
    else
      match t.service.CreateUser req.Name with
      | ((_, some err), service) =>
        let errorList := errorList ++ [err]
        match response.ReturnResponse w http.StatusInternalServerError
            [response.WithError response.ErrCodeInternalServerError "internal server error"] with
        | .error p => { w := w, service := service, r := r, panicked := some p }
        | .ok (w, err) =>
          let errorList := appendIfErr errorList err
          { w := w, service := service, panicked := none,
            r := middleware.UpdateContext ctx r http.StatusInternalServerError errorList }
      | ((none, none), service) =>
        { w := w, service := service, r := r, panicked := some nilDereference }
      | ((some userId, none), service) =>
        match response.ReturnResponse w http.StatusOK
            [response.WithData (.createUser { UserId := userId })] with
        | .error p => { w := w, service := service, r := r, panicked := some p }
        | .ok (w, err) =>
          let errorList := appendIfErr errorList err
          { w := w, service := service, panicked := none,
            r := middleware.UpdateContext ctx r http.StatusOK errorList }

/-- Source: `serverAPI.GetUsers`. -/
def GetUsers (t : serverAPI) (w : http.ResponseWriter) (r : Request) : Outcome :=
  let errorList : List GoError := []
  let ctx := r.Context
  match t.service.GetUsers with
  | ((_, some err), service) =>
    let errorList := errorList ++ [err]
    match response.ReturnResponse w http.StatusInternalServerError
        [response.WithError response.ErrCodeInternalServerError "internal server error"] with
    | .error p => { w := w, service := service, r := r, panicked := some p }
    | .ok (w, err) =>
      let errorList := appendIfErr errorList err
      { w := w, service := service, panicked := none,
        r := middleware.UpdateContext ctx r http.StatusInternalServerError errorList }
  | ((none, none), service) =>
    { w := w, service := service, r := r, panicked := some nilDereference }
  | ((some users, none), service) =>
    match response.ReturnResponse w http.StatusOK
        [response.WithData (.users users)] with
    | .error p => { w := w, service := service, r := r, panicked := some p }
    | .ok (w, err) =>
      let errorList := appendIfErr errorList err
      { w := w, service := service, panicked := none,
        r := middleware.UpdateContext ctx r http.StatusOK errorList }

/-- Source: `serverAPI.DeleteUser`. -/
def DeleteUser (t : serverAPI) (w : http.ResponseWriter) (r : Request) : Outcome :=
  let errorList : List GoError := []
  let ctx := r.Context
  let userId := r.PathValue "id"
  match uuid.Parse userId with
  | .error err =>
    let errorList := errorList ++ [err]
    match response.ReturnResponse w http.StatusBadRequest
        [response.WithError response.ErrCodeValidationFailed "invalid UUID format for \"id\""] with
    | .error p => { w := w, service := t.service, r := r, panicked := some p }
    | .ok (w, err) =>
      let errorList := appendIfErr errorList err
      { w := w, service := t.service, panicked := none,
        r := middleware.UpdateContext ctx r http.StatusBadRequest errorList }
  | .ok _ =>
    match t.service.DeleteUser userId with
    | (some err, service) =>
      let errorList := errorList ++ [err]
      match response.ReturnResponse w http.StatusInternalServerError
          [response.WithError response.ErrCodeInternalServerError "internal server error"] with
      | .error p => { w := w, service := service, r := r, panicked := some p }
      | .ok (w, err) =>
        let errorList := appendIfErr errorList err
        { w := w, service := service, panicked := none,
          r := middleware.UpdateContext ctx r http.StatusInternalServerError errorList }
    | (none, service) =>
      match response.ReturnResponse w http.StatusOK
          [] with
      | .error p => { w := w, service := service, r := r, panicked := some p }
      | .ok (w, err) =>
        let errorList := appendIfErr errorList err
        { w := w, service := service, panicked := none,
          r := middleware.UpdateContext ctx r http.StatusOK errorList }

/-- Source: `serverAPI.GetQuestions`. -/
def GetQuestions (t : serverAPI) (w : http.ResponseWriter) (r : Request) : Outcome :=
  let errorList : List GoError := []
  let ctx := r.Context
  match t.service.GetQuestions with
  | ((_, some err), service) =>
    let errorList := errorList ++ [err]
    match response.ReturnResponse w http.StatusInternalServerError
        [response.WithError response.ErrCodeInternalServerError "internal server error"] with
    | .error p => { w := w, service := service, r := r, panicked := some p }
    | .ok (w, err) =>
      let errorList := appendIfErr errorList err
      { w := w, service := service, panicked := none,
        r := middleware.UpdateContext ctx r http.StatusInternalServerError errorList }
  | ((none, none), service) =>
    { w := w, service := service, r := r, panicked := some nilDereference }
  | ((some questions, none), service) =>
    match response.ReturnResponse w http.StatusOK
        [response.WithData (.questions questions)] with
    | .error p => { w := w, service := service, r := r, panicked := some p }
    | .ok (w, err) =>
      let errorList := appendIfErr errorList err
      { w := w, service := service, panicked := none,
        r := middleware.UpdateContext ctx r http.StatusOK errorList }

/-- Source: `serverAPI.CreateQuestion`. -/
def CreateQuestion (t : serverAPI) (w : http.ResponseWriter) (r : Request) : Outcome :=
  let errorList : List GoError := []
  let ctx := r.Context
  let req : request.CreateQuestionRequest := { Text := "" }
  match request.decodeCreateQuestionRequest req r.Body with
  | (_, some err) =>
    let errorList := errorList ++ [err]
    match response.ReturnResponse w http.StatusBadRequest
        [response.WithError response.ErrCodeJsonParsingFailed "Invalid request body"] with
    | .error p => { w := w, service := t.service, r := r, panicked := some p }
    | .ok (w, err) =>
      let errorList := appendIfErr errorList err
      { w := w, service := t.service, panicked := none,
        r := middleware.UpdateContext ctx r http.StatusBadRequest errorList }
  | (req, none) =>
    if len req.Text = 0 then
      let errorList := errorList ++ [.new "field \"text\" must not be empty"]
      match response.ReturnResponse w http.StatusBadRequest
          [response.WithError response.ErrCodeValidationFailed "field \"text\" must not be empty"] with
      | .error p => { w := w, service := t.service, r := r, panicked := some p }
      | .ok (w, err) =>
        let errorList := appendIfErr errorList err
        { w := w, service := t.service, panicked := none,
          r := middleware.UpdateContext ctx r http.StatusBadRequest errorList }
    else
      match t.service.CreateQuestion req.Text with
      | ((_, some err), service) =>
        let errorList := errorList ++ [err]
        match response.ReturnResponse w http.StatusInternalServerError
            [response.WithError response.ErrCodeInternalServerError "internal server error"] with
        | .error p => { w := w, service := service, r := r, panicked := some p }
        | .ok (w, err) =>
          let errorList := appendIfErr errorList err
          { w := w, service := service, panicked := none,
            r := middleware.UpdateContext ctx r http.StatusInternalServerError errorList }
      | ((questionId, none), service) =>
        match response.ReturnResponse w http.StatusOK
            [response.WithData (.createQuestion { QuestionId := questionId })] with
        | .error p => { w := w, service := service, r := r, panicked := some p }
        | .ok (w, err) =>
          let errorList := appendIfErr errorList err
          { w := w, service := service, panicked := none,
            r := middleware.UpdateContext ctx r http.StatusOK errorList }

/-- Source: `serverAPI.GetQuestionAndAnswers`. -/
def GetQuestionAndAnswers (t : serverAPI) (w : http.ResponseWriter) (r : Request) : Outcome :=
  let errorList : List GoError := []
  let ctx := r.Context
  let questionId := r.PathValue "id"
  match strconv.Atoi questionId with
  | .error err =>
    let errorList := errorList ++ [err]
    match response.ReturnResponse w http.StatusBadRequest
        [response.WithError response.ErrCodeValidationFailed "invalid ID format for \"id\""] with
    | .error p => { w := w, service := t.service, r := r, panicked := some p }
    | .ok (w, err) =>
      let errorList := appendIfErr errorList err
      { w := w, service := t.service, panicked := none,
        r := middleware.UpdateContext ctx r http.StatusBadRequest errorList }
  | .ok questionIdInt =>
    if questionIdInt < 1 then
      let errorList := errorList ++ [.new "ID must be a positive integer"]
      match response.ReturnResponse w http.StatusBadRequest
          [response.WithError response.ErrCodeValidationFailed "ID must be a positive integer"] with
      | .error p => { w := w, service := t.service, r := r, panicked := some p }
      | .ok (w, err) =>
        let errorList := appendIfErr errorList err
        { w := w, service := t.service, panicked := none,
          r := middleware.UpdateContext ctx r http.StatusBadRequest errorList }
    else
      match t.service.GetQuestionAndAnswers questionIdInt with
      | ((_, _, some err), service) =>
        let errorList := errorList ++ [err]
        match response.ReturnResponse w http.StatusInternalServerError
            [response.WithError response.ErrCodeInternalServerError "internal server error"] with
        | .error p => { w := w, service := service, r := r, panicked := some p }
        | .ok (w, err) =>
          let errorList := appendIfErr errorList err
          { w := w, service := service, panicked := none,
            r := middleware.UpdateContext ctx r http.StatusInternalServerError errorList }
      | ((none, _, none), service) =>
        { w := w, service := service, r := r, panicked := some nilDereference }
      | ((some _, none, none), service) =>
        { w := w, service := service, r := r, panicked := some nilDereference }
      | ((some question, some answers, none), service) =>
        match response.ReturnResponse w http.StatusOK
            [response.WithData (.questionAndAnswers { Question := question, Answers := answers })] with
        | .error p => { w := w, service := service, r := r, panicked := some p }
        | .ok (w, err) =>
          let errorList := appendIfErr errorList err
          { w := w, service := service, panicked := none,
            r := middleware.UpdateContext ctx r http.StatusOK errorList }

/-- Source: `serverAPI.DeleteQuestionAndAnswers`. -/
def DeleteQuestionAndAnswers (t : serverAPI) (w : http.ResponseWriter) (r : Request) : Outcome :=
  let errorList : List GoError := []
  let ctx := r.Context
  let questionId := r.PathValue "id"
  match strconv.Atoi questionId with
  | .error err =>
    let errorList := errorList ++ [err]
    match response.ReturnResponse w http.StatusBadRequest
        [response.WithError response.ErrCodeValidationFailed "invalid ID format for \"id\""] with
    | .error p => { w := w, service := t.service, r := r, panicked := some p }
    | .ok (w, err) =>
      let errorList := appendIfErr errorList err
      { w := w, service := t.service, panicked := none,
        r := middleware.UpdateContext ctx r http.StatusBadRequest errorList }
  | .ok questionIdInt =>
    if questionIdInt < 1 then
      let errorList := errorList ++ [.new "ID must be a positive integer"]
      match response.ReturnResponse w http.StatusBadRequest
          [response.WithError response.ErrCodeValidationFailed "ID must be a positive integer"] with
      | .error p => { w := w, service := t.service, r := r, panicked := some p }
      | .ok (w, err) =>
        let errorList := appendIfErr errorList err
        { w := w, service := t.service, panicked := none,
          r := middleware.UpdateContext ctx r http.StatusBadRequest errorList }
    else
      match t.service.DeleteQuestionAndAnswers questionIdInt with
      | (some err, service) =>
        let errorList := errorList ++ [err]
        match response.ReturnResponse w http.StatusInternalServerError
            [response.WithError response.ErrCodeInternalServerError "internal server error"] with
        | .error p => { w := w, service := service, r := r, panicked := some p }
        | .ok (w, err) =>
          let errorList := appendIfErr errorList err
          { w := w, service := service, panicked := none,
            r := middleware.UpdateContext ctx r http.StatusInternalServerError errorList }
      | (none, service) =>
        match response.ReturnResponse w http.StatusOK
            [] with
        | .error p => { w := w, service := service, r := r, panicked := some p }
        | .ok (w, err) =>
          let errorList := appendIfErr errorList err
          { w := w, service := service, panicked := none,
            r := middleware.UpdateContext ctx r http.StatusOK errorList }

/-- Source: `serverAPI.CreateAnswerToQuestion`. -/
def CreateAnswerToQuestion (t : serverAPI) (w : http.ResponseWriter) (r : Request) : Outcome :=
  let errorList : List GoError := []
  let ctx := r.Context
  let req : request.CreateAnswerToQuestionRequest := { UserId := "", Text := "" }
  let questionId := r.PathValue "id"
  match request.decodeCreateAnswerToQuestionRequest req r.Body with
  | (_, some err) =>
    let errorList := errorList ++ [err]
    match response.ReturnResponse w http.StatusBadRequest
        [response.WithError response.ErrCodeJsonParsingFailed "Invalid request body"] with
    | .error p => { w := w, service := t.service, r := r, panicked := some p }
    | .ok (w, err) =>
      let errorList := appendIfErr errorList err
      { w := w, service := t.service, panicked := none,
        r := middleware.UpdateContext ctx r http.StatusBadRequest errorList }
  | (req, none) =>
    match strconv.Atoi questionId with
    | .error err =>
      let errorList := errorList ++ [err]
      match response.ReturnResponse w http.StatusBadRequest
          [response.WithError response.ErrCodeValidationFailed "invalid ID format for \"id\""] with
      | .error p => { w := w, service := t.service, r := r, panicked := some p }
      | .ok (w, err) =>
        let errorList := appendIfErr errorList err
        { w := w, service := t.service, panicked := none,
          r := middleware.UpdateContext ctx r http.StatusBadRequest errorList }
    | .ok questionIdInt =>
      if questionIdInt < 1 then
        let errorList := errorList ++ [.new "ID must be a positive integer"]
        match response.ReturnResponse w http.StatusBadRequest
            [response.WithError response.ErrCodeValidationFailed "ID must be a positive integer"] with
        | .error p => { w := w, service := t.service, r := r, panicked := some p }
        | .ok (w, err) =>
          let errorList := appendIfErr errorList err
          { w := w, service := t.service, panicked := none,
            r := middleware.UpdateContext ctx r http.StatusBadRequest errorList }
      else if len req.Text = 0 then
        let errorList := errorList ++ [.new "field \"text\" must not be empty"]
        match response.ReturnResponse w http.StatusBadRequest
            [response.WithError response.ErrCodeValidationFailed "field \"text\" must not be empty"] with
        | .error p => { w := w, service := t.service, r := r, panicked := some p }
        | .ok (w, err) =>
          let errorList := appendIfErr errorList err
          { w := w, service := t.service, panicked := none,
            r := middleware.UpdateContext ctx r http.StatusBadRequest errorList }
      else
        match uuid.Parse req.UserId with
        | .error err =>
          let errorList := errorList ++ [err]
          match response.ReturnResponse w http.StatusBadRequest
              [response.WithError response.ErrCodeValidationFailed "invalid UUID format for \"user_id\""] with
          | .error p => { w := w, service := t.service, r := r, panicked := some p }
          | .ok (w, err) =>
            let errorList := appendIfErr errorList err
            { w := w, service := t.service, panicked := none,
              r := middleware.UpdateContext ctx r http.StatusBadRequest errorList }
        | .ok _ =>
          let answer : domain.Answer :=
            { Id := 0, QuestionId := questionIdInt, UserId := req.UserId, Text := req.Text }
          match t.service.CreateAnswerToQuestion answer with
          | ((_, some err), service) =>
            let errorList := errorList ++ [err]
            match response.ReturnResponse w http.StatusInternalServerError
                [response.WithError response.ErrCodeInternalServerError "internal server error"] with
            | .error p => { w := w, service := service, r := r, panicked := some p }
            | .ok (w, err) =>
              let errorList := appendIfErr errorList err
              { w := w, service := service, panicked := none,
                r := middleware.UpdateContext ctx r http.StatusInternalServerError errorList }
          | ((answerId, none), service) =>
            match response.ReturnResponse w http.StatusOK
                [response.WithData (.createAnswerToQuestion { AnswerId := answerId })] with
            | .error p => { w := w, service := service, r := r, panicked := some p }
            | .ok (w, err) =>
              let errorList := appendIfErr errorList err
              { w := w, service := service, panicked := none,
                r := middleware.UpdateContext ctx r http.StatusOK errorList }

/-- Source: `serverAPI.GetAnswer`. -/
def GetAnswer (t : serverAPI) (w : http.ResponseWriter) (r : Request) : Outcome :=
  let errorList : List GoError := []
  let ctx := r.Context
  let answerId := r.PathValue "id"
  match strconv.Atoi answerId with
  | .error err =>
    let errorList := errorList ++ [err]
    match response.ReturnResponse w http.StatusBadRequest
        [response.WithError response.ErrCodeValidationFailed "invalid ID format for \"id\""] with
    | .error p => { w := w, service := t.service, r := r, panicked := some p }
    | .ok (w, err) =>
      let errorList := appendIfErr errorList err
      { w := w, service := t.service, panicked := none,
        r := middleware.UpdateContext ctx r http.StatusBadRequest errorList }
  | .ok answerIdInt =>
    if answerIdInt < 1 then
      let errorList := errorList ++ [.new "ID must be a positive integer"]
      match response.ReturnResponse w http.StatusBadRequest
          [response.WithError response.ErrCodeValidationFailed "ID must be a positive integer"] with
      | .error p => { w := w, service := t.service, r := r, panicked := some p }
      | .ok (w, err) =>
        let errorList := appendIfErr errorList err
        { w := w, service := t.service, panicked := none,
          r := middleware.UpdateContext ctx r http.StatusBadRequest errorList }
    else
      match t.service.GetAnswer answerIdInt with
      | ((_, some err), service) =>
        let errorList := errorList ++ [err]
        match response.ReturnResponse w http.StatusInternalServerError
            [response.WithError response.ErrCodeInternalServerError "internal server error"] with
        | .error p => { w := w, service := service, r := r, panicked := some p }
        | .ok (w, err) =>
          let errorList := appendIfErr errorList err
          { w := w, service := service, panicked := none,
            r := middleware.UpdateContext ctx r http.StatusInternalServerError errorList }
      | ((answer, none), service) =>
        match response.ReturnResponse w http.StatusOK
            [response.WithData (.answer answer)] with
        | .error p => { w := w, service := service, r := r, panicked := some p }
        | .ok (w, err) =>
          let errorList := appendIfErr errorList err
          { w := w, service := service, panicked := none,
            r := middleware.UpdateContext ctx r http.StatusOK errorList }

/-- Source: `serverAPI.DeleteAnswer`. -/
def DeleteAnswer (t : serverAPI) (w : http.ResponseWriter) (r : Request) : Outcome :=
  let errorList : List GoError := []
  let ctx := r.Context
  let answerId := r.PathValue "id"
  match strconv.Atoi answerId with
  | .error err =>
    let errorList := errorList ++ [err]
    match response.ReturnResponse w http.StatusBadRequest
        [response.WithError response.ErrCodeValidationFailed "invalid ID format for \"id\""] with
    | .error p => { w := w, service := t.service, r := r, panicked := some p }
    | .ok (w, err) =>
      let errorList := appendIfErr errorList err
      { w := w, service := t.service, panicked := none,
        r := middleware.UpdateContext ctx r http.StatusBadRequest errorList }
  | .ok answerIdInt =>
    if answerIdInt < 1 then
      let errorList := errorList ++ [.new "ID must be a positive integer"]
      match response.ReturnResponse w http.StatusBadRequest
          [response.WithError response.ErrCodeValidationFailed "ID must be a positive integer"] with
      | .error p => { w := w, service := t.service, r := r, panicked := some p }
      | .ok (w, err) =>
        let errorList := appendIfErr errorList err
        { w := w, service := t.service, panicked := none,
          r := middleware.UpdateContext ctx r http.StatusBadRequest errorList }
    else
      match t.service.DeleteAnswer answerIdInt with
      | (some err, service) =>
        let errorList := errorList ++ [err]
        match response.ReturnResponse w http.StatusInternalServerError
            [response.WithError response.ErrCodeInternalServerError "internal server error"] with
        | .error p => { w := w, service := service, r := r, panicked := some p }
        | .ok (w, err) =>
          let errorList := appendIfErr errorList err
          { w := w, service := service, panicked := none,
            r := middleware.UpdateContext ctx r http.StatusInternalServerError errorList }
      | (none, service) =>
        match response.ReturnResponse w http.StatusOK
            [] with
        | .error p => { w := w, service := service, r := r, panicked := some p }
        | .ok (w, err) =>
          let errorList := appendIfErr errorList err
          { w := w, service := service, panicked := none,
            r := middleware.UpdateContext ctx r http.StatusOK errorList }

end serverAPI

/-- The ten routes `NewRestServer` registers on the mux, each by its handler. -/
inductive Handler where
  | CreateUser
  | GetUsers
  | DeleteUser
  | GetQuestionAndAnswers
  | DeleteQuestionAndAnswers
  | CreateAnswerToQuestion
  | GetQuestions
  | CreateQuestion
  | GetAnswer
  | DeleteAnswer
  deriving DecidableEq, Repr

/-- Source: the patterns of `NewRestServer`. -/
def Handler.pattern : Handler → String
  | .CreateUser => "POST /users/"
  | .GetUsers => "GET /users/"
  | .DeleteUser => "DELETE /users/\x7bid\x7d"
  | .GetQuestionAndAnswers => "GET /questions/\x7bid\x7d"
  | .DeleteQuestionAndAnswers => "DELETE /questions/\x7bid\x7d"
  | .CreateAnswerToQuestion => "POST /questions/\x7bid\x7d/answers/"
  | .GetQuestions => "GET /questions/"
  | .CreateQuestion => "POST /questions/"
  | .GetAnswer => "GET /answers/\x7bid\x7d"
  | .DeleteAnswer => "DELETE /answers/\x7bid\x7d"

/-- The method of `serverAPI` a route is bound to, run on a writer and a request. -/
def Handler.serve (h : Handler) (api : serverAPI) (w : http.ResponseWriter) (r : Request) :
    Outcome :=
  match h with
  | .CreateUser => api.CreateUser w r
  | .GetUsers => api.GetUsers w r
  | .DeleteUser => api.DeleteUser w r
  | .GetQuestionAndAnswers => api.GetQuestionAndAnswers w r
  | .DeleteQuestionAndAnswers => api.DeleteQuestionAndAnswers w r
  | .CreateAnswerToQuestion => api.CreateAnswerToQuestion w r
  | .GetQuestions => api.GetQuestions w r
  | .CreateQuestion => api.CreateQuestion w r
  | .GetAnswer => api.GetAnswer w r
  | .DeleteAnswer => api.DeleteAnswer w r

/-! ## Vocabulary of the theorems -/

/-- The writer after one status line and one envelope went out on a fresh writer: the
headers sent are those set before the status line, and the body holds the text unless the
connection refused it. -/
def written (hdr : http.Header) (we : Option GoError) (status : Int) (text : String) :
    http.ResponseWriter :=
  { handlerHeader := hdr.Set "Content-Type" "application/json", wroteHeader := true,
    status := status, sentHeader := hdr, informational := [],
    body := match we with
      | none => text
      | some _ => "",
    writeErr := we }

/-- The error `ReturnResponse` returns when the connection refuses the envelope. -/
def writeFailure (we : Option GoError) : Option GoError :=
  we.map (fun e => GoError.wrap e "failed to encode and write JSON response")

/-- The outcome of a handler that returned after answering a fresh writer with a status and
an envelope, having collected the errors of `errorList` before it wrote. -/
def finished (hdr : http.Header) (we : Option GoError) (service : QNADispatcher) (r : Request)
    (errorList : List GoError) (status : Int) (resp : response.Response) : Outcome :=
  { w := written hdr we status (response.encodeResponse resp ++ "\n"),
    service := service, panicked := none,
    r := middleware.UpdateContext r.ctx r status (appendIfErr errorList (writeFailure we)) }

/-- The envelope of a failure: the text of the status, a code and a description. -/
def failure (status : Int) (code desc : String) : response.Response :=
  { Status := http.StatusText status, Error := some { Code := code, Desc := desc }, Data := none }

/-- The envelope of a success: the text of status 200 and the data, if any. -/
def success (data : Option response.Data) : response.Response :=
  { Status := http.StatusText 200, Error := none, Data := data }

/-- The handler returned, the status line carries `status`, and the body is `body` provided
the connection took the bytes. -/
def Outcome.Answered (o : Outcome) (status : Int) (body : String) : Prop :=
  o.panicked = none ∧ o.w.wroteHeader = true ∧ o.w.status = status
    ∧ (o.w.writeErr = none → o.w.body = body)

instance (o : Outcome) (status : Int) (body : String) : Decidable (o.Answered status body) := by
  unfold Outcome.Answered
  infer_instance

/-- The four shapes the outcome of a handler on a fresh writer can have: a rejection before
any call of the service, a failure of the one call made, a success of the one call made, and
a panic after the one call made. -/
inductive Shape (t : serverAPI) (hdr : http.Header) (we : Option GoError) (r : Request) :
    Outcome → Prop where
  | rejected (err : GoError) (code desc : String)
      (hcode : code = response.ErrCodeValidationFailed ∨ code = response.ErrCodeJsonParsingFailed) :
      Shape t hdr we r (finished hdr we t.service r [err] 400 (failure 400 code desc))
  | failed (c : Call) (err : GoError) :
      Shape t hdr we r (finished hdr we (t.service.record c) r [err] 500
        (failure 500 response.ErrCodeInternalServerError "internal server error"))
  | succeeded (c : Call) (data : Option response.Data) :
      Shape t hdr we r (finished hdr we (t.service.record c) r [] 200 (success data))
  | panicked (c : Call) :
      Shape t hdr we r
        { w := http.ResponseWriter.fresh hdr we, service := t.service.record c, r := r,
          panicked := some nilDereference }

/-- Whether a JSON value is `null`. -/
def json.isNull : JSON → Bool
  | .null => true
  | _ => false

/-! ## Bodies as the specification writes them

Every envelope ends with the newline `Encoder.Encode` appends. -/

/-- The body the specification gives for any failure of the service. -/
def specInternalServerErrorBody : String :=
  "\x7b\"status\":\"Internal Server Error\",\"error\":\x7b\"code\":\"INTERNAL_SERVER_ERROR\",\"desc\":\"internal server error\"\x7d\x7d\n"

/-- The body the specification gives for a body that does not decode. -/
def specJsonParsingFailedBody : String :=
  "\x7b\"status\":\"Bad Request\",\"error\":\x7b\"code\":\"JSON_PARSING_FAILED\",\"desc\":\"Invalid request body\"\x7d\x7d\n"

/-- The body the specification gives for a validation failure with a description, given as
it stands between the quotes of the JSON text. -/
def specValidationFailedBody (desc : String) : String :=
  "\x7b\"status\":\"Bad Request\",\"error\":\x7b\"code\":\"VALIDATION_FAILED\",\"desc\":\"" ++ desc ++ "\"\x7d\x7d\n"

/-- The body the specification gives for a success with data, given as JSON text. -/
def specOkBody (data : String) : String :=
  "\x7b\"status\":\"OK\",\"data\":" ++ data ++ "\x7d\n"

/-- An answer as the specification serialises it: lower-case keys `id`, `question_id`,
`user_id`, `text`. -/
def specAnswer (a : domain.Answer) : String :=
  "\x7b\"id\":" ++ json.encodeInt a.Id ++ ",\"question_id\":" ++ json.encodeInt a.QuestionId
    ++ ",\"user_id\":" ++ json.encodeString a.UserId ++ ",\"text\":" ++ json.encodeString a.Text
    ++ "\x7d"

/-- A question as the specification serialises it: lower-case keys `id` and `text`. -/
def specQuestion (q : domain.Question) : String :=
  "\x7b\"id\":" ++ json.encodeInt q.Id ++ ",\"text\":" ++ json.encodeString q.Text ++ "\x7d"

/-- The data of `GetQuestionAndAnswers` as the specification serialises it: the question
through `specQuestion`, the answers through `specAnswer`, in order. -/
def specQuestionAndAnswers (q : domain.Question) (answers : List domain.Answer) : String :=
  "\x7b\"question\":" ++ specQuestion q ++ ",\"answers\":"
    ++ ("[" ++ ",".intercalate (answers.map specAnswer) ++ "]") ++ "\x7d"

/-- An answer as the code serialises it: the Go field names as keys. -/
def codeAnswer (a : domain.Answer) : String :=
  "\x7b\"Id\":" ++ json.encodeInt a.Id ++ ",\"QuestionId\":" ++ json.encodeInt a.QuestionId
    ++ ",\"UserId\":" ++ json.encodeString a.UserId ++ ",\"Text\":" ++ json.encodeString a.Text
    ++ "\x7d"

/-- A question as the code serialises it: the Go field names as keys. -/
def codeQuestion (q : domain.Question) : String :=
  "\x7b\"Id\":" ++ json.encodeInt q.Id ++ ",\"Text\":" ++ json.encodeString q.Text ++ "\x7d"

/-- The data of `GetQuestionAndAnswers` as the code serialises it: the question through
`codeQuestion`, the answers through `codeAnswer`, in order. -/
def codeQuestionAndAnswers (q : domain.Question) (answers : List domain.Answer) : String :=
  "\x7b\"question\":" ++ codeQuestion q ++ ",\"answers\":"
    ++ ("[" ++ ",".intercalate (answers.map codeAnswer) ++ "]") ++ "\x7d"

/-! ## Sample inputs -/

/-- The UUID of the test suite. -/
def sampleUUID : String := "f47ac10b-58cc-4372-a567-0e02b2c3de91"

/-- A request with a path id and a body, and an empty context. -/
def sampleRequest (id : String) (body : Option JSON) : Request :=
  { pathValues := [("id", id)], Body := body, ctx := [] }

/-- A service every method of which succeeds. -/
def sampleService : QNADispatcher :=
  { createUser := fun _ => (some sampleUUID, none),
    getUsers := (some (some [{ Id := sampleUUID, Name := "ann" }]), none),
    deleteUser := fun _ => none,
    getQuestions := (some (some [{ Id := 1, Text := "what?" }]), none),
    createQuestion := fun _ => (1, none),
    getQuestionAndAnswers := fun n =>
      (some { Id := n, Text := "what?" },
        some (some [{ Id := 1, QuestionId := n, UserId := sampleUUID, Text := "42" }]), none),
    deleteQuestionAndAnswers := fun _ => none,
    createAnswerToQuestion := fun _ => (1, none),
    getAnswer := fun n => (some { Id := n, QuestionId := 1, UserId := sampleUUID, Text := "42" }, none),
    deleteAnswer := fun _ => none,
    calls := [] }

/-- A service every method of which fails with the given error. -/
def failingService (e : GoError) : QNADispatcher :=
  { createUser := fun _ => (none, some e),
    getUsers := (none, some e),
    deleteUser := fun _ => some e,
    getQuestions := (none, some e),
    createQuestion := fun _ => (0, some e),
    getQuestionAndAnswers := fun _ => (none, none, some e),
    deleteQuestionAndAnswers := fun _ => some e,
    createAnswerToQuestion := fun _ => (0, some e),
    getAnswer := fun _ => (none, some e),
    deleteAnswer := fun _ => some e,
    calls := [] }

/-- The body `{"user_id": u, "text": t}`. -/
def answerBody (u t : String) : Option JSON :=
  some (.object [("user_id", .string u), ("text", .string t)])

/-- The body with one member, a string under the given key. -/
def fieldBody (key value : String) : Option JSON :=
  some (.object [(key, .string value)])

end rest

/-! ## More vocabulary: the members of an envelope, replies, the logging middleware -/

/-- The text of a JSON object with the given members, each a key and the text of its value:
the members as `"key":value`, separated by commas, between braces. -/
def json.objectText (ms : List (String × String)) : String :=
  "\x7b" ++ ",".intercalate (ms.map (fun kv => "\"" ++ kv.1 ++ "\":" ++ kv.2)) ++ "\x7d"

/-- The members the encoder writes for a `Response`, in the order of the struct: `status`
always, `error` when the pointer is not nil, `data` when the interface is not nil. -/
def response.members (r : response.Response) : List (String × String) :=
  [("status", json.encodeString r.Status)]
    ++ (match r.Error with
        | none => []
        | some e => [("error", response.encodeError e)])
    ++ (match r.Data with
        | none => []
        | some d => [("data", response.encodeData d)])

/-- The keys of the envelope of a `Response`, in order. -/
def response.keys (r : response.Response) : List String :=
  (response.members r).map Prod.fst

namespace rest

/-- The three handlers that delete. -/
def Handler.isDelete : Handler → Bool
  | .DeleteUser => true
  | .DeleteQuestionAndAnswers => true
  | .DeleteAnswer => true
  | _ => false

/-- Whether the service answers a call with no error and a nil pointer among the results the
handler dereferences: `userId` of CreateUser, `users` of GetUsers, `questions` of
GetQuestions, `question` or `answers` of GetQuestionAndAnswers. -/
def QNADispatcher.returnsNil (s : QNADispatcher) : Call → Bool
  | .CreateUser userName =>
    (s.createUser userName).1.isNone && (s.createUser userName).2.isNone
  | .GetUsers => s.getUsers.1.isNone && s.getUsers.2.isNone
  | .GetQuestions => s.getQuestions.1.isNone && s.getQuestions.2.isNone
  | .GetQuestionAndAnswers questionId =>
    ((s.getQuestionAndAnswers questionId).1.isNone
        || (s.getQuestionAndAnswers questionId).2.1.isNone)
      && (s.getQuestionAndAnswers questionId).2.2.isNone
  | _ => false

/-- A service that never returns a nil pointer together with a nil error. -/
def QNADispatcher.NeverNil (s : QNADispatcher) : Prop :=
  ∀ c, s.returnsNil c = false

/-- The outcomes of a given handler on a fresh writer, with what each shape carries: a
success has data exactly when the handler is not a delete, and a panic follows a call that
the service answered with a nil pointer and no error. -/
inductive Reply (h : Handler) (t : serverAPI) (hdr : http.Header) (we : Option GoError)
    (r : Request) : Outcome → Prop where
  | rejected (err : GoError) (code desc : String)
      (hcode : code = response.ErrCodeValidationFailed ∨ code = response.ErrCodeJsonParsingFailed) :
      Reply h t hdr we r (finished hdr we t.service r [err] 400 (failure 400 code desc))
  | failed (c : Call) (err : GoError) :
      Reply h t hdr we r (finished hdr we (t.service.record c) r [err] 500
        (failure 500 response.ErrCodeInternalServerError "internal server error"))
  | succeeded (c : Call) (data : Option response.Data) (hdata : data.isSome = !h.isDelete) :
      Reply h t hdr we r (finished hdr we (t.service.record c) r [] 200 (success data))
  | panicked (c : Call) (hnil : t.service.returnsNil c = true) :
      Reply h t hdr we r
        { w := http.ResponseWriter.fresh hdr we, service := t.service.record c, r := r,
          panicked := some nilDereference }

end rest

namespace middleware

/-- The level of a log line. -/
inductive Level where
  | info
  | error
  deriving DecidableEq, Repr

/-- A line `LoggMiddleware` logs: its level, its tag, and the status and error list it prints.
The method, path, remote address and duration it also prints are left out. -/
structure LogLine where
  level : Level
  tag : String
  status : Option Int
  errorList : List GoError
  deriving DecidableEq, Repr

/-- Source: `LoggMiddleware`. The start line, then `next`; after it the status (200 unless the
context holds an `int` under `CtxKeyStatus`) and the error list (empty unless the context
holds a list under `CtxKeyErrorList`) are read from the context of the request, and the line
is an error line when the list is not empty. A panic in `next` leaves the start line only. -/
def LoggMiddleware (next : http.ResponseWriter → Request → rest.Outcome)
    (w : http.ResponseWriter) (r : Request) : List LogLine × rest.Outcome :=
  let start : LogLine := { level := .info, tag := "[START]", status := none, errorList := [] }
  let o := next w r
  match o.panicked with
  | some _ => ([start], o)
  | none =>
    let ctx := o.r.Context
    let statusDetails : Int :=
      match Value ctx CtxKeyStatus with
      | some (.int s) => s
      | _ => http.StatusOK
    let errorList : List GoError :=
      match Value ctx CtxKeyErrorList with
      | some (.errors list) => list
      | _ => []
    if errorList.length > 0 then
      ([start, { level := .error, tag := "[ERROR]", status := some statusDetails,
                 errorList := errorList }], o)
    else
      ([start, { level := .info, tag := "[ END ]", status := some statusDetails,
                 errorList := [] }], o)

end middleware

namespace rest

/-- A service whose lists of users and questions are empty. -/
def emptyService : QNADispatcher :=
  { sampleService with
    getUsers := (some (some []), none),
    getQuestions := (some (some []), none) }

/-- A service that answers every call with nil pointers, zero ids and no error. -/
def nilService : QNADispatcher :=
  { createUser := fun _ => (none, none),
    getUsers := (none, none),
    deleteUser := fun _ => none,
    getQuestions := (none, none),
    createQuestion := fun _ => (0, none),
    getQuestionAndAnswers := fun _ => (none, none, none),
    deleteQuestionAndAnswers := fun _ => none,
    createAnswerToQuestion := fun _ => (0, none),
    getAnswer := fun _ => (none, none),
    deleteAnswer := fun _ => none,
    calls := [] }

end rest

/-! ## `github.com/pkg/errors`: the message of an error and `errors.Is` -/

/-- Method `Error()` of a Go error: the text of `errors.New`, and for `errors.Wrap` the
message, a colon and a blank, and the text of the cause. The text of an error a library
built is the library's: it is taken from `libText`. -/
def GoError.Error (libText : GoError → String) : GoError → String
  | .new msg => msg
  | .wrap cause msg => msg ++ ": " ++ cause.Error libText
  | e => libText e

/-- Model of `errors.Is(err, target)`: `err` is the target, or wraps an error that is.
Two errors built alike are one error here, where Go compares the identity of the values. -/
def GoError.Is : GoError → GoError → Bool
  | .wrap cause msg, target => (GoError.wrap cause msg == target) || cause.Is target
  | err, target => err == target

/-! ## `internal/usecase/service.go` -/

namespace usecase

/-- A call of a method of the gateway interfaces `QNAManager` and `UserManager`, with its
arguments (pointer arguments by the value they point to). -/
inductive GatewayCall where
  | ReadQuestions
  | CreateQuestion (question : String)
  | ReadQuestionAndAnswers (questionId : Int)
  | DeleteQuestionAndAnswers (questionId : Int)
  | CreateAnswerToQuestion (answer : domain.Answer)
  | ReadAnswer (answerId : Int)
  | DeleteAnswer (answerId : Int)
  | CreateUser (userName : String)
  | ReadUsers
  | DeleteUser (userId : String)
  deriving DecidableEq, Repr

/-- An implementation of the interface `QNAManager`: what each method returns for its
arguments, and the record of the calls made so far, oldest first. -/
structure QNAManager where
  readQuestions : Option (Slice domain.Question) × Option GoError
  createQuestion : String → Int × Option GoError
  readQuestionAndAnswers :
    Int → Option domain.Question × Option (Slice domain.Answer) × Option GoError
  deleteQuestionAndAnswers : Int → Option GoError
  createAnswerToQuestion : domain.Answer → Int × Option GoError
  readAnswer : Int → Option domain.Answer × Option GoError
  deleteAnswer : Int → Option GoError
  calls : List GatewayCall

/-- An implementation of the interface `UserManager`: what each method returns for its
arguments, and the record of the calls made so far, oldest first. -/
structure UserManager where
  createUser : String → Option String × Option GoError
  readUsers : Option (Slice domain.User) × Option GoError
  deleteUser : String → Option GoError
  calls : List GatewayCall

namespace QNAManager

/-- The gateway after one more call is recorded. -/
def record (m : QNAManager) (c : GatewayCall) : QNAManager :=
  { m with calls := m.calls ++ [c] }

/-- Interface method `ReadQuestions`. -/
def ReadQuestions (m : QNAManager) :
    (Option (Slice domain.Question) × Option GoError) × QNAManager :=
  (m.readQuestions, m.record .ReadQuestions)

/-- Interface method `CreateQuestion`. -/
def CreateQuestion (m : QNAManager) (question : String) :
    (Int × Option GoError) × QNAManager :=
  (m.createQuestion question, m.record (.CreateQuestion question))

/-- Interface method `ReadQuestionAndAnswers`. -/
def ReadQuestionAndAnswers (m : QNAManager) (questionId : Int) :
    (Option domain.Question × Option (Slice domain.Answer) × Option GoError) × QNAManager :=
  (m.readQuestionAndAnswers questionId, m.record (.ReadQuestionAndAnswers questionId))

/-- Interface method `DeleteQuestionAndAnswers`. -/
def DeleteQuestionAndAnswers (m : QNAManager) (questionId : Int) :
    Option GoError × QNAManager :=
  (m.deleteQuestionAndAnswers questionId, m.record (.DeleteQuestionAndAnswers questionId))

/-- Interface method `CreateAnswerToQuestion`. -/
def CreateAnswerToQuestion (m : QNAManager) (answer : domain.Answer) :
    (Int × Option GoError) × QNAManager :=
  (m.createAnswerToQuestion answer, m.record (.CreateAnswerToQuestion answer))

/-- Interface method `ReadAnswer`. -/
def ReadAnswer (m : QNAManager) (answerId : Int) :
    (Option domain.Answer × Option GoError) × QNAManager :=
  (m.readAnswer answerId, m.record (.ReadAnswer answerId))

/-- Interface method `DeleteAnswer`. -/
def DeleteAnswer (m : QNAManager) (answerId : Int) : Option GoError × QNAManager :=
  (m.deleteAnswer answerId, m.record (.DeleteAnswer answerId))

end QNAManager

namespace UserManager

/-- The gateway after one more call is recorded. -/
def record (m : UserManager) (c : GatewayCall) : UserManager :=
  { m with calls := m.calls ++ [c] }

/-- Interface method `CreateUser`. -/
def CreateUser (m : UserManager) (userName : String) :
    (Option String × Option GoError) × UserManager :=
  (m.createUser userName, m.record (.CreateUser userName))

/-- Interface method `ReadUsers`. -/
def ReadUsers (m : UserManager) : (Option (Slice domain.User) × Option GoError) × UserManager :=
  (m.readUsers, m.record .ReadUsers)

/-- Interface method `DeleteUser`. -/
def DeleteUser (m : UserManager) (userId : String) : Option GoError × UserManager :=
  (m.deleteUser userId, m.record (.DeleteUser userId))

end UserManager

/-- Source: `type QNACrud struct { qnaManager QNAManager; userManager UserManager }`. -/
structure QNACrud where
  qnaManager : QNAManager
  userManager : UserManager

/-- Source: `NewQNAManagerService`. -/
def NewQNAManagerService (qnaManager : QNAManager) (userManager : UserManager) : QNACrud :=
  { qnaManager := qnaManager, userManager := userManager }

namespace QNACrud

/-- Source: `QNACrud.CreateUser`. -/
def CreateUser (t : QNACrud) (userName : String) : (Option String × Option GoError) × QNACrud :=
  let op := "internal/usecase/service.QNACrud.CreateUser"
  match t.userManager.CreateUser userName with
  | ((_, some err), userManager) =>
    ((none, some (.wrap err op)), { t with userManager := userManager })
  | ((userId, none), userManager) => ((userId, none), { t with userManager := userManager })

/-- Source: `QNACrud.GetUsers`. -/
def GetUsers (t : QNACrud) : (Option (Slice domain.User) × Option GoError) × QNACrud :=
  let op := "internal/usecase/service.QNACrud.GetUsers"
  match t.userManager.ReadUsers with
  | ((_, some err), userManager) =>
    ((none, some (.wrap err op)), { t with userManager := userManager })
  | ((users, none), userManager) => ((users, none), { t with userManager := userManager })

/-- Source: `QNACrud.DeleteUser`; its constant `op` is the text the source has. -/
def DeleteUser (t : QNACrud) (userId : String) : Option GoError × QNACrud :=
  let op := "internal/usecase/service.QNACrud.GetUsers"
  match t.userManager.DeleteUser userId with
  | (some err, userManager) => (some (.wrap err op), { t with userManager := userManager })
  | (none, userManager) => (none, { t with userManager := userManager })

/-- Source: `QNACrud.GetQuestions`. -/
def GetQuestions (t : QNACrud) : (Option (Slice domain.Question) × Option GoError) × QNACrud :=
  let op := "internal/usecase/service.QNACrud.GetQuestions"
  match t.qnaManager.ReadQuestions with
  | ((_, some err), qnaManager) =>
    ((none, some (.wrap err op)), { t with qnaManager := qnaManager })
  | ((questions, none), qnaManager) => ((questions, none), { t with qnaManager := qnaManager })

/-- Source: `QNACrud.CreateQuestion`. -/
def CreateQuestion (t : QNACrud) (question : String) : (Int × Option GoError) × QNACrud :=
  let op := "internal/usecase/service.QNACrud.CreateQuestion"
  match t.qnaManager.CreateQuestion question with
  | ((_, some err), qnaManager) =>
    ((0, some (.wrap err op)), { t with qnaManager := qnaManager })
  | ((questionId, none), qnaManager) => ((questionId, none), { t with qnaManager := qnaManager })

/-- Source: `QNACrud.GetQuestionAndAnswers`. -/
def GetQuestionAndAnswers (t : QNACrud) (questionId : Int) :
    (Option domain.Question × Option (Slice domain.Answer) × Option GoError) × QNACrud :=
  let op := "internal/usecase/service.QNACrud.GetQuestionAndAnswers"
  match t.qnaManager.ReadQuestionAndAnswers questionId with
  | ((_, _, some err), qnaManager) =>
    ((none, none, some (.wrap err op)), { t with qnaManager := qnaManager })
  | ((question, answers, none), qnaManager) =>
    ((question, answers, none), { t with qnaManager := qnaManager })

/-- Source: `QNACrud.DeleteQuestionAndAnswers`. -/
def DeleteQuestionAndAnswers (t : QNACrud) (questionId : Int) : Option GoError × QNACrud :=
  let op := "internal/usecase/service.QNACrud.DeleteQuestionAndAnswers"
  match t.qnaManager.DeleteQuestionAndAnswers questionId with
  | (some err, qnaManager) => (some (.wrap err op), { t with qnaManager := qnaManager })
  | (none, qnaManager) => (none, { t with qnaManager := qnaManager })

/-- Source: `QNACrud.CreateAnswerToQuestion`. -/
def CreateAnswerToQuestion (t : QNACrud) (answer : domain.Answer) :
    (Int × Option GoError) × QNACrud :=
  let op := "internal/usecase/service.QNACrud.CreateAnswerToQuestion"
  match t.qnaManager.CreateAnswerToQuestion answer with
  | ((_, some err), qnaManager) =>
    ((0, some (.wrap err op)), { t with qnaManager := qnaManager })
  | ((answerId, none), qnaManager) => ((answerId, none), { t with qnaManager := qnaManager })

/-- Source: `QNACrud.GetAnswer`. -/
def GetAnswer (t : QNACrud) (answerId : Int) :
    (Option domain.Answer × Option GoError) × QNACrud :=
  let op := "internal/usecase/service.QNACrud.GetAnswer"
  match t.qnaManager.ReadAnswer answerId with
  | ((_, some err), qnaManager) =>
    ((none, some (.wrap err op)), { t with qnaManager := qnaManager })
  | ((answers, none), qnaManager) => ((answers, none), { t with qnaManager := qnaManager })

/-- Source: `QNACrud.DeleteAnswer`. -/
def DeleteAnswer (t : QNACrud) (answerId : Int) : Option GoError × QNACrud :=
  let op := "internal/usecase/service.QNACrud.DeleteAnswer"
  match t.qnaManager.DeleteAnswer answerId with
  | (some err, qnaManager) => (some (.wrap err op), { t with qnaManager := qnaManager })
  | (none, qnaManager) => (none, { t with qnaManager := qnaManager })

/-- The service as the handlers see it through the interface `QNADispatcher`: each method
answers as the method of `QNACrud` does. -/
def asDispatcher (t : QNACrud) : rest.QNADispatcher :=
  { createUser := fun userName => (t.CreateUser userName).1,
    getUsers := t.GetUsers.1,
    deleteUser := fun userId => (t.DeleteUser userId).1,
    getQuestions := t.GetQuestions.1,
    createQuestion := fun question => (t.CreateQuestion question).1,
    getQuestionAndAnswers := fun questionId => (t.GetQuestionAndAnswers questionId).1,
    deleteQuestionAndAnswers := fun questionId => (t.DeleteQuestionAndAnswers questionId).1,
    createAnswerToQuestion := fun answer => (t.CreateAnswerToQuestion answer).1,
    getAnswer := fun answerId => (t.GetAnswer answerId).1,
    deleteAnswer := fun answerId => (t.DeleteAnswer answerId).1,
    calls := [] }

end QNACrud

end usecase

/-! ## `gorm.io/gorm`: what the repository reads of a finished operation -/

namespace gorm

/-- The fields of the `*gorm.DB` an operation returns that the repository reads. -/
structure DB where
  Error : Option GoError
  RowsAffected : Int
  deriving DecidableEq, Repr

/-- The library error `gorm.ErrRecordNotFound`, which `First` reports when no row matches. -/
def ErrRecordNotFound : GoError :=
  .foreign "gorm" "record not found"

end gorm

/-! ## `internal/infrastructure/db/dto/models.go` -/

namespace db

namespace dto

/-- Source: `type Question struct { Id int; Text string; CreatedAt time.Time }`, the time as
a number. -/
structure Question where
  Id : Int
  Text : String
  CreatedAt : Nat
  deriving DecidableEq, Repr

/-- Source: `type User struct { Id string; Name string; CreatedAt time.Time }`, the time as a
number. -/
structure User where
  Id : String
  Name : String
  CreatedAt : Nat
  deriving DecidableEq, Repr

/-- Source: `type Answer struct`, with the two association fields `Question` and `User` of
the foreign keys that the tags declare with `OnDelete:CASCADE`. -/
structure Answer where
  Id : Int
  QuestionId : Int
  UserId : String
  Text : String
  CreatedAt : Nat
  Question : Question
  User : User
  deriving DecidableEq, Repr

end dto

/-! ## `internal/infrastructure/db/repository.go` -/

/-- Source: `ErrNotFound = errors.New("not found")`. -/
def ErrNotFound : GoError :=
  .new "not found"

/-- The database behind `r.db`, as the repository uses it: one function for each gorm call
of `repository.go`, from the state of the store to the rows read or the row as `Create` left
it, the fields of the returned `*gorm.DB`, and the state after. -/
structure Store (σ : Type) where
  /-- The call `Create(&newUser)`. -/
  createUser : σ → dto.User → (dto.User × gorm.DB) × σ
  /-- The call `Find(&usersDb)`. -/
  findUsers : σ → (List dto.User × gorm.DB) × σ
  /-- The call `Delete(&domain.User{}, "id = ?", *userId)`. -/
  deleteUser : σ → String → gorm.DB × σ
  /-- The call `Find(&questionsDb)`. -/
  findQuestions : σ → (List dto.Question × gorm.DB) × σ
  /-- The call `Create(&newQuestion)`. -/
  createQuestion : σ → dto.Question → (dto.Question × gorm.DB) × σ
  /-- The call `First(&questionDb, questionId)`. -/
  firstQuestion : σ → Int → (dto.Question × gorm.DB) × σ
  /-- The call `Where("question_id = ?", questionId).Find(&answersDb)`. -/
  findAnswers : σ → Int → (List dto.Answer × gorm.DB) × σ
  /-- The call `Delete(&dto.Question{}, questionId)`. -/
  deleteQuestion : σ → Int → gorm.DB × σ
  /-- The call `Create(&answerDb)`. -/
  createAnswer : σ → dto.Answer → (dto.Answer × gorm.DB) × σ
  /-- The call `First(&answerDb, answerId)`. -/
  firstAnswer : σ → Int → (dto.Answer × gorm.DB) × σ
  /-- The call `Delete(&dto.Answer{}, answerId)`. -/
  deleteAnswer : σ → Int → gorm.DB × σ

/-- Source: `type Repository struct { db *gorm.DB }` of `postgres.go`. -/
structure Repository (σ : Type) where
  db : Store σ

namespace Repository

variable {σ : Type}

/-- Source: `Repository.CreateUser`. -/
def CreateUser (r : Repository σ) (s : σ) (userName : String) :
    (Option String × Option GoError) × σ :=
  let op := "internal/infrastructure/db/repository.Repository.CreateUser"
  let newUser : dto.User := { Id := "", Name := userName, CreatedAt := 0 }
  match r.db.createUser s newUser with
  | ((newUser, result), s) =>
    match result.Error with
    | some err => ((none, some (.wrap err op)), s)
    | none =>
      if result.RowsAffected = 0 then ((none, some (.wrap ErrNotFound op)), s)
      else ((some newUser.Id, none), s)

/-- Source: `Repository.ReadUsers`; the loop `for _, user := range usersDb` appends to the
empty slice `make([]domain.User, 0, len(usersDb))`. -/
def ReadUsers (r : Repository σ) (s : σ) :
    (Option (Slice domain.User) × Option GoError) × σ :=
  let op := "internal/infrastructure/db/repository.Repository.ReadUsers"
  match r.db.findUsers s with
  | ((usersDb, result), s) =>
    match result.Error with
    | some err => ((none, some (.wrap err op)), s)
    | none =>
      let users : List domain.User :=
        usersDb.foldl (fun users user => users ++ [{ Id := user.Id, Name := user.Name }]) []
      ((some (some users), none), s)

/-- Source: `Repository.DeleteUser`. -/
def DeleteUser (r : Repository σ) (s : σ) (userId : String) : Option GoError × σ :=
  let op := "internal/infrastructure/db/repository.Repository.DeleteUser"
  match r.db.deleteUser s userId with
  | (result, s) =>
    match result.Error with
    | some err => (some (.wrap err op), s)
    | none =>
      if result.RowsAffected = 0 then (some (.wrap ErrNotFound op), s)
      else (none, s)

/-- Source: `Repository.ReadQuestions`; its constant `op` is the text the source has, and the
loop `for _, q := range questionsDb` appends to the empty slice. -/
def ReadQuestions (r : Repository σ) (s : σ) :
    (Option (Slice domain.Question) × Option GoError) × σ :=
  let op := "internal/infrastructure/db/repository.Repository.ReadQuestion"
  match r.db.findQuestions s with
  | ((questionsDb, result), s) =>
    match result.Error with
    | some err => ((none, some (.wrap err op)), s)
    | none =>
      let questions : List domain.Question :=
        questionsDb.foldl (fun questions q => questions ++ [{ Id := q.Id, Text := q.Text }]) []
      ((some (some questions), none), s)

/-- Source: `Repository.CreateQuestion`. -/
def CreateQuestion (r : Repository σ) (s : σ) (question : String) :
    (Int × Option GoError) × σ :=
  let op := "internal/infrastructure/db/repository.Repository.CreateQuestion"
  let newQuestion : dto.Question := { Id := 0, Text := question, CreatedAt := 0 }
  match r.db.createQuestion s newQuestion with
  | ((newQuestion, result), s) =>
    match result.Error with
    | some err => ((0, some (.wrap err op)), s)
    | none =>
      if result.RowsAffected = 0 then ((0, some (.wrap ErrNotFound op)), s)
      else ((newQuestion.Id, none), s)

/-- Source: `Repository.ReadQuestionAndAnswers`; the loop `for _, a := range answersDb`
appends to the empty slice. -/
def ReadQuestionAndAnswers (r : Repository σ) (s : σ) (questionId : Int) :
    (Option domain.Question × Option (Slice domain.Answer) × Option GoError) × σ :=
  let op := "internal/infrastructure/db/repository.Repository.ReadQuestionAndAnswers"
  match r.db.firstQuestion s questionId with
  | ((questionDb, result), s) =>
    match result.Error with
    | some err => ((none, none, some (.wrap err op)), s)
    | none =>
      match r.db.findAnswers s questionId with
      | ((answersDb, result), s) =>
        match result.Error with
        | some err => ((none, none, some (.wrap err op)), s)
        | none =>
          let question : domain.Question := { Id := questionDb.Id, Text := questionDb.Text }
          let answers : List domain.Answer :=
            answersDb.foldl (fun answers a =>
              answers ++ [{ Id := a.Id, QuestionId := a.QuestionId, UserId := a.UserId,
                            Text := a.Text }]) []
          ((some question, some (some answers), none), s)

/-- Source: `Repository.DeleteQuestionAndAnswers`; its constant `op` is the text the source
has. -/
def DeleteQuestionAndAnswers (r : Repository σ) (s : σ) (questionId : Int) :
    Option GoError × σ :=
  let op := "internal/infrastructure/db/repository.Repository.ReadQuestionAndAnswers"
  match r.db.deleteQuestion s questionId with
  | (result, s) =>
    match result.Error with
    | some err => (some (.wrap err op), s)
    | none =>
      if result.RowsAffected = 0 then (some (.wrap ErrNotFound op), s)
      else (none, s)

/-- Source: `Repository.CreateAnswerToQuestion`. -/
def CreateAnswerToQuestion (r : Repository σ) (s : σ) (answer : domain.Answer) :
    (Int × Option GoError) × σ :=
  let op := "internal/infrastructure/db/repository.Repository.CreateAnswerToQuestion"
  let answerDb : dto.Answer :=
    { Id := 0, QuestionId := answer.QuestionId, UserId := answer.UserId, Text := answer.Text,
      CreatedAt := 0, Question := { Id := 0, Text := "", CreatedAt := 0 },
      User := { Id := "", Name := "", CreatedAt := 0 } }
  match r.db.createAnswer s answerDb with
  | ((answerDb, result), s) =>
    match result.Error with
    | some err => ((0, some (.wrap err op)), s)
    | none =>
      if result.RowsAffected = 0 then ((0, some (.wrap ErrNotFound op)), s)
      else ((answerDb.Id, none), s)

/-- Source: `Repository.ReadAnswer`. -/
def ReadAnswer (r : Repository σ) (s : σ) (answerId : Int) :
    (Option domain.Answer × Option GoError) × σ :=
  let op := "internal/infrastructure/db/repository.Repository.ReadAnswer"
  match r.db.firstAnswer s answerId with
  | ((answerDb, result), s) =>
    match result.Error with
    | some err => ((none, some (.wrap err op)), s)
    | none =>
      let answer : domain.Answer :=
        { Id := answerDb.Id, QuestionId := answerDb.QuestionId, UserId := answerDb.UserId,
          Text := answerDb.Text }
      ((some answer, none), s)

/-- Source: `Repository.DeleteAnswer`. -/
def DeleteAnswer (r : Repository σ) (s : σ) (answerId : Int) : Option GoError × σ :=
  let op := "internal/infrastructure/db/repository.Repository.DeleteAnswer"
  match r.db.deleteAnswer s answerId with
  | (result, s) =>
    match result.Error with
    | some err => (some (.wrap err op), s)
    | none =>
      if result.RowsAffected = 0 then (some (.wrap ErrNotFound op), s)
      else (none, s)

/-- The repository on a store in state `s`, as the use-case layer sees it through the
interface `QNAManager`: each method answers as the method of `Repository` does in `s`. -/
def asQNAManager (r : Repository σ) (s : σ) : usecase.QNAManager :=
  { readQuestions := (r.ReadQuestions s).1,
    createQuestion := fun question => (r.CreateQuestion s question).1,
    readQuestionAndAnswers := fun questionId => (r.ReadQuestionAndAnswers s questionId).1,
    deleteQuestionAndAnswers := fun questionId => (r.DeleteQuestionAndAnswers s questionId).1,
    createAnswerToQuestion := fun answer => (r.CreateAnswerToQuestion s answer).1,
    readAnswer := fun answerId => (r.ReadAnswer s answerId).1,
    deleteAnswer := fun answerId => (r.DeleteAnswer s answerId).1,
    calls := [] }

/-- The repository on a store in state `s`, as the use-case layer sees it through the
interface `UserManager`. -/
def asUserManager (r : Repository σ) (s : σ) : usecase.UserManager :=
  { createUser := fun userName => (r.CreateUser s userName).1,
    readUsers := (r.ReadUsers s).1,
    deleteUser := fun userId => (r.DeleteUser s userId).1,
    calls := [] }

end Repository

end db

/-- Source: the wiring of `main`: `usecase.NewQNAManagerService(repo, repo)` is the service
of the handlers. The store is in state `s` when the request arrives. -/
def app {σ : Type} (repo : db.Repository σ) (s : σ) : rest.serverAPI :=
  { service :=
      (usecase.NewQNAManagerService (repo.asQNAManager s) (repo.asUserManager s)).asDispatcher }

/-! ## The relational store, from the specification -/

namespace db

/-- Modelled from the spec: the state of the relational store (its schema and the database
are not among the sources): the rows of the three tables, the next values of the two integer
keys, the number of user keys handed out, and the clock. -/
structure Database where
  users : List dto.User
  questions : List dto.Question
  answers : List dto.Answer
  nextQuestionId : Int
  nextAnswerId : Int
  usersCreated : Nat
  now : Nat
  deriving DecidableEq, Repr

namespace Database

/-- Modelled from the spec: the key the store generates for the n-th user, an opaque string
in UUID form. -/
def userKey (n : Nat) : String :=
  let digits := (toString n).toList
  "00000000-0000-4000-8000-" ++ String.mk (List.replicate (12 - digits.length) '0' ++ digits)

/-- Modelled from the spec: the error of the store for an answer whose question or user does
not exist (referential integrity is enforced by the store). -/
def foreignKeyViolation : GoError :=
  .foreign "postgres" "insert or update violates foreign key constraint"

/-- Modelled from the spec: insertion of a user; the store generates the key. -/
def createUser (s : Database) (u : dto.User) : (dto.User × gorm.DB) × Database :=
  let row : dto.User := { u with Id := userKey s.usersCreated, CreatedAt := s.now }
  ((row, { Error := none, RowsAffected := 1 }),
    { s with users := s.users ++ [row], usersCreated := s.usersCreated + 1 })

/-- Modelled from the spec: all users. -/
def findUsers (s : Database) : (List dto.User × gorm.DB) × Database :=
  ((s.users, { Error := none, RowsAffected := s.users.length }), s)

/-- Modelled from the spec: deletion of the users with the key, which cascades to their
answers; the rows affected are the users deleted. -/
def deleteUser (s : Database) (userId : String) : gorm.DB × Database :=
  ({ Error := none, RowsAffected := (s.users.filter (fun u => u.Id == userId)).length },
    { s with users := s.users.filter (fun u => u.Id != userId),
             answers := s.answers.filter (fun a => a.UserId != userId) })

/-- Modelled from the spec: all questions. -/
def findQuestions (s : Database) : (List dto.Question × gorm.DB) × Database :=
  ((s.questions, { Error := none, RowsAffected := s.questions.length }), s)

/-- Modelled from the spec: insertion of a question; the store assigns the next key. -/
def createQuestion (s : Database) (q : dto.Question) : (dto.Question × gorm.DB) × Database :=
  let row : dto.Question := { q with Id := s.nextQuestionId, CreatedAt := s.now }
  ((row, { Error := none, RowsAffected := 1 }),
    { s with questions := s.questions ++ [row], nextQuestionId := s.nextQuestionId + 1 })

/-- Modelled from the spec: the question with the key, or `ErrRecordNotFound` and the struct
as it was. -/
def firstQuestion (s : Database) (questionId : Int) : (dto.Question × gorm.DB) × Database :=
  match s.questions.find? (fun q => q.Id == questionId) with
  | some row => ((row, { Error := none, RowsAffected := 1 }), s)
  | none =>
    (({ Id := 0, Text := "", CreatedAt := 0 },
      { Error := some gorm.ErrRecordNotFound, RowsAffected := 0 }), s)

/-- Modelled from the spec: the answers of a question. -/
def findAnswers (s : Database) (questionId : Int) : (List dto.Answer × gorm.DB) × Database :=
  ((s.answers.filter (fun a => a.QuestionId == questionId),
    { Error := none,
      RowsAffected := (s.answers.filter (fun a => a.QuestionId == questionId)).length }), s)

/-- Modelled from the spec: deletion of the questions with the key, which cascades to their
answers; the rows affected are the questions deleted. -/
def deleteQuestion (s : Database) (questionId : Int) : gorm.DB × Database :=
  ({ Error := none,
     RowsAffected := (s.questions.filter (fun q => q.Id == questionId)).length },
    { s with questions := s.questions.filter (fun q => q.Id != questionId),
             answers := s.answers.filter (fun a => a.QuestionId != questionId) })

/-- Modelled from the spec: insertion of an answer; the store assigns the next key, and
refuses an answer whose question or user does not exist. -/
def createAnswer (s : Database) (a : dto.Answer) : (dto.Answer × gorm.DB) × Database :=
  if s.questions.any (fun q => q.Id == a.QuestionId) && s.users.any (fun u => u.Id == a.UserId)
  then
    let row : dto.Answer := { a with Id := s.nextAnswerId, CreatedAt := s.now }
    ((row, { Error := none, RowsAffected := 1 }),
      { s with answers := s.answers ++ [row], nextAnswerId := s.nextAnswerId + 1 })
  else ((a, { Error := some foreignKeyViolation, RowsAffected := 0 }), s)

/-- Modelled from the spec: the answer with the key, or `ErrRecordNotFound` and the struct as
it was. -/
def firstAnswer (s : Database) (answerId : Int) : (dto.Answer × gorm.DB) × Database :=
  match s.answers.find? (fun a => a.Id == answerId) with
  | some row => ((row, { Error := none, RowsAffected := 1 }), s)
  | none =>
    (({ Id := 0, QuestionId := 0, UserId := "", Text := "", CreatedAt := 0,
        Question := { Id := 0, Text := "", CreatedAt := 0 },
        User := { Id := "", Name := "", CreatedAt := 0 } },
      { Error := some gorm.ErrRecordNotFound, RowsAffected := 0 }), s)

/-- Modelled from the spec: deletion of the answers with the key. -/
def deleteAnswer (s : Database) (answerId : Int) : gorm.DB × Database :=
  ({ Error := none, RowsAffected := (s.answers.filter (fun a => a.Id == answerId)).length },
    { s with answers := s.answers.filter (fun a => a.Id != answerId) })

/-- Modelled from the spec: the relational store as the repository reaches it. -/
def store : Store Database :=
  { createUser := createUser, findUsers := findUsers, deleteUser := deleteUser,
    findQuestions := findQuestions, createQuestion := createQuestion,
    firstQuestion := firstQuestion, findAnswers := findAnswers,
    deleteQuestion := deleteQuestion, createAnswer := createAnswer,
    firstAnswer := firstAnswer, deleteAnswer := deleteAnswer }

/-- The empty store. -/
def empty : Database :=
  { users := [], questions := [], answers := [], nextQuestionId := 1, nextAnswerId := 1,
    usersCreated := 0, now := 0 }

/-- A store with one user, two questions, and three answers, two of them to question 1. -/
def sample : Database :=
  { users := [{ Id := userKey 0, Name := "ann", CreatedAt := 0 }],
    questions := [{ Id := 1, Text := "what?", CreatedAt := 0 },
                  { Id := 2, Text := "why?", CreatedAt := 0 }],
    answers :=
      [{ Id := 1, QuestionId := 1, UserId := userKey 0, Text := "42", CreatedAt := 0,
         Question := { Id := 0, Text := "", CreatedAt := 0 },
         User := { Id := "", Name := "", CreatedAt := 0 } },
       { Id := 2, QuestionId := 2, UserId := userKey 0, Text := "because", CreatedAt := 0,
         Question := { Id := 0, Text := "", CreatedAt := 0 },
         User := { Id := "", Name := "", CreatedAt := 0 } },
       { Id := 3, QuestionId := 1, UserId := userKey 0, Text := "43", CreatedAt := 0,
         Question := { Id := 0, Text := "", CreatedAt := 0 },
         User := { Id := "", Name := "", CreatedAt := 0 } }],
    nextQuestionId := 3, nextAnswerId := 4, usersCreated := 1, now := 1 }

end Database

/-- A store that takes every mutation without an error and without affecting a row, and
finds nothing. -/
def idleStore : Store Unit :=
  { createUser := fun s u => ((u, { Error := none, RowsAffected := 0 }), s),
    findUsers := fun s => (([], { Error := none, RowsAffected := 0 }), s),
    deleteUser := fun s _ => ({ Error := none, RowsAffected := 0 }, s),
    findQuestions := fun s => (([], { Error := none, RowsAffected := 0 }), s),
    createQuestion := fun s q => ((q, { Error := none, RowsAffected := 0 }), s),
    firstQuestion := fun s _ =>
      (({ Id := 0, Text := "", CreatedAt := 0 },
        { Error := some gorm.ErrRecordNotFound, RowsAffected := 0 }), s),
    findAnswers := fun s _ => (([], { Error := none, RowsAffected := 0 }), s),
    deleteQuestion := fun s _ => ({ Error := none, RowsAffected := 0 }, s),
    createAnswer := fun s a => ((a, { Error := none, RowsAffected := 0 }), s),
    firstAnswer := fun s _ =>
      (({ Id := 0, QuestionId := 0, UserId := "", Text := "", CreatedAt := 0,
          Question := { Id := 0, Text := "", CreatedAt := 0 },
          User := { Id := "", Name := "", CreatedAt := 0 } },
        { Error := some gorm.ErrRecordNotFound, RowsAffected := 0 }), s),
    deleteAnswer := fun s _ => ({ Error := none, RowsAffected := 0 }, s) }

end db

/-! ## Sample wirings -/

/-- The repository on the store that affects no row. -/
def db.idleRepository : db.Repository Unit :=
  { db := db.idleStore }

/-- The repository on the relational store. -/
def db.Database.repository : db.Repository db.Database :=
  { db := db.Database.store }

/-- The service `main` builds, on a repository whose store is in state `s`. -/
def usecase.serviceOf {σ : Type} (repo : db.Repository σ) (s : σ) : usecase.QNACrud :=
  usecase.NewQNAManagerService (repo.asQNAManager s) (repo.asUserManager s)

/-- The sample store after the delete of question 1: question 2 and its answer are left. -/
def db.Database.sampleAfterDelete : db.Database :=
  { db.Database.sample with
    questions := [{ Id := 2, Text := "why?", CreatedAt := 0 }],
    answers :=
      [{ Id := 2, QuestionId := 2, UserId := db.Database.userKey 0, Text := "because",
         CreatedAt := 0, Question := { Id := 0, Text := "", CreatedAt := 0 },
         User := { Id := "", Name := "", CreatedAt := 0 } }] }

/-- The sample store without its answers: question 2 has none. -/
def db.Database.sampleUnanswered : db.Database :=
  { db.Database.sample with answers := [] }

/-- A reading of library errors that gives each of them the empty text. -/
def noLibText : GoError → String :=
  fun _ => ""

/-! ## The checks of `CreateAnswerToQuestion`, as the specification orders them -/

namespace rest

/-- The five checks the specification lists for `CreateAnswerToQuestion`. -/
inductive Check where
  | bodyDecodes
  | idIsInteger
  | idIsPositive
  | textNotEmpty
  | userIdIsUUID
  deriving DecidableEq, Repr

/-- Whether a request fails a check, each check taken on its own: the body does not decode;
the path id is no integer; the path id is an integer below 1; the field `text` is empty; the
field `user_id` is no UUID. The fields are the ones decoding the body leaves. -/
def Check.fails (r : Request) : Check → Bool
  | .bodyDecodes =>
    (request.decodeCreateAnswerToQuestionRequest { UserId := "", Text := "" } r.Body).2.isSome
  | .idIsInteger =>
    match strconv.Atoi (r.PathValue "id") with
    | .error _ => true
    | .ok _ => false
  | .idIsPositive =>
    match strconv.Atoi (r.PathValue "id") with
    | .error _ => false
    | .ok n => decide (n < 1)
  | .textNotEmpty =>
    decide ((request.decodeCreateAnswerToQuestionRequest { UserId := "", Text := "" }
      r.Body).1.Text = "")
  | .userIdIsUUID =>
    match uuid.Parse (request.decodeCreateAnswerToQuestionRequest { UserId := "", Text := "" }
      r.Body).1.UserId with
    | .error _ => true
    | .ok _ => false

/-- The error code the specification gives for a failed check. -/
def Check.code : Check → String
  | .bodyDecodes => "JSON_PARSING_FAILED"
  | _ => "VALIDATION_FAILED"

/-- The description the specification gives for a failed check. -/
def Check.desc : Check → String
  | .bodyDecodes => "Invalid request body"
  | .idIsInteger => "invalid ID format for \"id\""
  | .idIsPositive => "ID must be a positive integer"
  | .textNotEmpty => "field \"text\" must not be empty"
  | .userIdIsUUID => "invalid UUID format for \"user_id\""

/-- The body the specification gives for a failed check. -/
def Check.body : Check → String
  | .bodyDecodes => specJsonParsingFailedBody
  | .idIsInteger => specValidationFailedBody "invalid ID format for \\\"id\\\""
  | .idIsPositive => specValidationFailedBody "ID must be a positive integer"
  | .textNotEmpty => specValidationFailedBody "field \\\"text\\\" must not be empty"
  | .userIdIsUUID => specValidationFailedBody "invalid UUID format for \\\"user_id\\\""

/-- The specification's rule for `CreateAnswerToQuestion`: of the checks a request fails, the
earliest in the fixed order body decoding, path id is an integer, path id is at least 1, text
is not empty, user_id is a UUID; none when the request passes all five. -/
def specFirstFailingCheck (r : Request) : Option Check :=
  [Check.bodyDecodes, Check.idIsInteger, Check.idIsPositive, Check.textNotEmpty,
    Check.userIdIsUUID].find? (fun c => c.fails r)

end rest

/-! ## Theorems

### `strconv.Atoi` accepts the decimal integers that fit an `int` -/

namespace strconv

/-- Every byte of the UTF-8 form of a character is below 256. -/
theorem charBytes_lt (c : Char) : ∀ b ∈ charBytes c, b < 256 := by
  intro b hb
  have hc : c.toNat < 0x110000 := by
    have := c.valid
    rcases this with h | h
    · exact Nat.lt_trans h (by decide)
    · exact h.2
  unfold charBytes at hb
  simp only at hb
  split_ifs at hb with h1 h2 h3 <;>
    simp only [List.mem_cons, List.mem_singleton, List.not_mem_nil, or_false] at hb <;>
    omega

/-- Every byte of a Go string is below 256. -/
theorem goBytes_lt (s : String) : ∀ b ∈ goBytes s, b < 256 := by
  intro b hb
  unfold goBytes at hb
  rw [List.mem_flatMap] at hb
  obtain ⟨c, _, hc⟩ := hb
  exact charBytes_lt c b hc

/-- The loop of the fast path of `Atoi` computes the value of a run of digits, and fails
exactly when a byte is no digit. -/
theorem atoiLoop_eq (bs : List Nat) (acc : Nat) (hb : ∀ b ∈ bs, b < 256) :
    atoiLoop bs (Int.ofNat acc) = (digitsValue bs acc).map Int.ofNat := by
  induction bs generalizing acc with
  | nil => rfl
  | cons c rest ih =>
    have hc : c < 256 := hb c (List.mem_cons_self _ _)
    have hrest : ∀ b ∈ rest, b < 256 := fun b h => hb b (List.mem_cons_of_mem _ h)
    unfold atoiLoop digitsValue
    by_cases hd : 48 ≤ c ∧ c ≤ 57
    · have h1 : ¬ (c + 256 - 48) % 256 > 9 := by omega
      have h2 : (c + 256 - 48) % 256 = c - 48 := by omega
      have h3 : Int.ofNat acc * 10 + ((c - 48 : Nat) : Int) = Int.ofNat (acc * 10 + (c - 48)) := by
        simp
      simp only [h1, if_false, hd, and_self, if_true]
      rw [h2, h3]
      exact ih (acc * 10 + (c - 48)) hrest
    · have h1 : (c + 256 - 48) % 256 > 9 := by omega
      simp only [h1, if_true, hd, if_false]
      rfl

/-- The value of a run of digits is at least the value it continues from. -/
theorem digitsValue_ge (bs : List Nat) (acc v : Nat) (h : digitsValue bs acc = some v) :
    acc ≤ v := by
  induction bs generalizing acc with
  | nil =>
    simp only [digitsValue, Option.some.injEq] at h
    omega
  | cons c rest ih =>
    unfold digitsValue at h
    split_ifs at h with hd
    · have := ih _ h
      omega

/-- The value of a run of k digits continuing from `acc` is below `(acc + 1) * 10 ^ k`. -/
theorem digitsValue_lt (bs : List Nat) (acc v : Nat) (h : digitsValue bs acc = some v) :
    v < (acc + 1) * 10 ^ bs.length := by
  induction bs generalizing acc with
  | nil =>
    simp only [digitsValue, Option.some.injEq] at h
    simp
    omega
  | cons c rest ih =>
    unfold digitsValue at h
    split_ifs at h with hd
    · have h1 := ih _ h
      have h2 : (acc * 10 + (c - 48) + 1) * 10 ^ rest.length
          ≤ (acc + 1) * 10 ^ (c :: rest).length := by
        rw [List.length_cons, pow_succ]
        have : acc * 10 + (c - 48) + 1 ≤ (acc + 1) * 10 := by omega
        calc (acc * 10 + (c - 48) + 1) * 10 ^ rest.length
            ≤ ((acc + 1) * 10) * 10 ^ rest.length := Nat.mul_le_mul_right _ this
          _ = (acc + 1) * (10 ^ rest.length * 10) := by ring
      omega

/-- The loop of `ParseUint` succeeds exactly on a run of digits whose value fits 64 bits. -/
theorem parseUintLoop_ok_iff (bs : List Nat) (acc v : Nat) :
    parseUintLoop bs acc = .ok v ↔
      digitsValue bs acc = some v ∧ (bs = [] ∨ v ≤ 2 ^ 64 - 1) := by
  induction bs generalizing acc with
  | nil =>
    simp [parseUintLoop, digitsValue]
  | cons c rest ih =>
    unfold parseUintLoop digitsValue
    by_cases hd : 48 ≤ c ∧ c ≤ 57
    · simp only [hd, and_self, if_true]
      by_cases h1 : acc ≥ (2 ^ 64 - 1) / 10 + 1
      · simp only [h1, if_true]
        constructor
        · intro h
          cases h
        · rintro ⟨h, hv⟩
          have := digitsValue_ge _ _ _ h
          simp only [List.cons_ne_nil, false_or] at hv
          omega
      · simp only [h1, if_false]
        by_cases h2 : acc * 10 + (c - 48) > 2 ^ 64 - 1
        · simp only [h2, if_true]
          constructor
          · intro h
            cases h
          · rintro ⟨h, hv⟩
            have := digitsValue_ge _ _ _ h
            simp only [List.cons_ne_nil, false_or] at hv
            omega
        · simp only [h2, if_false]
          rw [ih]
          constructor
          · rintro ⟨h, hv⟩
            refine ⟨h, Or.inr ?_⟩
            rcases hv with rfl | hv
            · simp only [digitsValue, Option.some.injEq] at h
              omega
            · exact hv
          · rintro ⟨h, hv⟩
            simp only [List.cons_ne_nil, false_or] at hv
            exact ⟨h, Or.inr hv⟩
    · simp only [hd, if_false]
      constructor
      · intro h
        cases h
      · rintro ⟨h, _⟩
        cases h

/-- Eighteen decimal digits stay below `2 ^ 63`. -/
theorem pow_bound (k : Nat) (hk : k ≤ 18) : 10 ^ k < 2 ^ 63 := by
  calc 10 ^ k ≤ 10 ^ 18 := Nat.pow_le_pow_right (by decide) hk
    _ < 2 ^ 63 := by norm_num

/-- The model of `strconv.Atoi` succeeds with `n` exactly when the text is a decimal integer
in the sense of `decimalInteger` whose value `n` fits the 64-bit `int`. -/
theorem Atoi_ok_iff (s : String) (n : Int) :
    Atoi s = .ok n ↔ decimalInteger s = some n ∧ -(2 ^ 63) ≤ n ∧ n < 2 ^ 63 := by
  unfold Atoi ParseInt decimalInteger
  have hlt := goBytes_lt s
  generalize goBytes s = bs at hlt
  cases bs with
  | nil => simp
  | cons c rest =>
    have hrest : ∀ b ∈ rest, b < 256 := fun b h => hlt b (List.mem_cons_of_mem _ h)
    have hloopR : atoiLoop rest 0 = (digitsValue rest 0).map Int.ofNat :=
      atoiLoop_eq rest 0 hrest
    have hloopS : atoiLoop (c :: rest) 0 = (digitsValue (c :: rest) 0).map Int.ofNat :=
      atoiLoop_eq (c :: rest) 0 hlt
    by_cases hlen : (c :: rest).length < 19
    · have hfast : 0 < (c :: rest).length ∧ (c :: rest).length < 19 := ⟨by simp, hlen⟩
      simp only [hfast, and_self, if_true]
      have hlenR : rest.length ≤ 17 := by
        simp only [List.length_cons] at hlen
        omega
      by_cases h45 : c = 45
      · subst h45
        cases rest with
        | nil => simp
        | cons d ds =>
          simp only [beq_self_eq_true, true_or, if_true, hloopR]
          cases hv : digitsValue (d :: ds) 0 with
          | none => simp
          | some v =>
            have hb := digitsValue_lt _ _ _ hv
            have hp := pow_bound (d :: ds).length (by omega)
            simp only [Option.map_some', List.length_cons, Nat.lt_one_iff, Nat.add_one_ne_zero,
              and_false, if_false, reduceCtorEq, Except.ok.injEq, Option.some.injEq]
            constructor
            · intro h
              subst h
              refine ⟨rfl, ?_, ?_⟩ <;> simp only [Int.ofNat_eq_coe] <;> omega
            · rintro ⟨h, _⟩
              exact h
      · have e45 : (c == 45) = false := by simp [h45]
        by_cases h43 : c = 43
        · subst h43
          cases rest with
          | nil => simp
          | cons d ds =>
            simp only [e45, beq_self_eq_true, or_true, if_true, hloopR, List.length_cons,
              Nat.lt_one_iff, Nat.add_one_ne_zero, and_false, if_false, Bool.false_eq_true,
              h45, reduceCtorEq]
            cases hv : digitsValue (d :: ds) 0 with
            | none => simp
            | some v =>
              have hb := digitsValue_lt _ _ _ hv
              have hp := pow_bound (d :: ds).length (by omega)
              simp only [Option.map_some', Except.ok.injEq, Option.some.injEq]
              constructor
              · intro h
                subst h
                refine ⟨rfl, ?_, ?_⟩ <;> simp only [Int.ofNat_eq_coe] <;> omega
              · rintro ⟨h, _⟩
                exact h
        · have e43 : (c == 43) = false := by simp [h43]
          simp only [e45, e43, Bool.false_eq_true, or_self, false_and, if_false, hloopS, h45,
            h43]
          cases hv : digitsValue (c :: rest) 0 with
          | none => simp
          | some v =>
            have hb := digitsValue_lt _ _ _ hv
            have hp := pow_bound (c :: rest).length (by omega)
            simp only [Option.map_some', Except.ok.injEq, Option.some.injEq]
            constructor
            · intro h
              subst h
              refine ⟨rfl, ?_, ?_⟩ <;> simp only [Int.ofNat_eq_coe] <;> omega
            · rintro ⟨h, _⟩
              exact h
    · have hslow : ¬ (0 < (c :: rest).length ∧ (c :: rest).length < 19) := fun h => hlen h.2
      simp only [hslow, if_false]
      have hrne : rest ≠ [] := by
        intro h
        subst h
        simp at hlen
      have hsne : c :: rest ≠ [] := List.cons_ne_nil _ _
      by_cases h45 : c = 45
      · subst h45
        simp only [beq_self_eq_true, or_true, if_true, ParseUint, hrne, if_false, not_true,
          false_and, true_and]
        cases hp : parseUintLoop rest 0 with
        | ok un =>
          have h := (parseUintLoop_ok_iff rest 0 un).1 hp
          simp only [h.1, Option.map_some', Option.some.injEq, Int.ofNat_eq_coe]
          by_cases hr : un > 2 ^ 63
          · simp only [hr, if_true, reduceCtorEq, false_iff, not_and, not_lt]
            intro hn
            omega
          · simp only [hr, if_false, Except.ok.injEq]
            constructor
            · intro hn
              exact ⟨hn, by omega, by omega⟩
            · rintro ⟨hn, _⟩
              exact hn
        | badDigit =>
          simp only [reduceCtorEq, false_iff, not_and]
          intro hd
          cases hv : digitsValue rest 0 with
          | none => simp [hv] at hd
          | some v =>
            have hbig : ¬ v ≤ 2 ^ 64 - 1 := by
              intro hle
              have := (parseUintLoop_ok_iff rest 0 v).2 ⟨hv, Or.inr hle⟩
              rw [hp] at this
              cases this
            simp only [hv, Option.map_some', Option.some.injEq, Int.ofNat_eq_coe] at hd
            omega
        | outOfRange =>
          simp only [reduceCtorEq, false_iff, not_and]
          intro hd
          cases hv : digitsValue rest 0 with
          | none => simp [hv] at hd
          | some v =>
            have hbig : ¬ v ≤ 2 ^ 64 - 1 := by
              intro hle
              have := (parseUintLoop_ok_iff rest 0 v).2 ⟨hv, Or.inr hle⟩
              rw [hp] at this
              cases this
            simp only [hv, Option.map_some', Option.some.injEq, Int.ofNat_eq_coe] at hd
            omega
      · have e45 : (c == 45) = false := by simp [h45]
        by_cases h43 : c = 43
        · subst h43
          simp only [e45, beq_self_eq_true, true_or, if_true, ParseUint, hrne, if_false,
            Bool.false_eq_true, not_false_eq_true, true_and, false_and, h45]
          cases hp : parseUintLoop rest 0 with
          | ok un =>
            have h := (parseUintLoop_ok_iff (rest) 0 un).1 hp
            simp only [h.1, Option.map_some', Option.some.injEq, Int.ofNat_eq_coe]
            by_cases hr : un ≥ 2 ^ 63
            · simp only [hr, if_true, reduceCtorEq, false_iff, not_and, not_lt]
              intro hn
              omega
            · simp only [hr, if_false, Except.ok.injEq]
              constructor
              · intro hn
                exact ⟨hn, by omega, by omega⟩
              · rintro ⟨hn, _⟩
                exact hn
          | badDigit =>
            simp only [reduceCtorEq, false_iff, not_and]
            intro hd
            cases hv : digitsValue (rest) 0 with
            | none => simp [hv] at hd
            | some v =>
              have hbig : ¬ v ≤ 2 ^ 64 - 1 := by
                intro hle
                have := (parseUintLoop_ok_iff (rest) 0 v).2 ⟨hv, Or.inr hle⟩
                rw [hp] at this
                cases this
              simp only [hv, Option.map_some', Option.some.injEq, Int.ofNat_eq_coe] at hd
              omega
          | outOfRange =>
            simp only [reduceCtorEq, false_iff, not_and]
            intro hd
            cases hv : digitsValue (rest) 0 with
            | none => simp [hv] at hd
            | some v =>
              have hbig : ¬ v ≤ 2 ^ 64 - 1 := by
                intro hle
                have := (parseUintLoop_ok_iff (rest) 0 v).2 ⟨hv, Or.inr hle⟩
                rw [hp] at this
                cases this
              simp only [hv, Option.map_some', Option.some.injEq, Int.ofNat_eq_coe] at hd
              omega
        · have e43 : (c == 43) = false := by simp [h43]
          simp only [e45, e43, Bool.false_eq_true, or_self, if_false, ParseUint, hsne,
            not_false_eq_true, true_and, false_and, h45, h43]
          cases hp : parseUintLoop (c :: rest) 0 with
          | ok un =>
            have h := (parseUintLoop_ok_iff (c :: rest) 0 un).1 hp
            simp only [h.1, Option.map_some', Option.some.injEq, Int.ofNat_eq_coe]
            by_cases hr : un ≥ 2 ^ 63
            · simp only [hr, if_true, reduceCtorEq, false_iff, not_and, not_lt]
              intro hn
              omega
            · simp only [hr, if_false, Except.ok.injEq]
              constructor
              · intro hn
                exact ⟨hn, by omega, by omega⟩
              · rintro ⟨hn, _⟩
                exact hn
          | badDigit =>
            simp only [reduceCtorEq, false_iff, not_and]
            intro hd
            cases hv : digitsValue (c :: rest) 0 with
            | none => simp [hv] at hd
            | some v =>
              have hbig : ¬ v ≤ 2 ^ 64 - 1 := by
                intro hle
                have := (parseUintLoop_ok_iff (c :: rest) 0 v).2 ⟨hv, Or.inr hle⟩
                rw [hp] at this
                cases this
              simp only [hv, Option.map_some', Option.some.injEq, Int.ofNat_eq_coe] at hd
              omega
          | outOfRange =>
            simp only [reduceCtorEq, false_iff, not_and]
            intro hd
            cases hv : digitsValue (c :: rest) 0 with
            | none => simp [hv] at hd
            | some v =>
              have hbig : ¬ v ≤ 2 ^ 64 - 1 := by
                intro hle
                have := (parseUintLoop_ok_iff (c :: rest) 0 v).2 ⟨hv, Or.inr hle⟩
                rw [hp] at this
                cases this
              simp only [hv, Option.map_some', Option.some.injEq, Int.ofNat_eq_coe] at hd
              omega

/-- The smallest integer above the range of `int` is a decimal integer that `Atoi` rejects. -/
theorem Atoi_beyond_int_range :
    decimalInteger "9223372036854775808" = some 9223372036854775808
    ∧ Atoi "9223372036854775808"
      = .error (.numError "Atoi" "9223372036854775808" errRange) :=
  ⟨by rfl, by rfl⟩

end strconv

namespace rest

/-! ### The return paths of the handlers -/

/-- Go's `len(s) == 0` holds of the empty string only. -/
theorem len_eq_zero_iff (s : String) : len s = 0 ↔ s = "" := by
  unfold len goBytes
  constructor
  · intro h
    rcases s with ⟨l⟩
    cases l with
    | nil => rfl
    | cons c cs =>
      exfalso
      simp only [String.toList, List.flatMap_cons, List.length_append] at h
      have : 0 < (charBytes c).length := by
        unfold charBytes
        simp only
        split_ifs <;> simp
      omega
  · rintro rfl
    rfl

/-- On a fresh writer `ReturnResponse` with one of the three statuses the handlers use does
not panic: it leaves the status line, the envelope built from the options and a newline,
and returns the wrapped error of the connection, if it refused the bytes. -/
theorem ReturnResponse_fresh (hdr : http.Header) (we : Option GoError) (status : Int)
    (opts : List response.ResponseOption)
    (h : status = 200 ∨ status = 400 ∨ status = 500) :
    response.ReturnResponse (http.ResponseWriter.fresh hdr we) status opts
      = .ok (written hdr we status
          (response.encodeResponse
            (opts.foldl (fun r opt => opt r)
              { Status := http.StatusText status, Error := none, Data := none }) ++ "\n"),
          writeFailure we) := by
  have hb : http.bodyAllowedForStatus status = true := by
    rcases h with h | h | h <;> subst h <;> decide
  have h1 : ¬ (status < 100 ∨ status > 999) := by omega
  have h2 : ¬ (100 ≤ status ∧ status ≤ 199 ∧ status ≠ 101) := by omega
  cases we <;>
    simp [response.ReturnResponse, http.ResponseWriter.WriteHeader, http.ResponseWriter.fresh,
      response.Encode, http.ResponseWriter.Write, http.ResponseWriter.SetHeader, hb, h1, h2,
      written, writeFailure]

/-- An outcome built by `finished` answered with its status and its envelope. -/
theorem finished_Answered (hdr : http.Header) (we : Option GoError) (service : QNADispatcher)
    (r : Request) (errorList : List GoError) (status : Int) (resp : response.Response) :
    (finished hdr we service r errorList status resp).Answered status
      (response.encodeResponse resp ++ "\n") := by
  refine ⟨rfl, rfl, rfl, ?_⟩
  intro h
  have hw : we = none := h
  subst hw
  rfl

/-- Return path of `CreateUser`: the body does not decode. -/
theorem CreateUser_decodeFailed (t : serverAPI) (hdr : http.Header) (we : Option GoError) (r : Request) (req : request.CreateUserRequest) (err : GoError)
    (hd : request.decodeCreateUserRequest { Name := "" } r.Body = (req, some err)) :
    serverAPI.CreateUser t (http.ResponseWriter.fresh hdr we) r
      = finished hdr we t.service r [err] 400
          (failure 400 "JSON_PARSING_FAILED" "Invalid request body") := by
  unfold serverAPI.CreateUser
  simp only [hd]
  rw [ReturnResponse_fresh _ _ _ _ (by decide)]
  rfl

/-- Return path of `CreateUser`: the body decodes and `Name` is empty. -/
theorem CreateUser_emptyField (t : serverAPI) (hdr : http.Header) (we : Option GoError) (r : Request) (req : request.CreateUserRequest)
    (hd : request.decodeCreateUserRequest { Name := "" } r.Body = (req, none))
    (he : req.Name = "") :
    serverAPI.CreateUser t (http.ResponseWriter.fresh hdr we) r
      = finished hdr we t.service r [.new "field \"name\" must not be empty"] 400
          (failure 400 "VALIDATION_FAILED" "field \"name\" must not be empty") := by
  have hl : len req.Name = 0 := (len_eq_zero_iff _).2 he
  unfold serverAPI.CreateUser
  simp only [hd, hl, if_true]
  rw [ReturnResponse_fresh _ _ _ _ (by decide)]
  rfl

/-- Return path of `CreateUser`: the service returns an error. -/
theorem CreateUser_serviceFailed (t : serverAPI) (hdr : http.Header) (we : Option GoError) (r : Request) (req : request.CreateUserRequest) (userId : Option String) (err : GoError)
    (hd : request.decodeCreateUserRequest { Name := "" } r.Body = (req, none))
    (hne : req.Name ≠ "")
    (hs : t.service.createUser req.Name = (userId, some err)) :
    serverAPI.CreateUser t (http.ResponseWriter.fresh hdr we) r
      = finished hdr we (t.service.record (.CreateUser req.Name)) r [err] 500
          (failure 500 "INTERNAL_SERVER_ERROR" "internal server error") := by
  have hl : ¬ len req.Name = 0 := fun h => hne ((len_eq_zero_iff _).1 h)
  unfold serverAPI.CreateUser
  simp only [hd, hl, if_false, QNADispatcher.CreateUser, hs]
  rw [ReturnResponse_fresh _ _ _ _ (by decide)]
  rfl

/-- Return path of `CreateUser`: the service returns a nil pointer and no error. -/
theorem CreateUser_nilResult (t : serverAPI) (hdr : http.Header) (we : Option GoError) (r : Request) (req : request.CreateUserRequest)
    (hd : request.decodeCreateUserRequest { Name := "" } r.Body = (req, none))
    (hne : req.Name ≠ "")
    (hs : t.service.createUser req.Name = (none, none)) :
    serverAPI.CreateUser t (http.ResponseWriter.fresh hdr we) r
      = { w := http.ResponseWriter.fresh hdr we, service := (t.service.record (.CreateUser req.Name)), r := r,
          panicked := some nilDereference } := by
  have hl : ¬ len req.Name = 0 := fun h => hne ((len_eq_zero_iff _).1 h)
  unfold serverAPI.CreateUser
  simp only [hd, hl, if_false, QNADispatcher.CreateUser, hs]

/-- Return path of `CreateUser`: the service returns an id. -/
theorem CreateUser_ok (t : serverAPI) (hdr : http.Header) (we : Option GoError) (r : Request) (req : request.CreateUserRequest) (userId : String)
    (hd : request.decodeCreateUserRequest { Name := "" } r.Body = (req, none))
    (hne : req.Name ≠ "")
    (hs : t.service.createUser req.Name = (some userId, none)) :
    serverAPI.CreateUser t (http.ResponseWriter.fresh hdr we) r
      = finished hdr we (t.service.record (.CreateUser req.Name)) r [] 200
          (success (some (.createUser { UserId := userId }))) := by
  have hl : ¬ len req.Name = 0 := fun h => hne ((len_eq_zero_iff _).1 h)
  unfold serverAPI.CreateUser
  simp only [hd, hl, if_false, QNADispatcher.CreateUser, hs]
  rw [ReturnResponse_fresh _ _ _ _ (by decide)]
  rfl

/-- Return path of `GetUsers`: the service returns an error. -/
theorem GetUsers_serviceFailed (t : serverAPI) (hdr : http.Header) (we : Option GoError) (r : Request) (users : Option (Slice domain.User)) (err : GoError)
    (hs : t.service.getUsers = (users, some err)) :
    serverAPI.GetUsers t (http.ResponseWriter.fresh hdr we) r
      = finished hdr we (t.service.record .GetUsers) r [err] 500
          (failure 500 "INTERNAL_SERVER_ERROR" "internal server error") := by
  unfold serverAPI.GetUsers
  simp only [QNADispatcher.GetUsers, hs]
  rw [ReturnResponse_fresh _ _ _ _ (by decide)]
  rfl

/-- Return path of `GetUsers`: the service returns a nil pointer and no error. -/
theorem GetUsers_nilResult (t : serverAPI) (hdr : http.Header) (we : Option GoError) (r : Request)
    (hs : t.service.getUsers = (none, none)) :
    serverAPI.GetUsers t (http.ResponseWriter.fresh hdr we) r
      = { w := http.ResponseWriter.fresh hdr we, service := (t.service.record .GetUsers), r := r,
          panicked := some nilDereference } := by
  unfold serverAPI.GetUsers
  simp only [QNADispatcher.GetUsers, hs]

/-- Return path of `GetUsers`: the service returns a list. -/
theorem GetUsers_ok (t : serverAPI) (hdr : http.Header) (we : Option GoError) (r : Request) (users : Slice domain.User)
    (hs : t.service.getUsers = (some users, none)) :
    serverAPI.GetUsers t (http.ResponseWriter.fresh hdr we) r
      = finished hdr we (t.service.record .GetUsers) r [] 200
          (success (some (.users users))) := by
  unfold serverAPI.GetUsers
  simp only [QNADispatcher.GetUsers, hs]
  rw [ReturnResponse_fresh _ _ _ _ (by decide)]
  rfl

/-- Return path of `DeleteUser`: the path id is no UUID. -/
theorem DeleteUser_invalidUUID (t : serverAPI) (hdr : http.Header) (we : Option GoError) (r : Request) (err : GoError)
    (hu : uuid.Parse (r.PathValue "id") = .error err) :
    serverAPI.DeleteUser t (http.ResponseWriter.fresh hdr we) r
      = finished hdr we t.service r [err] 400
          (failure 400 "VALIDATION_FAILED" "invalid UUID format for \"id\"") := by
  unfold serverAPI.DeleteUser
  simp only [hu]
  rw [ReturnResponse_fresh _ _ _ _ (by decide)]
  rfl

/-- Return path of `DeleteUser`: the service returns an error. -/
theorem DeleteUser_serviceFailed (t : serverAPI) (hdr : http.Header) (we : Option GoError) (r : Request) (u : List Nat) (err : GoError)
    (hu : uuid.Parse (r.PathValue "id") = .ok u)
    (hs : t.service.deleteUser (r.PathValue "id") = some err) :
    serverAPI.DeleteUser t (http.ResponseWriter.fresh hdr we) r
      = finished hdr we (t.service.record (.DeleteUser (r.PathValue "id"))) r [err] 500
          (failure 500 "INTERNAL_SERVER_ERROR" "internal server error") := by
  unfold serverAPI.DeleteUser
  simp only [hu, QNADispatcher.DeleteUser, hs]
  rw [ReturnResponse_fresh _ _ _ _ (by decide)]
  rfl

/-- Return path of `DeleteUser`: the service returns no error. -/
theorem DeleteUser_ok (t : serverAPI) (hdr : http.Header) (we : Option GoError) (r : Request) (u : List Nat)
    (hu : uuid.Parse (r.PathValue "id") = .ok u)
    (hs : t.service.deleteUser (r.PathValue "id") = none) :
    serverAPI.DeleteUser t (http.ResponseWriter.fresh hdr we) r
      = finished hdr we (t.service.record (.DeleteUser (r.PathValue "id"))) r [] 200
          (success none) := by
  unfold serverAPI.DeleteUser
  simp only [hu, QNADispatcher.DeleteUser, hs]
  rw [ReturnResponse_fresh _ _ _ _ (by decide)]
  rfl

/-- Return path of `GetQuestions`: the service returns an error. -/
theorem GetQuestions_serviceFailed (t : serverAPI) (hdr : http.Header) (we : Option GoError) (r : Request) (questions : Option (Slice domain.Question)) (err : GoError)
    (hs : t.service.getQuestions = (questions, some err)) :
    serverAPI.GetQuestions t (http.ResponseWriter.fresh hdr we) r
      = finished hdr we (t.service.record .GetQuestions) r [err] 500
          (failure 500 "INTERNAL_SERVER_ERROR" "internal server error") := by
  unfold serverAPI.GetQuestions
  simp only [QNADispatcher.GetQuestions, hs]
  rw [ReturnResponse_fresh _ _ _ _ (by decide)]
  rfl

/-- Return path of `GetQuestions`: the service returns a nil pointer and no error. -/
theorem GetQuestions_nilResult (t : serverAPI) (hdr : http.Header) (we : Option GoError) (r : Request)
    (hs : t.service.getQuestions = (none, none)) :
    serverAPI.GetQuestions t (http.ResponseWriter.fresh hdr we) r
      = { w := http.ResponseWriter.fresh hdr we, service := (t.service.record .GetQuestions), r := r,
          panicked := some nilDereference } := by
  unfold serverAPI.GetQuestions
  simp only [QNADispatcher.GetQuestions, hs]

/-- Return path of `GetQuestions`: the service returns a list. -/
theorem GetQuestions_ok (t : serverAPI) (hdr : http.Header) (we : Option GoError) (r : Request) (questions : Slice domain.Question)
    (hs : t.service.getQuestions = (some questions, none)) :
    serverAPI.GetQuestions t (http.ResponseWriter.fresh hdr we) r
      = finished hdr we (t.service.record .GetQuestions) r [] 200
          (success (some (.questions questions))) := by
  unfold serverAPI.GetQuestions
  simp only [QNADispatcher.GetQuestions, hs]
  rw [ReturnResponse_fresh _ _ _ _ (by decide)]
  rfl

/-- Return path of `CreateQuestion`: the body does not decode. -/
theorem CreateQuestion_decodeFailed (t : serverAPI) (hdr : http.Header) (we : Option GoError) (r : Request) (req : request.CreateQuestionRequest) (err : GoError)
    (hd : request.decodeCreateQuestionRequest { Text := "" } r.Body = (req, some err)) :
    serverAPI.CreateQuestion t (http.ResponseWriter.fresh hdr we) r
      = finished hdr we t.service r [err] 400
          (failure 400 "JSON_PARSING_FAILED" "Invalid request body") := by
  unfold serverAPI.CreateQuestion
  simp only [hd]
  rw [ReturnResponse_fresh _ _ _ _ (by decide)]
  rfl

/-- Return path of `CreateQuestion`: the body decodes and `Text` is empty. -/
theorem CreateQuestion_emptyField (t : serverAPI) (hdr : http.Header) (we : Option GoError) (r : Request) (req : request.CreateQuestionRequest)
    (hd : request.decodeCreateQuestionRequest { Text := "" } r.Body = (req, none))
    (he : req.Text = "") :
    serverAPI.CreateQuestion t (http.ResponseWriter.fresh hdr we) r
      = finished hdr we t.service r [.new "field \"text\" must not be empty"] 400
          (failure 400 "VALIDATION_FAILED" "field \"text\" must not be empty") := by
  have hl : len req.Text = 0 := (len_eq_zero_iff _).2 he
  unfold serverAPI.CreateQuestion
  simp only [hd, hl, if_true]
  rw [ReturnResponse_fresh _ _ _ _ (by decide)]
  rfl

/-- Return path of `CreateQuestion`: the service returns an error. -/
theorem CreateQuestion_serviceFailed (t : serverAPI) (hdr : http.Header) (we : Option GoError) (r : Request) (req : request.CreateQuestionRequest) (questionId : Int) (err : GoError)
    (hd : request.decodeCreateQuestionRequest { Text := "" } r.Body = (req, none))
    (hne : req.Text ≠ "")
    (hs : t.service.createQuestion req.Text = (questionId, some err)) :
    serverAPI.CreateQuestion t (http.ResponseWriter.fresh hdr we) r
      = finished hdr we (t.service.record (.CreateQuestion req.Text)) r [err] 500
          (failure 500 "INTERNAL_SERVER_ERROR" "internal server error") := by
  have hl : ¬ len req.Text = 0 := fun h => hne ((len_eq_zero_iff _).1 h)
  unfold serverAPI.CreateQuestion
  simp only [hd, hl, if_false, QNADispatcher.CreateQuestion, hs]
  rw [ReturnResponse_fresh _ _ _ _ (by decide)]
  rfl

/-- Return path of `CreateQuestion`: the service returns an id. -/
theorem CreateQuestion_ok (t : serverAPI) (hdr : http.Header) (we : Option GoError) (r : Request) (req : request.CreateQuestionRequest) (questionId : Int)
    (hd : request.decodeCreateQuestionRequest { Text := "" } r.Body = (req, none))
    (hne : req.Text ≠ "")
    (hs : t.service.createQuestion req.Text = (questionId, none)) :
    serverAPI.CreateQuestion t (http.ResponseWriter.fresh hdr we) r
      = finished hdr we (t.service.record (.CreateQuestion req.Text)) r [] 200
          (success (some (.createQuestion { QuestionId := questionId }))) := by
  have hl : ¬ len req.Text = 0 := fun h => hne ((len_eq_zero_iff _).1 h)
  unfold serverAPI.CreateQuestion
  simp only [hd, hl, if_false, QNADispatcher.CreateQuestion, hs]
  rw [ReturnResponse_fresh _ _ _ _ (by decide)]
  rfl

/-- Return path of `GetQuestionAndAnswers`: the path id is no integer. -/
theorem GetQuestionAndAnswers_invalidId (t : serverAPI) (hdr : http.Header) (we : Option GoError) (r : Request) (err : GoError)
    (ha : strconv.Atoi (r.PathValue "id") = .error err) :
    serverAPI.GetQuestionAndAnswers t (http.ResponseWriter.fresh hdr we) r
      = finished hdr we t.service r [err] 400
          (failure 400 "VALIDATION_FAILED" "invalid ID format for \"id\"") := by
  unfold serverAPI.GetQuestionAndAnswers
  simp only [ha]
  rw [ReturnResponse_fresh _ _ _ _ (by decide)]
  rfl

/-- Return path of `GetQuestionAndAnswers`: the path id is below 1. -/
theorem GetQuestionAndAnswers_notPositive (t : serverAPI) (hdr : http.Header) (we : Option GoError) (r : Request) (n : Int)
    (ha : strconv.Atoi (r.PathValue "id") = .ok n)
    (hn : n < 1) :
    serverAPI.GetQuestionAndAnswers t (http.ResponseWriter.fresh hdr we) r
      = finished hdr we t.service r [.new "ID must be a positive integer"] 400
          (failure 400 "VALIDATION_FAILED" "ID must be a positive integer") := by
  unfold serverAPI.GetQuestionAndAnswers
  simp only [ha, hn, if_true]
  rw [ReturnResponse_fresh _ _ _ _ (by decide)]
  rfl

/-- Return path of `GetQuestionAndAnswers`: the service returns an error. -/
theorem GetQuestionAndAnswers_serviceFailed (t : serverAPI) (hdr : http.Header) (we : Option GoError) (r : Request) (n : Int) (question : Option domain.Question)
    (answers : Option (Slice domain.Answer)) (err : GoError)
    (ha : strconv.Atoi (r.PathValue "id") = .ok n)
    (hn : ¬ n < 1)
    (hs : t.service.getQuestionAndAnswers n = (question, answers, some err)) :
    serverAPI.GetQuestionAndAnswers t (http.ResponseWriter.fresh hdr we) r
      = finished hdr we (t.service.record (.GetQuestionAndAnswers n)) r [err] 500
          (failure 500 "INTERNAL_SERVER_ERROR" "internal server error") := by
  unfold serverAPI.GetQuestionAndAnswers
  simp only [ha, hn, if_false, QNADispatcher.GetQuestionAndAnswers, hs]
  rw [ReturnResponse_fresh _ _ _ _ (by decide)]
  rfl

/-- Return path of `GetQuestionAndAnswers`: the service returns a nil question and no error. -/
theorem GetQuestionAndAnswers_nilQuestion (t : serverAPI) (hdr : http.Header) (we : Option GoError) (r : Request) (n : Int) (answers : Option (Slice domain.Answer))
    (ha : strconv.Atoi (r.PathValue "id") = .ok n)
    (hn : ¬ n < 1)
    (hs : t.service.getQuestionAndAnswers n = (none, answers, none)) :
    serverAPI.GetQuestionAndAnswers t (http.ResponseWriter.fresh hdr we) r
      = { w := http.ResponseWriter.fresh hdr we, service := (t.service.record (.GetQuestionAndAnswers n)), r := r,
          panicked := some nilDereference } := by
  unfold serverAPI.GetQuestionAndAnswers
  simp only [ha, hn, if_false, QNADispatcher.GetQuestionAndAnswers, hs]

/-- Return path of `GetQuestionAndAnswers`: the service returns a nil answers pointer and no error. -/
theorem GetQuestionAndAnswers_nilAnswers (t : serverAPI) (hdr : http.Header) (we : Option GoError) (r : Request) (n : Int) (question : domain.Question)
    (ha : strconv.Atoi (r.PathValue "id") = .ok n)
    (hn : ¬ n < 1)
    (hs : t.service.getQuestionAndAnswers n = (some question, none, none)) :
    serverAPI.GetQuestionAndAnswers t (http.ResponseWriter.fresh hdr we) r
      = { w := http.ResponseWriter.fresh hdr we, service := (t.service.record (.GetQuestionAndAnswers n)), r := r,
          panicked := some nilDereference } := by
  unfold serverAPI.GetQuestionAndAnswers
  simp only [ha, hn, if_false, QNADispatcher.GetQuestionAndAnswers, hs]

/-- Return path of `GetQuestionAndAnswers`: the service returns a question and its answers. -/
theorem GetQuestionAndAnswers_ok (t : serverAPI) (hdr : http.Header) (we : Option GoError) (r : Request) (n : Int) (question : domain.Question) (answers : Slice domain.Answer)
    (ha : strconv.Atoi (r.PathValue "id") = .ok n)
    (hn : ¬ n < 1)
    (hs : t.service.getQuestionAndAnswers n = (some question, some answers, none)) :
    serverAPI.GetQuestionAndAnswers t (http.ResponseWriter.fresh hdr we) r
      = finished hdr we (t.service.record (.GetQuestionAndAnswers n)) r [] 200
          (success (some (.questionAndAnswers { Question := question, Answers := answers }))) := by
  unfold serverAPI.GetQuestionAndAnswers
  simp only [ha, hn, if_false, QNADispatcher.GetQuestionAndAnswers, hs]
  rw [ReturnResponse_fresh _ _ _ _ (by decide)]
  rfl

/-- Return path of `DeleteQuestionAndAnswers`: the path id is no integer. -/
theorem DeleteQuestionAndAnswers_invalidId (t : serverAPI) (hdr : http.Header) (we : Option GoError) (r : Request) (err : GoError)
    (ha : strconv.Atoi (r.PathValue "id") = .error err) :
    serverAPI.DeleteQuestionAndAnswers t (http.ResponseWriter.fresh hdr we) r
      = finished hdr we t.service r [err] 400
          (failure 400 "VALIDATION_FAILED" "invalid ID format for \"id\"") := by
  unfold serverAPI.DeleteQuestionAndAnswers
  simp only [ha]
  rw [ReturnResponse_fresh _ _ _ _ (by decide)]
  rfl

/-- Return path of `DeleteQuestionAndAnswers`: the path id is below 1. -/
theorem DeleteQuestionAndAnswers_notPositive (t : serverAPI) (hdr : http.Header) (we : Option GoError) (r : Request) (n : Int)
    (ha : strconv.Atoi (r.PathValue "id") = .ok n)
    (hn : n < 1) :
    serverAPI.DeleteQuestionAndAnswers t (http.ResponseWriter.fresh hdr we) r
      = finished hdr we t.service r [.new "ID must be a positive integer"] 400
          (failure 400 "VALIDATION_FAILED" "ID must be a positive integer") := by
  unfold serverAPI.DeleteQuestionAndAnswers
  simp only [ha, hn, if_true]
  rw [ReturnResponse_fresh _ _ _ _ (by decide)]
  rfl

/-- Return path of `DeleteQuestionAndAnswers`: the service returns an error. -/
theorem DeleteQuestionAndAnswers_serviceFailed (t : serverAPI) (hdr : http.Header) (we : Option GoError) (r : Request) (n : Int) (err : GoError)
    (ha : strconv.Atoi (r.PathValue "id") = .ok n)
    (hn : ¬ n < 1)
    (hs : t.service.deleteQuestionAndAnswers n = some err) :
    serverAPI.DeleteQuestionAndAnswers t (http.ResponseWriter.fresh hdr we) r
      = finished hdr we (t.service.record (.DeleteQuestionAndAnswers n)) r [err] 500
          (failure 500 "INTERNAL_SERVER_ERROR" "internal server error") := by
  unfold serverAPI.DeleteQuestionAndAnswers
  simp only [ha, hn, if_false, QNADispatcher.DeleteQuestionAndAnswers, hs]
  rw [ReturnResponse_fresh _ _ _ _ (by decide)]
  rfl

/-- Return path of `DeleteQuestionAndAnswers`: the service returns no error. -/
theorem DeleteQuestionAndAnswers_ok (t : serverAPI) (hdr : http.Header) (we : Option GoError) (r : Request) (n : Int)
    (ha : strconv.Atoi (r.PathValue "id") = .ok n)
    (hn : ¬ n < 1)
    (hs : t.service.deleteQuestionAndAnswers n = none) :
    serverAPI.DeleteQuestionAndAnswers t (http.ResponseWriter.fresh hdr we) r
      = finished hdr we (t.service.record (.DeleteQuestionAndAnswers n)) r [] 200
          (success none) := by
  unfold serverAPI.DeleteQuestionAndAnswers
  simp only [ha, hn, if_false, QNADispatcher.DeleteQuestionAndAnswers, hs]
  rw [ReturnResponse_fresh _ _ _ _ (by decide)]
  rfl

/-- Return path of `CreateAnswerToQuestion`: the body does not decode. -/
theorem CreateAnswerToQuestion_decodeFailed (t : serverAPI) (hdr : http.Header) (we : Option GoError) (r : Request) (req : request.CreateAnswerToQuestionRequest) (err : GoError)
    (hd : request.decodeCreateAnswerToQuestionRequest { UserId := "", Text := "" } r.Body = (req, some err)) :
    serverAPI.CreateAnswerToQuestion t (http.ResponseWriter.fresh hdr we) r
      = finished hdr we t.service r [err] 400
          (failure 400 "JSON_PARSING_FAILED" "Invalid request body") := by
  unfold serverAPI.CreateAnswerToQuestion
  simp only [hd]
  rw [ReturnResponse_fresh _ _ _ _ (by decide)]
  rfl

/-- Return path of `CreateAnswerToQuestion`: the body decodes and the path id is no integer. -/
theorem CreateAnswerToQuestion_invalidId (t : serverAPI) (hdr : http.Header) (we : Option GoError) (r : Request) (req : request.CreateAnswerToQuestionRequest) (err : GoError)
    (hd : request.decodeCreateAnswerToQuestionRequest { UserId := "", Text := "" } r.Body = (req, none))
    (ha : strconv.Atoi (r.PathValue "id") = .error err) :
    serverAPI.CreateAnswerToQuestion t (http.ResponseWriter.fresh hdr we) r
      = finished hdr we t.service r [err] 400
          (failure 400 "VALIDATION_FAILED" "invalid ID format for \"id\"") := by
  unfold serverAPI.CreateAnswerToQuestion
  simp only [hd, ha]
  rw [ReturnResponse_fresh _ _ _ _ (by decide)]
  rfl

/-- Return path of `CreateAnswerToQuestion`: the body decodes and the path id is below 1. -/
theorem CreateAnswerToQuestion_notPositive (t : serverAPI) (hdr : http.Header) (we : Option GoError) (r : Request) (req : request.CreateAnswerToQuestionRequest) (n : Int)
    (hd : request.decodeCreateAnswerToQuestionRequest { UserId := "", Text := "" } r.Body = (req, none))
    (ha : strconv.Atoi (r.PathValue "id") = .ok n)
    (hn : n < 1) :
    serverAPI.CreateAnswerToQuestion t (http.ResponseWriter.fresh hdr we) r
      = finished hdr we t.service r [.new "ID must be a positive integer"] 400
          (failure 400 "VALIDATION_FAILED" "ID must be a positive integer") := by
  unfold serverAPI.CreateAnswerToQuestion
  simp only [hd, ha, hn, if_true]
  rw [ReturnResponse_fresh _ _ _ _ (by decide)]
  rfl

/-- Return path of `CreateAnswerToQuestion`: the path id is valid and `text` is empty. -/
theorem CreateAnswerToQuestion_emptyField (t : serverAPI) (hdr : http.Header) (we : Option GoError) (r : Request) (req : request.CreateAnswerToQuestionRequest) (n : Int)
    (hd : request.decodeCreateAnswerToQuestionRequest { UserId := "", Text := "" } r.Body = (req, none))
    (ha : strconv.Atoi (r.PathValue "id") = .ok n)
    (hn : ¬ n < 1)
    (he : req.Text = "") :
    serverAPI.CreateAnswerToQuestion t (http.ResponseWriter.fresh hdr we) r
      = finished hdr we t.service r [.new "field \"text\" must not be empty"] 400
          (failure 400 "VALIDATION_FAILED" "field \"text\" must not be empty") := by
  have hl : len req.Text = 0 := (len_eq_zero_iff _).2 he
  unfold serverAPI.CreateAnswerToQuestion
  simp only [hd, ha, hn, hl, if_true, if_false]
  rw [ReturnResponse_fresh _ _ _ _ (by decide)]
  rfl

/-- Return path of `CreateAnswerToQuestion`: `user_id` is no UUID. -/
theorem CreateAnswerToQuestion_invalidUUID (t : serverAPI) (hdr : http.Header) (we : Option GoError) (r : Request) (req : request.CreateAnswerToQuestionRequest) (n : Int) (err : GoError)
    (hd : request.decodeCreateAnswerToQuestionRequest { UserId := "", Text := "" } r.Body = (req, none))
    (ha : strconv.Atoi (r.PathValue "id") = .ok n)
    (hn : ¬ n < 1)
    (hne : req.Text ≠ "")
    (hu : uuid.Parse req.UserId = .error err) :
    serverAPI.CreateAnswerToQuestion t (http.ResponseWriter.fresh hdr we) r
      = finished hdr we t.service r [err] 400
          (failure 400 "VALIDATION_FAILED" "invalid UUID format for \"user_id\"") := by
  have hl : ¬ len req.Text = 0 := fun h => hne ((len_eq_zero_iff _).1 h)
  unfold serverAPI.CreateAnswerToQuestion
  simp only [hd, ha, hn, hl, if_false, hu]
  rw [ReturnResponse_fresh _ _ _ _ (by decide)]
  rfl

/-- Return path of `CreateAnswerToQuestion`: the service returns an error. -/
theorem CreateAnswerToQuestion_serviceFailed (t : serverAPI) (hdr : http.Header) (we : Option GoError) (r : Request) (req : request.CreateAnswerToQuestionRequest) (n : Int) (u : List Nat)
    (answerId : Int) (err : GoError)
    (hd : request.decodeCreateAnswerToQuestionRequest { UserId := "", Text := "" } r.Body = (req, none))
    (ha : strconv.Atoi (r.PathValue "id") = .ok n)
    (hn : ¬ n < 1)
    (hne : req.Text ≠ "")
    (hu : uuid.Parse req.UserId = .ok u)
    (hs : t.service.createAnswerToQuestion
      { Id := 0, QuestionId := n, UserId := req.UserId, Text := req.Text } = (answerId, some err)) :
    serverAPI.CreateAnswerToQuestion t (http.ResponseWriter.fresh hdr we) r
      = finished hdr we (t.service.record
          (.CreateAnswerToQuestion { Id := 0, QuestionId := n, UserId := req.UserId, Text := req.Text })) r [err] 500
          (failure 500 "INTERNAL_SERVER_ERROR" "internal server error") := by
  have hl : ¬ len req.Text = 0 := fun h => hne ((len_eq_zero_iff _).1 h)
  unfold serverAPI.CreateAnswerToQuestion
  simp only [hd, ha, hn, hl, if_false, hu, QNADispatcher.CreateAnswerToQuestion, hs]
  rw [ReturnResponse_fresh _ _ _ _ (by decide)]
  rfl

/-- Return path of `CreateAnswerToQuestion`: the service returns an id. -/
theorem CreateAnswerToQuestion_ok (t : serverAPI) (hdr : http.Header) (we : Option GoError) (r : Request) (req : request.CreateAnswerToQuestionRequest) (n : Int) (u : List Nat)
    (answerId : Int)
    (hd : request.decodeCreateAnswerToQuestionRequest { UserId := "", Text := "" } r.Body = (req, none))
    (ha : strconv.Atoi (r.PathValue "id") = .ok n)
    (hn : ¬ n < 1)
    (hne : req.Text ≠ "")
    (hu : uuid.Parse req.UserId = .ok u)
    (hs : t.service.createAnswerToQuestion
      { Id := 0, QuestionId := n, UserId := req.UserId, Text := req.Text } = (answerId, none)) :
    serverAPI.CreateAnswerToQuestion t (http.ResponseWriter.fresh hdr we) r
      = finished hdr we (t.service.record
          (.CreateAnswerToQuestion { Id := 0, QuestionId := n, UserId := req.UserId, Text := req.Text })) r [] 200
          (success (some (.createAnswerToQuestion { AnswerId := answerId }))) := by
  have hl : ¬ len req.Text = 0 := fun h => hne ((len_eq_zero_iff _).1 h)
  unfold serverAPI.CreateAnswerToQuestion
  simp only [hd, ha, hn, hl, if_false, hu, QNADispatcher.CreateAnswerToQuestion, hs]
  rw [ReturnResponse_fresh _ _ _ _ (by decide)]
  rfl

/-- Return path of `GetAnswer`: the path id is no integer. -/
theorem GetAnswer_invalidId (t : serverAPI) (hdr : http.Header) (we : Option GoError) (r : Request) (err : GoError)
    (ha : strconv.Atoi (r.PathValue "id") = .error err) :
    serverAPI.GetAnswer t (http.ResponseWriter.fresh hdr we) r
      = finished hdr we t.service r [err] 400
          (failure 400 "VALIDATION_FAILED" "invalid ID format for \"id\"") := by
  unfold serverAPI.GetAnswer
  simp only [ha]
  rw [ReturnResponse_fresh _ _ _ _ (by decide)]
  rfl

/-- Return path of `GetAnswer`: the path id is below 1. -/
theorem GetAnswer_notPositive (t : serverAPI) (hdr : http.Header) (we : Option GoError) (r : Request) (n : Int)
    (ha : strconv.Atoi (r.PathValue "id") = .ok n)
    (hn : n < 1) :
    serverAPI.GetAnswer t (http.ResponseWriter.fresh hdr we) r
      = finished hdr we t.service r [.new "ID must be a positive integer"] 400
          (failure 400 "VALIDATION_FAILED" "ID must be a positive integer") := by
  unfold serverAPI.GetAnswer
  simp only [ha, hn, if_true]
  rw [ReturnResponse_fresh _ _ _ _ (by decide)]
  rfl

/-- Return path of `GetAnswer`: the service returns an error. -/
theorem GetAnswer_serviceFailed (t : serverAPI) (hdr : http.Header) (we : Option GoError) (r : Request) (n : Int) (answer : Option domain.Answer) (err : GoError)
    (ha : strconv.Atoi (r.PathValue "id") = .ok n)
    (hn : ¬ n < 1)
    (hs : t.service.getAnswer n = (answer, some err)) :
    serverAPI.GetAnswer t (http.ResponseWriter.fresh hdr we) r
      = finished hdr we (t.service.record (.GetAnswer n)) r [err] 500
          (failure 500 "INTERNAL_SERVER_ERROR" "internal server error") := by
  unfold serverAPI.GetAnswer
  simp only [ha, hn, if_false, QNADispatcher.GetAnswer, hs]
  rw [ReturnResponse_fresh _ _ _ _ (by decide)]
  rfl

/-- Return path of `GetAnswer`: the service returns no error. -/
theorem GetAnswer_ok (t : serverAPI) (hdr : http.Header) (we : Option GoError) (r : Request) (n : Int) (answer : Option domain.Answer)
    (ha : strconv.Atoi (r.PathValue "id") = .ok n)
    (hn : ¬ n < 1)
    (hs : t.service.getAnswer n = (answer, none)) :
    serverAPI.GetAnswer t (http.ResponseWriter.fresh hdr we) r
      = finished hdr we (t.service.record (.GetAnswer n)) r [] 200
          (success (some (.answer answer))) := by
  unfold serverAPI.GetAnswer
  simp only [ha, hn, if_false, QNADispatcher.GetAnswer, hs]
  rw [ReturnResponse_fresh _ _ _ _ (by decide)]
  rfl

/-- Return path of `DeleteAnswer`: the path id is no integer. -/
theorem DeleteAnswer_invalidId (t : serverAPI) (hdr : http.Header) (we : Option GoError) (r : Request) (err : GoError)
    (ha : strconv.Atoi (r.PathValue "id") = .error err) :
    serverAPI.DeleteAnswer t (http.ResponseWriter.fresh hdr we) r
      = finished hdr we t.service r [err] 400
          (failure 400 "VALIDATION_FAILED" "invalid ID format for \"id\"") := by
  unfold serverAPI.DeleteAnswer
  simp only [ha]
  rw [ReturnResponse_fresh _ _ _ _ (by decide)]
  rfl

/-- Return path of `DeleteAnswer`: the path id is below 1. -/
theorem DeleteAnswer_notPositive (t : serverAPI) (hdr : http.Header) (we : Option GoError) (r : Request) (n : Int)
    (ha : strconv.Atoi (r.PathValue "id") = .ok n)
    (hn : n < 1) :
    serverAPI.DeleteAnswer t (http.ResponseWriter.fresh hdr we) r
      = finished hdr we t.service r [.new "ID must be a positive integer"] 400
          (failure 400 "VALIDATION_FAILED" "ID must be a positive integer") := by
  unfold serverAPI.DeleteAnswer
  simp only [ha, hn, if_true]
  rw [ReturnResponse_fresh _ _ _ _ (by decide)]
  rfl

/-- Return path of `DeleteAnswer`: the service returns an error. -/
theorem DeleteAnswer_serviceFailed (t : serverAPI) (hdr : http.Header) (we : Option GoError) (r : Request) (n : Int) (err : GoError)
    (ha : strconv.Atoi (r.PathValue "id") = .ok n)
    (hn : ¬ n < 1)
    (hs : t.service.deleteAnswer n = some err) :
    serverAPI.DeleteAnswer t (http.ResponseWriter.fresh hdr we) r
      = finished hdr we (t.service.record (.DeleteAnswer n)) r [err] 500
          (failure 500 "INTERNAL_SERVER_ERROR" "internal server error") := by
  unfold serverAPI.DeleteAnswer
  simp only [ha, hn, if_false, QNADispatcher.DeleteAnswer, hs]
  rw [ReturnResponse_fresh _ _ _ _ (by decide)]
  rfl

/-- Return path of `DeleteAnswer`: the service returns no error. -/
theorem DeleteAnswer_ok (t : serverAPI) (hdr : http.Header) (we : Option GoError) (r : Request) (n : Int)
    (ha : strconv.Atoi (r.PathValue "id") = .ok n)
    (hn : ¬ n < 1)
    (hs : t.service.deleteAnswer n = none) :
    serverAPI.DeleteAnswer t (http.ResponseWriter.fresh hdr we) r
      = finished hdr we (t.service.record (.DeleteAnswer n)) r [] 200
          (success none) := by
  unfold serverAPI.DeleteAnswer
  simp only [ha, hn, if_false, QNADispatcher.DeleteAnswer, hs]
  rw [ReturnResponse_fresh _ _ _ _ (by decide)]
  rfl

/-! ### Every outcome has one of the four shapes -/

/-- Shape of the outcomes of `CreateUser`. -/
theorem CreateUser_shape (t : serverAPI) (hdr : http.Header) (we : Option GoError) (r : Request) :
    Shape t hdr we r (serverAPI.CreateUser t (http.ResponseWriter.fresh hdr we) r) := by
  rcases hd : request.decodeCreateUserRequest { Name := "" } r.Body with ⟨req, _ | err⟩
  · by_cases he : req.Name = ""
    · rw [CreateUser_emptyField t hdr we r req hd he]
      exact .rejected _ _ _ (Or.inl rfl)
    · rcases hs : t.service.createUser req.Name with ⟨_ | userId, _ | err⟩
      · rw [CreateUser_nilResult t hdr we r req hd he hs]
        exact .panicked _
      · rw [CreateUser_serviceFailed t hdr we r req _ err hd he hs]
        exact .failed _ _
      · rw [CreateUser_ok t hdr we r req userId hd he hs]
        exact .succeeded _ _
      · rw [CreateUser_serviceFailed t hdr we r req _ err hd he hs]
        exact .failed _ _
  · rw [CreateUser_decodeFailed t hdr we r req err hd]
    exact .rejected _ _ _ (Or.inr rfl)

/-- Shape of the outcomes of `GetUsers`. -/
theorem GetUsers_shape (t : serverAPI) (hdr : http.Header) (we : Option GoError) (r : Request) :
    Shape t hdr we r (serverAPI.GetUsers t (http.ResponseWriter.fresh hdr we) r) := by
  rcases hs : t.service.getUsers with ⟨_ | users, _ | err⟩
  · rw [GetUsers_nilResult t hdr we r hs]
    exact .panicked _
  · rw [GetUsers_serviceFailed t hdr we r _ err hs]
    exact .failed _ _
  · rw [GetUsers_ok t hdr we r users hs]
    exact .succeeded _ _
  · rw [GetUsers_serviceFailed t hdr we r _ err hs]
    exact .failed _ _

/-- Shape of the outcomes of `DeleteUser`. -/
theorem DeleteUser_shape (t : serverAPI) (hdr : http.Header) (we : Option GoError) (r : Request) :
    Shape t hdr we r (serverAPI.DeleteUser t (http.ResponseWriter.fresh hdr we) r) := by
  rcases hu : uuid.Parse (r.PathValue "id") with err | u
  · rw [DeleteUser_invalidUUID t hdr we r err hu]
    exact .rejected _ _ _ (Or.inl rfl)
  · rcases hs : t.service.deleteUser (r.PathValue "id") with _ | err
    · rw [DeleteUser_ok t hdr we r u hu hs]
      exact .succeeded _ _
    · rw [DeleteUser_serviceFailed t hdr we r u err hu hs]
      exact .failed _ _

/-- Shape of the outcomes of `GetQuestions`. -/
theorem GetQuestions_shape (t : serverAPI) (hdr : http.Header) (we : Option GoError)
    (r : Request) :
    Shape t hdr we r (serverAPI.GetQuestions t (http.ResponseWriter.fresh hdr we) r) := by
  rcases hs : t.service.getQuestions with ⟨_ | questions, _ | err⟩
  · rw [GetQuestions_nilResult t hdr we r hs]
    exact .panicked _
  · rw [GetQuestions_serviceFailed t hdr we r _ err hs]
    exact .failed _ _
  · rw [GetQuestions_ok t hdr we r questions hs]
    exact .succeeded _ _
  · rw [GetQuestions_serviceFailed t hdr we r _ err hs]
    exact .failed _ _

/-- Shape of the outcomes of `CreateQuestion`. -/
theorem CreateQuestion_shape (t : serverAPI) (hdr : http.Header) (we : Option GoError)
    (r : Request) :
    Shape t hdr we r (serverAPI.CreateQuestion t (http.ResponseWriter.fresh hdr we) r) := by
  rcases hd : request.decodeCreateQuestionRequest { Text := "" } r.Body with ⟨req, _ | err⟩
  · by_cases he : req.Text = ""
    · rw [CreateQuestion_emptyField t hdr we r req hd he]
      exact .rejected _ _ _ (Or.inl rfl)
    · rcases hs : t.service.createQuestion req.Text with ⟨questionId, _ | err⟩
      · rw [CreateQuestion_ok t hdr we r req questionId hd he hs]
        exact .succeeded _ _
      · rw [CreateQuestion_serviceFailed t hdr we r req _ err hd he hs]
        exact .failed _ _
  · rw [CreateQuestion_decodeFailed t hdr we r req err hd]
    exact .rejected _ _ _ (Or.inr rfl)

/-- Shape of the outcomes of `GetQuestionAndAnswers`. -/
theorem GetQuestionAndAnswers_shape (t : serverAPI) (hdr : http.Header) (we : Option GoError)
    (r : Request) :
    Shape t hdr we r (serverAPI.GetQuestionAndAnswers t (http.ResponseWriter.fresh hdr we) r) := by
  rcases ha : strconv.Atoi (r.PathValue "id") with err | n
  · rw [GetQuestionAndAnswers_invalidId t hdr we r err ha]
    exact .rejected _ _ _ (Or.inl rfl)
  · by_cases hn : n < 1
    · rw [GetQuestionAndAnswers_notPositive t hdr we r n ha hn]
      exact .rejected _ _ _ (Or.inl rfl)
    · rcases hs : t.service.getQuestionAndAnswers n with ⟨_ | question, _ | answers, _ | err⟩
      · rw [GetQuestionAndAnswers_nilQuestion t hdr we r n _ ha hn hs]
        exact .panicked _
      · rw [GetQuestionAndAnswers_serviceFailed t hdr we r n _ _ err ha hn hs]
        exact .failed _ _
      · rw [GetQuestionAndAnswers_nilQuestion t hdr we r n _ ha hn hs]
        exact .panicked _
      · rw [GetQuestionAndAnswers_serviceFailed t hdr we r n _ _ err ha hn hs]
        exact .failed _ _
      · rw [GetQuestionAndAnswers_nilAnswers t hdr we r n question ha hn hs]
        exact .panicked _
      · rw [GetQuestionAndAnswers_serviceFailed t hdr we r n _ _ err ha hn hs]
        exact .failed _ _
      · rw [GetQuestionAndAnswers_ok t hdr we r n question answers ha hn hs]
        exact .succeeded _ _
      · rw [GetQuestionAndAnswers_serviceFailed t hdr we r n _ _ err ha hn hs]
        exact .failed _ _

/-- Shape of the outcomes of `DeleteQuestionAndAnswers`. -/
theorem DeleteQuestionAndAnswers_shape (t : serverAPI) (hdr : http.Header)
    (we : Option GoError) (r : Request) :
    Shape t hdr we r
      (serverAPI.DeleteQuestionAndAnswers t (http.ResponseWriter.fresh hdr we) r) := by
  rcases ha : strconv.Atoi (r.PathValue "id") with err | n
  · rw [DeleteQuestionAndAnswers_invalidId t hdr we r err ha]
    exact .rejected _ _ _ (Or.inl rfl)
  · by_cases hn : n < 1
    · rw [DeleteQuestionAndAnswers_notPositive t hdr we r n ha hn]
      exact .rejected _ _ _ (Or.inl rfl)
    · rcases hs : t.service.deleteQuestionAndAnswers n with _ | err
      · rw [DeleteQuestionAndAnswers_ok t hdr we r n ha hn hs]
        exact .succeeded _ _
      · rw [DeleteQuestionAndAnswers_serviceFailed t hdr we r n err ha hn hs]
        exact .failed _ _

/-- Shape of the outcomes of `CreateAnswerToQuestion`. -/
theorem CreateAnswerToQuestion_shape (t : serverAPI) (hdr : http.Header) (we : Option GoError)
    (r : Request) :
    Shape t hdr we r
      (serverAPI.CreateAnswerToQuestion t (http.ResponseWriter.fresh hdr we) r) := by
  rcases hd : request.decodeCreateAnswerToQuestionRequest { UserId := "", Text := "" } r.Body
    with ⟨req, _ | err⟩
  · rcases ha : strconv.Atoi (r.PathValue "id") with err | n
    · rw [CreateAnswerToQuestion_invalidId t hdr we r req err hd ha]
      exact .rejected _ _ _ (Or.inl rfl)
    · by_cases hn : n < 1
      · rw [CreateAnswerToQuestion_notPositive t hdr we r req n hd ha hn]
        exact .rejected _ _ _ (Or.inl rfl)
      · by_cases he : req.Text = ""
        · rw [CreateAnswerToQuestion_emptyField t hdr we r req n hd ha hn he]
          exact .rejected _ _ _ (Or.inl rfl)
        · rcases hu : uuid.Parse req.UserId with err | u
          · rw [CreateAnswerToQuestion_invalidUUID t hdr we r req n err hd ha hn he hu]
            exact .rejected _ _ _ (Or.inl rfl)
          · rcases hs : t.service.createAnswerToQuestion
              { Id := 0, QuestionId := n, UserId := req.UserId, Text := req.Text }
              with ⟨answerId, _ | err⟩
            · rw [CreateAnswerToQuestion_ok t hdr we r req n u answerId hd ha hn he hu hs]
              exact .succeeded _ _
            · rw [CreateAnswerToQuestion_serviceFailed t hdr we r req n u _ err hd ha hn he hu hs]
              exact .failed _ _
  · rw [CreateAnswerToQuestion_decodeFailed t hdr we r req err hd]
    exact .rejected _ _ _ (Or.inr rfl)

/-- Shape of the outcomes of `GetAnswer`. -/
theorem GetAnswer_shape (t : serverAPI) (hdr : http.Header) (we : Option GoError) (r : Request) :
    Shape t hdr we r (serverAPI.GetAnswer t (http.ResponseWriter.fresh hdr we) r) := by
  rcases ha : strconv.Atoi (r.PathValue "id") with err | n
  · rw [GetAnswer_invalidId t hdr we r err ha]
    exact .rejected _ _ _ (Or.inl rfl)
  · by_cases hn : n < 1
    · rw [GetAnswer_notPositive t hdr we r n ha hn]
      exact .rejected _ _ _ (Or.inl rfl)
    · rcases hs : t.service.getAnswer n with ⟨answer, _ | err⟩
      · rw [GetAnswer_ok t hdr we r n answer ha hn hs]
        exact .succeeded _ _
      · rw [GetAnswer_serviceFailed t hdr we r n _ err ha hn hs]
        exact .failed _ _

/-- Shape of the outcomes of `DeleteAnswer`. -/
theorem DeleteAnswer_shape (t : serverAPI) (hdr : http.Header) (we : Option GoError)
    (r : Request) :
    Shape t hdr we r (serverAPI.DeleteAnswer t (http.ResponseWriter.fresh hdr we) r) := by
  rcases ha : strconv.Atoi (r.PathValue "id") with err | n
  · rw [DeleteAnswer_invalidId t hdr we r err ha]
    exact .rejected _ _ _ (Or.inl rfl)
  · by_cases hn : n < 1
    · rw [DeleteAnswer_notPositive t hdr we r n ha hn]
      exact .rejected _ _ _ (Or.inl rfl)
    · rcases hs : t.service.deleteAnswer n with _ | err
      · rw [DeleteAnswer_ok t hdr we r n ha hn hs]
        exact .succeeded _ _
      · rw [DeleteAnswer_serviceFailed t hdr we r n err ha hn hs]
        exact .failed _ _

/-- On a fresh writer, whatever the request and the service, the outcome of each of the ten
handlers has one of the four shapes. -/
theorem serve_shape (h : Handler) (t : serverAPI) (hdr : http.Header) (we : Option GoError)
    (r : Request) : Shape t hdr we r (h.serve t (http.ResponseWriter.fresh hdr we) r) := by
  cases h
  · exact CreateUser_shape t hdr we r
  · exact GetUsers_shape t hdr we r
  · exact DeleteUser_shape t hdr we r
  · exact GetQuestionAndAnswers_shape t hdr we r
  · exact DeleteQuestionAndAnswers_shape t hdr we r
  · exact CreateAnswerToQuestion_shape t hdr we r
  · exact GetQuestions_shape t hdr we r
  · exact CreateQuestion_shape t hdr we r
  · exact GetAnswer_shape t hdr we r
  · exact DeleteAnswer_shape t hdr we r

/-! ### The envelopes of the handlers, as text -/

/-- The envelope of a failed service call is the text the specification gives. -/
theorem internalServerError_text :
    response.encodeResponse
        (failure 500 response.ErrCodeInternalServerError "internal server error") ++ "\n"
      = specInternalServerErrorBody := by
  decide

/-- The envelope of an undecodable body is the text the specification gives. -/
theorem jsonParsingFailed_text :
    response.encodeResponse
        (failure 400 response.ErrCodeJsonParsingFailed "Invalid request body") ++ "\n"
      = specJsonParsingFailedBody := by
  decide

/-- The envelope for an empty `name` is the text the specification gives. -/
theorem validation_name_text :
    response.encodeResponse (failure 400 response.ErrCodeValidationFailed
        "field \"name\" must not be empty") ++ "\n"
      = specValidationFailedBody "field \\\"name\\\" must not be empty" := by
  decide

/-- The envelope for an empty `text` is the text the specification gives. -/
theorem validation_text_text :
    response.encodeResponse (failure 400 response.ErrCodeValidationFailed
        "field \"text\" must not be empty") ++ "\n"
      = specValidationFailedBody "field \\\"text\\\" must not be empty" := by
  decide

/-- The envelope for a path id that is no integer is the text the specification gives. -/
theorem validation_idFormat_text :
    response.encodeResponse (failure 400 response.ErrCodeValidationFailed
        "invalid ID format for \"id\"") ++ "\n"
      = specValidationFailedBody "invalid ID format for \\\"id\\\"" := by
  decide

/-- The envelope for a path id below 1 is the text the specification gives. -/
theorem validation_positive_text :
    response.encodeResponse (failure 400 response.ErrCodeValidationFailed
        "ID must be a positive integer") ++ "\n"
      = specValidationFailedBody "ID must be a positive integer" := by
  decide

/-- The envelope for a path id that is no UUID is the text the specification gives. -/
theorem validation_uuidId_text :
    response.encodeResponse (failure 400 response.ErrCodeValidationFailed
        "invalid UUID format for \"id\"") ++ "\n"
      = specValidationFailedBody "invalid UUID format for \\\"id\\\"" := by
  decide

/-- The envelope for a `user_id` that is no UUID is the text the specification gives. -/
theorem validation_uuidUserId_text :
    response.encodeResponse (failure 400 response.ErrCodeValidationFailed
        "invalid UUID format for \"user_id\"") ++ "\n"
      = specValidationFailedBody "invalid UUID format for \\\"user_id\\\"" := by
  decide

/-- The text of status 200. -/
theorem statusText_200 : http.StatusText 200 = "OK" := by
  decide

/-- The envelope of a success with data is `specOkBody` of the encoded data. -/
theorem success_text (d : response.Data) :
    response.encodeResponse (success (some d)) ++ "\n" = specOkBody (response.encodeData d) := by
  have h1 : "\x7b\"status\":" ++ json.encodeString "OK" ++ "" ++ ",\"data\":"
      = "\x7b\"status\":\"OK\",\"data\":" := by decide
  have h2 : "\x7d" ++ "\n" = "\x7d\n" := by decide
  unfold specOkBody
  rw [← h1, ← h2]
  simp only [response.encodeResponse, success, statusText_200, String.append_assoc]

/-! ### Decoding fields that are absent or `null` -/

/-- A JSON value that `json.isNull` accepts is `null`. -/
theorem isNull_eq {v : JSON} (h : json.isNull v = true) : v = .null := by
  cases v <;> simp [json.isNull] at h
  rfl

/-- Members whose key names a field only with the value `null` leave the struct and the
saved error as they are. -/
theorem decodeMembers_null {α : Type} (fields : List String) (set : α → String → String → α)
    (ms : List (String × JSON)) (v : α) (saved : Option GoError)
    (h : ∀ kv ∈ ms, json.findField fields kv.1 ≠ none → json.isNull kv.2 = true) :
    json.decodeMembers fields set ms v saved = (v, saved) := by
  induction ms with
  | nil => rfl
  | cons kv rest ih =>
    obtain ⟨key, val⟩ := kv
    have hrest : ∀ kv ∈ rest, json.findField fields kv.1 ≠ none → json.isNull kv.2 = true :=
      fun kv hkv => h kv (List.mem_cons_of_mem _ hkv)
    unfold json.decodeMembers
    cases hf : json.findField fields key with
    | none => simpa using ih hrest
    | some f =>
      have hv : val = .null :=
        isNull_eq (h (key, val) (List.mem_cons_self _ _) (by simp [hf]))
      subst hv
      simpa using ih hrest

/-- Decoding into a `CreateAnswerToQuestionRequest` leaves `Text` as it was when every
member stored in `text` is `null`. -/
theorem decodeMembers_text_null (ms : List (String × JSON))
    (v : request.CreateAnswerToQuestionRequest) (saved : Option GoError)
    (h : ∀ kv ∈ ms, json.findField ["user_id", "text"] kv.1 = some "text" →
      json.isNull kv.2 = true) :
    (json.decodeMembers ["user_id", "text"]
      (fun (v : request.CreateAnswerToQuestionRequest) f s =>
        if f == "user_id" then { v with UserId := s }
        else if f == "text" then { v with Text := s } else v) ms v saved).1.Text = v.Text := by
  induction ms generalizing v saved with
  | nil => rfl
  | cons kv rest ih =>
    obtain ⟨key, val⟩ := kv
    have hrest : ∀ kv ∈ rest, json.findField ["user_id", "text"] kv.1 = some "text" →
        json.isNull kv.2 = true :=
      fun kv hkv => h kv (List.mem_cons_of_mem _ hkv)
    unfold json.decodeMembers
    cases hf : json.findField ["user_id", "text"] key with
    | none => simpa using ih _ _ hrest
    | some f =>
      cases val with
      | string s =>
        simp only
        rw [ih _ _ hrest]
        by_cases h1 : f = "user_id"
        · subst h1
          rfl
        · by_cases h2 : f = "text"
          · subst h2
            have := h (key, .string s) (List.mem_cons_self _ _) hf
            simp [json.isNull] at this
          · simp [h1, h2]
      | null => simpa using ih _ _ hrest
      | bool b => simpa using ih _ _ hrest
      | number lit => simpa using ih _ _ hrest
      | array elems => simpa using ih _ _ hrest
      | object members => simpa using ih _ _ hrest

/-! ### Claims -/

/-- C1: in each of the ten handlers, once the request has passed decoding and validation, any
error the service returns is answered with status 500 and the one fixed body
`specInternalServerErrorBody`, which has no data field and does not depend on the error. -/
theorem C1_service_error_answers_generic_500 (t : serverAPI) (hdr : http.Header)
    (we : Option GoError) (r : Request) (err : GoError) :
    (∀ req userId, request.decodeCreateUserRequest { Name := "" } r.Body = (req, none) →
        req.Name ≠ "" → t.service.createUser req.Name = (userId, some err) →
        (serverAPI.CreateUser t (http.ResponseWriter.fresh hdr we) r).Answered 500
          specInternalServerErrorBody)
    ∧ (∀ users, t.service.getUsers = (users, some err) →
        (serverAPI.GetUsers t (http.ResponseWriter.fresh hdr we) r).Answered 500
          specInternalServerErrorBody)
    ∧ (∀ u, uuid.Parse (r.PathValue "id") = .ok u →
        t.service.deleteUser (r.PathValue "id") = some err →
        (serverAPI.DeleteUser t (http.ResponseWriter.fresh hdr we) r).Answered 500
          specInternalServerErrorBody)
    ∧ (∀ questions, t.service.getQuestions = (questions, some err) →
        (serverAPI.GetQuestions t (http.ResponseWriter.fresh hdr we) r).Answered 500
          specInternalServerErrorBody)
    ∧ (∀ req questionId,
        request.decodeCreateQuestionRequest { Text := "" } r.Body = (req, none) →
        req.Text ≠ "" → t.service.createQuestion req.Text = (questionId, some err) →
        (serverAPI.CreateQuestion t (http.ResponseWriter.fresh hdr we) r).Answered 500
          specInternalServerErrorBody)
    ∧ (∀ n question answers, strconv.Atoi (r.PathValue "id") = .ok n → 1 ≤ n →
        t.service.getQuestionAndAnswers n = (question, answers, some err) →
        (serverAPI.GetQuestionAndAnswers t (http.ResponseWriter.fresh hdr we) r).Answered 500
          specInternalServerErrorBody)
    ∧ (∀ n, strconv.Atoi (r.PathValue "id") = .ok n → 1 ≤ n →
        t.service.deleteQuestionAndAnswers n = some err →
        (serverAPI.DeleteQuestionAndAnswers t (http.ResponseWriter.fresh hdr we) r).Answered 500
          specInternalServerErrorBody)
    ∧ (∀ req n u answerId,
        request.decodeCreateAnswerToQuestionRequest { UserId := "", Text := "" } r.Body
          = (req, none) →
        strconv.Atoi (r.PathValue "id") = .ok n → 1 ≤ n → req.Text ≠ "" →
        uuid.Parse req.UserId = .ok u →
        t.service.createAnswerToQuestion
          { Id := 0, QuestionId := n, UserId := req.UserId, Text := req.Text }
          = (answerId, some err) →
        (serverAPI.CreateAnswerToQuestion t (http.ResponseWriter.fresh hdr we) r).Answered 500
          specInternalServerErrorBody)
    ∧ (∀ n answer, strconv.Atoi (r.PathValue "id") = .ok n → 1 ≤ n →
        t.service.getAnswer n = (answer, some err) →
        (serverAPI.GetAnswer t (http.ResponseWriter.fresh hdr we) r).Answered 500
          specInternalServerErrorBody)
    ∧ (∀ n, strconv.Atoi (r.PathValue "id") = .ok n → 1 ≤ n →
        t.service.deleteAnswer n = some err →
        (serverAPI.DeleteAnswer t (http.ResponseWriter.fresh hdr we) r).Answered 500
          specInternalServerErrorBody) := by
  refine ⟨?_, ?_, ?_, ?_, ?_, ?_, ?_, ?_, ?_, ?_⟩
  · intro req userId hd hne hs
    rw [CreateUser_serviceFailed t hdr we r req userId err hd hne hs, ← internalServerError_text]
    exact finished_Answered _ _ _ _ _ _ _
  · intro users hs
    rw [GetUsers_serviceFailed t hdr we r users err hs, ← internalServerError_text]
    exact finished_Answered _ _ _ _ _ _ _
  · intro u hu hs
    rw [DeleteUser_serviceFailed t hdr we r u err hu hs, ← internalServerError_text]
    exact finished_Answered _ _ _ _ _ _ _
  · intro questions hs
    rw [GetQuestions_serviceFailed t hdr we r questions err hs, ← internalServerError_text]
    exact finished_Answered _ _ _ _ _ _ _
  · intro req questionId hd hne hs
    rw [CreateQuestion_serviceFailed t hdr we r req questionId err hd hne hs,
      ← internalServerError_text]
    exact finished_Answered _ _ _ _ _ _ _
  · intro n question answers ha hn hs
    rw [GetQuestionAndAnswers_serviceFailed t hdr we r n question answers err ha (by omega) hs,
      ← internalServerError_text]
    exact finished_Answered _ _ _ _ _ _ _
  · intro n ha hn hs
    rw [DeleteQuestionAndAnswers_serviceFailed t hdr we r n err ha (by omega) hs,
      ← internalServerError_text]
    exact finished_Answered _ _ _ _ _ _ _
  · intro req n u answerId hd ha hn hne hu hs
    rw [CreateAnswerToQuestion_serviceFailed t hdr we r req n u answerId err hd ha (by omega)
      hne hu hs, ← internalServerError_text]
    exact finished_Answered _ _ _ _ _ _ _
  · intro n answer ha hn hs
    rw [GetAnswer_serviceFailed t hdr we r n answer err ha (by omega) hs,
      ← internalServerError_text]
    exact finished_Answered _ _ _ _ _ _ _
  · intro n ha hn hs
    rw [DeleteAnswer_serviceFailed t hdr we r n err ha (by omega) hs,
      ← internalServerError_text]
    exact finished_Answered _ _ _ _ _ _ _

/-- Witness of C1: with a service that fails every call with `some error`, each handler
answers a valid request with the generic 500 body. -/
theorem C1_service_error_answers_generic_500_witness :
    (serverAPI.CreateUser ⟨failingService (.new "some error")⟩ (http.ResponseWriter.fresh [] none)
        (sampleRequest "" (fieldBody "name" "ann"))).Answered 500 specInternalServerErrorBody
    ∧ (serverAPI.GetUsers ⟨failingService (.new "some error")⟩ (http.ResponseWriter.fresh [] none)
        (sampleRequest "" none)).Answered 500 specInternalServerErrorBody
    ∧ (serverAPI.DeleteUser ⟨failingService (.new "some error")⟩
        (http.ResponseWriter.fresh [] none)
        (sampleRequest sampleUUID none)).Answered 500 specInternalServerErrorBody
    ∧ (serverAPI.GetQuestions ⟨failingService (.new "some error")⟩
        (http.ResponseWriter.fresh [] none)
        (sampleRequest "" none)).Answered 500 specInternalServerErrorBody
    ∧ (serverAPI.CreateQuestion ⟨failingService (.new "some error")⟩
        (http.ResponseWriter.fresh [] none)
        (sampleRequest "" (fieldBody "text" "what?"))).Answered 500 specInternalServerErrorBody
    ∧ (serverAPI.GetQuestionAndAnswers ⟨failingService (.new "some error")⟩
        (http.ResponseWriter.fresh [] none)
        (sampleRequest "1" none)).Answered 500 specInternalServerErrorBody
    ∧ (serverAPI.DeleteQuestionAndAnswers ⟨failingService (.new "some error")⟩
        (http.ResponseWriter.fresh [] none)
        (sampleRequest "1" none)).Answered 500 specInternalServerErrorBody
    ∧ (serverAPI.CreateAnswerToQuestion ⟨failingService (.new "some error")⟩
        (http.ResponseWriter.fresh [] none)
        (sampleRequest "1" (answerBody sampleUUID "text"))).Answered 500
          specInternalServerErrorBody
    ∧ (serverAPI.GetAnswer ⟨failingService (.new "some error")⟩
        (http.ResponseWriter.fresh [] none)
        (sampleRequest "1" none)).Answered 500 specInternalServerErrorBody
    ∧ (serverAPI.DeleteAnswer ⟨failingService (.new "some error")⟩
        (http.ResponseWriter.fresh [] none)
        (sampleRequest "1" none)).Answered 500 specInternalServerErrorBody :=
  ⟨(C1_service_error_answers_generic_500 ⟨failingService (.new "some error")⟩ [] none
      (sampleRequest "" (fieldBody "name" "ann")) (.new "some error")).1
      { Name := "ann" } none rfl (by decide) rfl,
   (C1_service_error_answers_generic_500 ⟨failingService (.new "some error")⟩ [] none
      (sampleRequest "" none) (.new "some error")).2.1 none rfl,
   (C1_service_error_answers_generic_500 ⟨failingService (.new "some error")⟩ [] none
      (sampleRequest sampleUUID none) (.new "some error")).2.2.1 _ rfl rfl,
   (C1_service_error_answers_generic_500 ⟨failingService (.new "some error")⟩ [] none
      (sampleRequest "" none) (.new "some error")).2.2.2.1 none rfl,
   (C1_service_error_answers_generic_500 ⟨failingService (.new "some error")⟩ [] none
      (sampleRequest "" (fieldBody "text" "what?")) (.new "some error")).2.2.2.2.1
      { Text := "what?" } 0 rfl (by decide) rfl,
   (C1_service_error_answers_generic_500 ⟨failingService (.new "some error")⟩ [] none
      (sampleRequest "1" none) (.new "some error")).2.2.2.2.2.1 1 none none rfl (by decide) rfl,
   (C1_service_error_answers_generic_500 ⟨failingService (.new "some error")⟩ [] none
      (sampleRequest "1" none) (.new "some error")).2.2.2.2.2.2.1 1 rfl (by decide) rfl,
   (C1_service_error_answers_generic_500 ⟨failingService (.new "some error")⟩ [] none
      (sampleRequest "1" (answerBody sampleUUID "text")) (.new "some error")).2.2.2.2.2.2.2.1
      { UserId := sampleUUID, Text := "text" } 1 _ 0 rfl rfl (by decide) (by decide) rfl rfl,
   (C1_service_error_answers_generic_500 ⟨failingService (.new "some error")⟩ [] none
      (sampleRequest "1" none) (.new "some error")).2.2.2.2.2.2.2.2.1 1 none rfl (by decide) rfl,
   (C1_service_error_answers_generic_500 ⟨failingService (.new "some error")⟩ [] none
      (sampleRequest "1" none) (.new "some error")).2.2.2.2.2.2.2.2.2 1 rfl (by decide) rfl⟩

/-- C2: in CreateUser, CreateQuestion and CreateAnswerToQuestion a body that fails to decode
is answered with status 400 and the JSON_PARSING_FAILED envelope with desc
`Invalid request body`, for every path id and whatever the fields decoded so far hold. -/
theorem C2_undecodable_body_answers_json_parsing_failed (t : serverAPI) (hdr : http.Header)
    (we : Option GoError) (r : Request) (err : GoError) :
    (∀ req, request.decodeCreateUserRequest { Name := "" } r.Body = (req, some err) →
        (serverAPI.CreateUser t (http.ResponseWriter.fresh hdr we) r).Answered 400
          specJsonParsingFailedBody)
    ∧ (∀ req, request.decodeCreateQuestionRequest { Text := "" } r.Body = (req, some err) →
        (serverAPI.CreateQuestion t (http.ResponseWriter.fresh hdr we) r).Answered 400
          specJsonParsingFailedBody)
    ∧ (∀ req,
        request.decodeCreateAnswerToQuestionRequest { UserId := "", Text := "" } r.Body
          = (req, some err) →
        (serverAPI.CreateAnswerToQuestion t (http.ResponseWriter.fresh hdr we) r).Answered 400
          specJsonParsingFailedBody) := by
  refine ⟨?_, ?_, ?_⟩
  · intro req hd
    rw [CreateUser_decodeFailed t hdr we r req err hd, ← jsonParsingFailed_text]
    exact finished_Answered _ _ _ _ _ _ _
  · intro req hd
    rw [CreateQuestion_decodeFailed t hdr we r req err hd, ← jsonParsingFailed_text]
    exact finished_Answered _ _ _ _ _ _ _
  · intro req hd
    rw [CreateAnswerToQuestion_decodeFailed t hdr we r req err hd, ← jsonParsingFailed_text]
    exact finished_Answered _ _ _ _ _ _ _

/-- Witness of C2: a stream without a JSON value for CreateUser, a number where `text` wants
a string for CreateQuestion, and a truncated body together with the path id `slovo` for
CreateAnswerToQuestion. -/
theorem C2_undecodable_body_answers_json_parsing_failed_witness :
    (serverAPI.CreateUser ⟨sampleService⟩ (http.ResponseWriter.fresh [] none)
        (sampleRequest "" none)).Answered 400 specJsonParsingFailedBody
    ∧ (serverAPI.CreateQuestion ⟨sampleService⟩ (http.ResponseWriter.fresh [] none)
        (sampleRequest "" (some (.object [("text", .number "5")])))).Answered 400
          specJsonParsingFailedBody
    ∧ (serverAPI.CreateAnswerToQuestion ⟨sampleService⟩ (http.ResponseWriter.fresh [] none)
        (sampleRequest "slovo" none)).Answered 400 specJsonParsingFailedBody :=
  ⟨(C2_undecodable_body_answers_json_parsing_failed ⟨sampleService⟩ [] none
      (sampleRequest "" none) (.foreign "encoding/json" "no JSON value to decode")).1
      { Name := "" } rfl,
   (C2_undecodable_body_answers_json_parsing_failed ⟨sampleService⟩ [] none
      (sampleRequest "" (some (.object [("text", .number "5")])))
      (.unmarshalTypeError "number" "text")).2.1 { Text := "" } rfl,
   (C2_undecodable_body_answers_json_parsing_failed ⟨sampleService⟩ [] none
      (sampleRequest "slovo" none) (.foreign "encoding/json" "no JSON value to decode")).2.2
      { UserId := "", Text := "" } rfl⟩

/-- C3: a body that decodes with an empty `name` (CreateUser) or an empty `text`
(CreateQuestion, CreateAnswerToQuestion) is answered with status 400 and a VALIDATION_FAILED
envelope, whatever the other fields and the path id are. A field is empty in particular
when the body is `null`, or an object in which every member stored in that field is `null`
(so also when no member names it). -/
theorem C3_empty_field_answers_validation_failed (t : serverAPI) (hdr : http.Header)
    (we : Option GoError) (r : Request) :
    (∀ req, request.decodeCreateUserRequest { Name := "" } r.Body = (req, none) →
        req.Name = "" →
        (serverAPI.CreateUser t (http.ResponseWriter.fresh hdr we) r).Answered 400
          (specValidationFailedBody "field \\\"name\\\" must not be empty"))
    ∧ (∀ req, request.decodeCreateQuestionRequest { Text := "" } r.Body = (req, none) →
        req.Text = "" →
        (serverAPI.CreateQuestion t (http.ResponseWriter.fresh hdr we) r).Answered 400
          (specValidationFailedBody "field \\\"text\\\" must not be empty"))
    ∧ (∀ req,
        request.decodeCreateAnswerToQuestionRequest { UserId := "", Text := "" } r.Body
          = (req, none) →
        req.Text = "" →
        ∃ desc, (serverAPI.CreateAnswerToQuestion t (http.ResponseWriter.fresh hdr we)
          r).Answered 400 (specValidationFailedBody desc))
    ∧ (r.Body = some .null ∨
        (∃ ms, r.Body = some (.object ms) ∧
          ∀ kv ∈ ms, json.findField ["name"] kv.1 ≠ none → json.isNull kv.2 = true) →
        request.decodeCreateUserRequest { Name := "" } r.Body = ({ Name := "" }, none))
    ∧ (r.Body = some .null ∨
        (∃ ms, r.Body = some (.object ms) ∧
          ∀ kv ∈ ms, json.findField ["text"] kv.1 ≠ none → json.isNull kv.2 = true) →
        request.decodeCreateQuestionRequest { Text := "" } r.Body = ({ Text := "" }, none))
    ∧ (∀ req,
        request.decodeCreateAnswerToQuestionRequest { UserId := "", Text := "" } r.Body
          = (req, none) →
        r.Body = some .null ∨
          (∃ ms, r.Body = some (.object ms) ∧
            ∀ kv ∈ ms, json.findField ["user_id", "text"] kv.1 = some "text" →
              json.isNull kv.2 = true) →
        req.Text = "") := by
  refine ⟨?_, ?_, ?_, ?_, ?_, ?_⟩
  · intro req hd he
    rw [CreateUser_emptyField t hdr we r req hd he, ← validation_name_text]
    exact finished_Answered _ _ _ _ _ _ _
  · intro req hd he
    rw [CreateQuestion_emptyField t hdr we r req hd he, ← validation_text_text]
    exact finished_Answered _ _ _ _ _ _ _
  · intro req hd he
    rcases ha : strconv.Atoi (r.PathValue "id") with err | n
    · refine ⟨"invalid ID format for \\\"id\\\"", ?_⟩
      rw [CreateAnswerToQuestion_invalidId t hdr we r req err hd ha, ← validation_idFormat_text]
      exact finished_Answered _ _ _ _ _ _ _
    · by_cases hn : n < 1
      · refine ⟨"ID must be a positive integer", ?_⟩
        rw [CreateAnswerToQuestion_notPositive t hdr we r req n hd ha hn,
          ← validation_positive_text]
        exact finished_Answered _ _ _ _ _ _ _
      · refine ⟨"field \\\"text\\\" must not be empty", ?_⟩
        rw [CreateAnswerToQuestion_emptyField t hdr we r req n hd ha hn he,
          ← validation_text_text]
        exact finished_Answered _ _ _ _ _ _ _
  · rintro (hb | ⟨ms, hb, hms⟩)
    · rw [hb]
      rfl
    · rw [hb]
      exact decodeMembers_null _ _ ms _ none hms
  · rintro (hb | ⟨ms, hb, hms⟩)
    · rw [hb]
      rfl
    · rw [hb]
      exact decodeMembers_null _ _ ms _ none hms
  · rintro req hd (hb | ⟨ms, hb, hms⟩)
    · rw [hb] at hd
      have h : ({ UserId := "", Text := "" } : request.CreateAnswerToQuestionRequest) = req :=
        congrArg Prod.fst hd
      rw [← h]
    · rw [hb] at hd
      have h := decodeMembers_text_null ms { UserId := "", Text := "" } none hms
      have h2 : (request.decodeCreateAnswerToQuestionRequest { UserId := "", Text := "" }
          (some (.object ms))).1 = req := congrArg Prod.fst hd
      rw [← h2]
      exact h

/-- Witness of C3: `name` empty in CreateUser; `text` missing in CreateQuestion; `text` null
in CreateAnswerToQuestion, with a path id that is no integer; and the three decodings. -/
theorem C3_empty_field_answers_validation_failed_witness :
    (serverAPI.CreateUser ⟨sampleService⟩ (http.ResponseWriter.fresh [] none)
        (sampleRequest "" (fieldBody "name" ""))).Answered 400
          (specValidationFailedBody "field \\\"name\\\" must not be empty")
    ∧ (serverAPI.CreateQuestion ⟨sampleService⟩ (http.ResponseWriter.fresh [] none)
        (sampleRequest "" (some (.object [])))).Answered 400
          (specValidationFailedBody "field \\\"text\\\" must not be empty")
    ∧ (∃ desc, (serverAPI.CreateAnswerToQuestion ⟨sampleService⟩
        (http.ResponseWriter.fresh [] none)
        (sampleRequest "slovo"
          (some (.object [("user_id", .string "x"), ("text", .null)])))).Answered 400
          (specValidationFailedBody desc))
    ∧ request.decodeCreateUserRequest { Name := "" } (some (.object [("name", .null)]))
        = ({ Name := "" }, none)
    ∧ request.decodeCreateQuestionRequest { Text := "" } (some .null) = ({ Text := "" }, none)
    ∧ ({ UserId := "x", Text := "" } : request.CreateAnswerToQuestionRequest).Text = "" :=
  ⟨(C3_empty_field_answers_validation_failed ⟨sampleService⟩ [] none
      (sampleRequest "" (fieldBody "name" ""))).1 { Name := "" } rfl rfl,
   (C3_empty_field_answers_validation_failed ⟨sampleService⟩ [] none
      (sampleRequest "" (some (.object [])))).2.1 { Text := "" } rfl rfl,
   (C3_empty_field_answers_validation_failed ⟨sampleService⟩ [] none
      (sampleRequest "slovo" (some (.object [("user_id", .string "x"), ("text", .null)])))).2.2.1
      { UserId := "x", Text := "" } rfl rfl,
   (C3_empty_field_answers_validation_failed ⟨sampleService⟩ [] none
      (sampleRequest "" (some (.object [("name", .null)])))).2.2.2.1
      (Or.inr ⟨[("name", .null)], rfl, by simp [json.isNull]⟩),
   (C3_empty_field_answers_validation_failed ⟨sampleService⟩ [] none
      (sampleRequest "" (some .null))).2.2.2.2.1 (Or.inl rfl),
   (C3_empty_field_answers_validation_failed ⟨sampleService⟩ [] none
      (sampleRequest "1" (some (.object [("user_id", .string "x"), ("text", .null)])))).2.2.2.2.2
      { UserId := "x", Text := "" } rfl
      (Or.inr ⟨[("user_id", .string "x"), ("text", .null)], rfl, by
        intro kv hkv hf
        simp only [List.mem_cons, List.mem_singleton, List.not_mem_nil, or_false] at hkv
        rcases hkv with rfl | rfl
        · exact absurd hf (by decide)
        · rfl⟩)⟩

/-- C4, as amended: an empty `name` in CreateUser is answered with status 400 and exactly the
body of the specification, whose desc is `field "name" must not be empty`; an empty `text`
in CreateQuestion with the VALIDATION_FAILED envelope whose desc is
`field "text" must not be empty`; and so is an empty `text` in CreateAnswerToQuestion when
the path id parses to an integer that is at least 1. -/
theorem C4_empty_field_desc_names_the_field (t : serverAPI) (hdr : http.Header)
    (we : Option GoError) (r : Request) :
    (∀ req, request.decodeCreateUserRequest { Name := "" } r.Body = (req, none) →
        req.Name = "" →
        (serverAPI.CreateUser t (http.ResponseWriter.fresh hdr we) r).Answered 400
          "\x7b\"status\":\"Bad Request\",\"error\":\x7b\"code\":\"VALIDATION_FAILED\",\"desc\":\"field \\\"name\\\" must not be empty\"\x7d\x7d\n")
    ∧ (∀ req, request.decodeCreateQuestionRequest { Text := "" } r.Body = (req, none) →
        req.Text = "" →
        (serverAPI.CreateQuestion t (http.ResponseWriter.fresh hdr we) r).Answered 400
          (specValidationFailedBody "field \\\"text\\\" must not be empty"))
    ∧ (∀ req n,
        request.decodeCreateAnswerToQuestionRequest { UserId := "", Text := "" } r.Body
          = (req, none) →
        req.Text = "" → strconv.Atoi (r.PathValue "id") = .ok n → 1 ≤ n →
        (serverAPI.CreateAnswerToQuestion t (http.ResponseWriter.fresh hdr we) r).Answered 400
          (specValidationFailedBody "field \\\"text\\\" must not be empty")) := by
  refine ⟨?_, ?_, ?_⟩
  · intro req hd he
    have htext : specValidationFailedBody "field \\\"name\\\" must not be empty"
        = "\x7b\"status\":\"Bad Request\",\"error\":\x7b\"code\":\"VALIDATION_FAILED\",\"desc\":\"field \\\"name\\\" must not be empty\"\x7d\x7d\n" := by
      decide
    rw [CreateUser_emptyField t hdr we r req hd he, ← htext, ← validation_name_text]
    exact finished_Answered _ _ _ _ _ _ _
  · intro req hd he
    rw [CreateQuestion_emptyField t hdr we r req hd he, ← validation_text_text]
    exact finished_Answered _ _ _ _ _ _ _
  · intro req n hd he ha hn
    rw [CreateAnswerToQuestion_emptyField t hdr we r req n hd ha (by omega) he,
      ← validation_text_text]
    exact finished_Answered _ _ _ _ _ _ _

/-- Witness of C4: the three handlers on a body with an empty field, CreateAnswerToQuestion
with the path id 1. -/
theorem C4_empty_field_desc_names_the_field_witness :
    (serverAPI.CreateUser ⟨sampleService⟩ (http.ResponseWriter.fresh [] none)
        (sampleRequest "" (fieldBody "name" ""))).Answered 400
          "\x7b\"status\":\"Bad Request\",\"error\":\x7b\"code\":\"VALIDATION_FAILED\",\"desc\":\"field \\\"name\\\" must not be empty\"\x7d\x7d\n"
    ∧ (serverAPI.CreateQuestion ⟨sampleService⟩ (http.ResponseWriter.fresh [] none)
        (sampleRequest "" (fieldBody "text" ""))).Answered 400
          (specValidationFailedBody "field \\\"text\\\" must not be empty")
    ∧ (serverAPI.CreateAnswerToQuestion ⟨sampleService⟩ (http.ResponseWriter.fresh [] none)
        (sampleRequest "1" (answerBody sampleUUID ""))).Answered 400
          (specValidationFailedBody "field \\\"text\\\" must not be empty") :=
  ⟨(C4_empty_field_desc_names_the_field ⟨sampleService⟩ [] none
      (sampleRequest "" (fieldBody "name" ""))).1 { Name := "" } rfl rfl,
   (C4_empty_field_desc_names_the_field ⟨sampleService⟩ [] none
      (sampleRequest "" (fieldBody "text" ""))).2.1 { Text := "" } rfl rfl,
   (C4_empty_field_desc_names_the_field ⟨sampleService⟩ [] none
      (sampleRequest "1" (answerBody sampleUUID ""))).2.2
      { UserId := sampleUUID, Text := "" } 1 rfl rfl rfl (by decide)⟩

/-- Counterexample to C4 as stated: the request to CreateAnswerToQuestion with path id
`slovo` and body `{"user_id": <uuid>, "text": ""}` decodes with an empty `text`, yet the body
of the 400 response carries the desc of the id check, not the one naming `text`. -/
theorem C4_counterexample_invalid_id_hides_empty_text :
    request.decodeCreateAnswerToQuestionRequest { UserId := "", Text := "" }
        (sampleRequest "slovo" (answerBody sampleUUID "")).Body
      = ({ UserId := sampleUUID, Text := "" }, none)
    ∧ (serverAPI.CreateAnswerToQuestion ⟨sampleService⟩ (http.ResponseWriter.fresh [] none)
        (sampleRequest "slovo" (answerBody sampleUUID ""))).Answered 400
          (specValidationFailedBody "invalid ID format for \\\"id\\\"")
    ∧ ¬ (serverAPI.CreateAnswerToQuestion ⟨sampleService⟩ (http.ResponseWriter.fresh [] none)
        (sampleRequest "slovo" (answerBody sampleUUID ""))).Answered 400
          (specValidationFailedBody "field \\\"text\\\" must not be empty") := by
  decide

/-- C5, as amended: `strconv.Atoi` accepts the path id exactly when it is an optional sign
followed by decimal digits whose value fits the 64-bit `int`, and then yields that value.
GetQuestionAndAnswers, DeleteQuestionAndAnswers, GetAnswer and
DeleteAnswer answer 400 with the VALIDATION_FAILED envelope `invalid ID format for "id"` when
`strconv.Atoi` rejects the path id and with `ID must be a positive integer` when it yields a
value below 1, both without calling the service; when it yields `n` that is at least 1 the
status is not 400 and the service is called once, with `n`. CreateAnswerToQuestion, once its
body has decoded, answers the same two rejections under the same two conditions; when the id
parses to `n` that is at least 1, a status 400 comes from the `text` or `user_id` check only:
an empty `text` is answered with `field "text" must not be empty` and, the text not being
empty, a `user_id` that is no UUID with `invalid UUID format for "user_id"`, both without
calling the service; and when the text is not empty and the `user_id` is a UUID the status is
not 400 and the service is called once, with the answer whose `QuestionId` is `n`. -/
theorem C5_path_id_validation (t : serverAPI) (hdr : http.Header) (we : Option GoError)
    (r : Request) :
    (∀ n, strconv.Atoi (r.PathValue "id") = .ok n ↔
        strconv.decimalInteger (r.PathValue "id") = some n ∧ -(2 ^ 63) ≤ n ∧ n < 2 ^ 63)
    ∧ (∀ h : Handler, h = .GetQuestionAndAnswers ∨ h = .DeleteQuestionAndAnswers
        ∨ h = .GetAnswer ∨ h = .DeleteAnswer →
      (∀ err, strconv.Atoi (r.PathValue "id") = .error err →
        (h.serve t (http.ResponseWriter.fresh hdr we) r).Answered 400
            (specValidationFailedBody "invalid ID format for \\\"id\\\"")
          ∧ (h.serve t (http.ResponseWriter.fresh hdr we) r).service.calls = t.service.calls)
      ∧ (∀ n, strconv.Atoi (r.PathValue "id") = .ok n → n < 1 →
        (h.serve t (http.ResponseWriter.fresh hdr we) r).Answered 400
            (specValidationFailedBody "ID must be a positive integer")
          ∧ (h.serve t (http.ResponseWriter.fresh hdr we) r).service.calls = t.service.calls)
      ∧ (∀ n, strconv.Atoi (r.PathValue "id") = .ok n → 1 ≤ n →
        (h.serve t (http.ResponseWriter.fresh hdr we) r).w.status ≠ 400
          ∧ (h.serve t (http.ResponseWriter.fresh hdr we) r).service.calls
            = t.service.calls ++ [match h with
                | .GetQuestionAndAnswers => Call.GetQuestionAndAnswers n
                | .DeleteQuestionAndAnswers => Call.DeleteQuestionAndAnswers n
                | .GetAnswer => Call.GetAnswer n
                | _ => Call.DeleteAnswer n]))
    ∧ (∀ req,
        request.decodeCreateAnswerToQuestionRequest { UserId := "", Text := "" } r.Body
          = (req, none) →
      (∀ err, strconv.Atoi (r.PathValue "id") = .error err →
        (serverAPI.CreateAnswerToQuestion t (http.ResponseWriter.fresh hdr we) r).Answered 400
            (specValidationFailedBody "invalid ID format for \\\"id\\\"")
          ∧ (serverAPI.CreateAnswerToQuestion t (http.ResponseWriter.fresh hdr we) r).service.calls
            = t.service.calls)
      ∧ (∀ n, strconv.Atoi (r.PathValue "id") = .ok n → n < 1 →
        (serverAPI.CreateAnswerToQuestion t (http.ResponseWriter.fresh hdr we) r).Answered 400
            (specValidationFailedBody "ID must be a positive integer")
          ∧ (serverAPI.CreateAnswerToQuestion t (http.ResponseWriter.fresh hdr we) r).service.calls
            = t.service.calls)
      ∧ (∀ n, strconv.Atoi (r.PathValue "id") = .ok n → 1 ≤ n →
        ((serverAPI.CreateAnswerToQuestion t (http.ResponseWriter.fresh hdr we) r).w.status = 400
            → req.Text = "" ∨ ∃ err, uuid.Parse req.UserId = .error err)
          ∧ (req.Text = "" →
            (serverAPI.CreateAnswerToQuestion t (http.ResponseWriter.fresh hdr we) r).Answered
                400 (specValidationFailedBody "field \\\"text\\\" must not be empty")
              ∧ (serverAPI.CreateAnswerToQuestion t (http.ResponseWriter.fresh hdr we)
                  r).service.calls = t.service.calls)
          ∧ (req.Text ≠ "" → ∀ err, uuid.Parse req.UserId = .error err →
            (serverAPI.CreateAnswerToQuestion t (http.ResponseWriter.fresh hdr we) r).Answered
                400 (specValidationFailedBody "invalid UUID format for \\\"user_id\\\"")
              ∧ (serverAPI.CreateAnswerToQuestion t (http.ResponseWriter.fresh hdr we)
                  r).service.calls = t.service.calls)
          ∧ (req.Text ≠ "" → ∀ u, uuid.Parse req.UserId = .ok u →
            (serverAPI.CreateAnswerToQuestion t (http.ResponseWriter.fresh hdr we) r).w.status
                ≠ 400
              ∧ (serverAPI.CreateAnswerToQuestion t (http.ResponseWriter.fresh hdr we)
                  r).service.calls = t.service.calls ++ [Call.CreateAnswerToQuestion
                    { Id := 0, QuestionId := n, UserId := req.UserId, Text := req.Text }]))) := by
  refine ⟨fun n => strconv.Atoi_ok_iff _ n, ?_, ?_⟩
  · intro h hh
    refine ⟨?_, ?_, ?_⟩
    · intro err ha
      rcases hh with rfl | rfl | rfl | rfl
      · simp only [Handler.serve]
        rw [GetQuestionAndAnswers_invalidId t hdr we r err ha, ← validation_idFormat_text]
        exact ⟨finished_Answered _ _ _ _ _ _ _, rfl⟩
      · simp only [Handler.serve]
        rw [DeleteQuestionAndAnswers_invalidId t hdr we r err ha, ← validation_idFormat_text]
        exact ⟨finished_Answered _ _ _ _ _ _ _, rfl⟩
      · simp only [Handler.serve]
        rw [GetAnswer_invalidId t hdr we r err ha, ← validation_idFormat_text]
        exact ⟨finished_Answered _ _ _ _ _ _ _, rfl⟩
      · simp only [Handler.serve]
        rw [DeleteAnswer_invalidId t hdr we r err ha, ← validation_idFormat_text]
        exact ⟨finished_Answered _ _ _ _ _ _ _, rfl⟩
    · intro n ha hn
      rcases hh with rfl | rfl | rfl | rfl
      · simp only [Handler.serve]
        rw [GetQuestionAndAnswers_notPositive t hdr we r n ha hn, ← validation_positive_text]
        exact ⟨finished_Answered _ _ _ _ _ _ _, rfl⟩
      · simp only [Handler.serve]
        rw [DeleteQuestionAndAnswers_notPositive t hdr we r n ha hn, ← validation_positive_text]
        exact ⟨finished_Answered _ _ _ _ _ _ _, rfl⟩
      · simp only [Handler.serve]
        rw [GetAnswer_notPositive t hdr we r n ha hn, ← validation_positive_text]
        exact ⟨finished_Answered _ _ _ _ _ _ _, rfl⟩
      · simp only [Handler.serve]
        rw [DeleteAnswer_notPositive t hdr we r n ha hn, ← validation_positive_text]
        exact ⟨finished_Answered _ _ _ _ _ _ _, rfl⟩
    · intro n ha hn
      have hn1 : ¬ n < 1 := by omega
      rcases hh with rfl | rfl | rfl | rfl
      · simp only [Handler.serve]
        rcases hs : t.service.getQuestionAndAnswers n with ⟨_ | question, _ | answers, _ | err⟩
        · rw [GetQuestionAndAnswers_nilQuestion t hdr we r n _ ha hn1 hs]
          exact ⟨(by decide : (0 : Int) ≠ 400), rfl⟩
        · rw [GetQuestionAndAnswers_serviceFailed t hdr we r n _ _ err ha hn1 hs]
          exact ⟨(by decide : (500 : Int) ≠ 400), rfl⟩
        · rw [GetQuestionAndAnswers_nilQuestion t hdr we r n _ ha hn1 hs]
          exact ⟨(by decide : (0 : Int) ≠ 400), rfl⟩
        · rw [GetQuestionAndAnswers_serviceFailed t hdr we r n _ _ err ha hn1 hs]
          exact ⟨(by decide : (500 : Int) ≠ 400), rfl⟩
        · rw [GetQuestionAndAnswers_nilAnswers t hdr we r n question ha hn1 hs]
          exact ⟨(by decide : (0 : Int) ≠ 400), rfl⟩
        · rw [GetQuestionAndAnswers_serviceFailed t hdr we r n _ _ err ha hn1 hs]
          exact ⟨(by decide : (500 : Int) ≠ 400), rfl⟩
        · rw [GetQuestionAndAnswers_ok t hdr we r n question answers ha hn1 hs]
          exact ⟨(by decide : (200 : Int) ≠ 400), rfl⟩
        · rw [GetQuestionAndAnswers_serviceFailed t hdr we r n _ _ err ha hn1 hs]
          exact ⟨(by decide : (500 : Int) ≠ 400), rfl⟩
      · simp only [Handler.serve]
        rcases hs : t.service.deleteQuestionAndAnswers n with _ | err
        · rw [DeleteQuestionAndAnswers_ok t hdr we r n ha hn1 hs]
          exact ⟨(by decide : (200 : Int) ≠ 400), rfl⟩
        · rw [DeleteQuestionAndAnswers_serviceFailed t hdr we r n err ha hn1 hs]
          exact ⟨(by decide : (500 : Int) ≠ 400), rfl⟩
      · simp only [Handler.serve]
        rcases hs : t.service.getAnswer n with ⟨answer, _ | err⟩
        · rw [GetAnswer_ok t hdr we r n answer ha hn1 hs]
          exact ⟨(by decide : (200 : Int) ≠ 400), rfl⟩
        · rw [GetAnswer_serviceFailed t hdr we r n _ err ha hn1 hs]
          exact ⟨(by decide : (500 : Int) ≠ 400), rfl⟩
      · simp only [Handler.serve]
        rcases hs : t.service.deleteAnswer n with _ | err
        · rw [DeleteAnswer_ok t hdr we r n ha hn1 hs]
          exact ⟨(by decide : (200 : Int) ≠ 400), rfl⟩
        · rw [DeleteAnswer_serviceFailed t hdr we r n err ha hn1 hs]
          exact ⟨(by decide : (500 : Int) ≠ 400), rfl⟩
  · intro req hd
    refine ⟨?_, ?_, ?_⟩
    · intro err ha
      rw [CreateAnswerToQuestion_invalidId t hdr we r req err hd ha, ← validation_idFormat_text]
      exact ⟨finished_Answered _ _ _ _ _ _ _, rfl⟩
    · intro n ha hn
      rw [CreateAnswerToQuestion_notPositive t hdr we r req n hd ha hn,
        ← validation_positive_text]
      exact ⟨finished_Answered _ _ _ _ _ _ _, rfl⟩
    · intro n ha hn
      have hn1 : ¬ n < 1 := by omega
      have reached : ∀ u, req.Text ≠ "" → uuid.Parse req.UserId = .ok u →
          (serverAPI.CreateAnswerToQuestion t (http.ResponseWriter.fresh hdr we) r).w.status
              ≠ 400
            ∧ (serverAPI.CreateAnswerToQuestion t (http.ResponseWriter.fresh hdr we)
                r).service.calls = t.service.calls ++ [Call.CreateAnswerToQuestion
                  { Id := 0, QuestionId := n, UserId := req.UserId, Text := req.Text }] := by
        intro u he hu
        rcases hs : t.service.createAnswerToQuestion
          { Id := 0, QuestionId := n, UserId := req.UserId, Text := req.Text }
          with ⟨answerId, _ | err⟩
        · rw [CreateAnswerToQuestion_ok t hdr we r req n u answerId hd ha hn1 he hu hs]
          exact ⟨(by decide : (200 : Int) ≠ 400), rfl⟩
        · rw [CreateAnswerToQuestion_serviceFailed t hdr we r req n u _ err hd ha hn1 he hu hs]
          exact ⟨(by decide : (500 : Int) ≠ 400), rfl⟩
      refine ⟨?_, ?_, ?_, ?_⟩
      · intro h400
        by_cases he : req.Text = ""
        · exact Or.inl he
        · rcases hu : uuid.Parse req.UserId with err | u
          · exact Or.inr ⟨err, rfl⟩
          · exact absurd h400 (reached u he hu).1
      · intro he
        rw [CreateAnswerToQuestion_emptyField t hdr we r req n hd ha hn1 he,
          ← validation_text_text]
        exact ⟨finished_Answered _ _ _ _ _ _ _, rfl⟩
      · intro he err hu
        rw [CreateAnswerToQuestion_invalidUUID t hdr we r req n err hd ha hn1 he hu,
          ← validation_uuidUserId_text]
        exact ⟨finished_Answered _ _ _ _ _ _ _, rfl⟩
      · intro he u hu
        exact reached u he hu

/-- Witness of C5: GetAnswer with the path id `slovo`, DeleteAnswer with `0`,
GetQuestionAndAnswers with `7`, and CreateAnswerToQuestion with `-3`, with `2` and a valid
body (the service is called with `QuestionId = 2`), with `2` and an empty `text`, with `2`
and a `user_id` that is no UUID, and with `slovo`. -/
theorem C5_path_id_validation_witness :
    ((Handler.GetAnswer.serve ⟨sampleService⟩ (http.ResponseWriter.fresh [] none)
          (sampleRequest "slovo" none)).Answered 400
            (specValidationFailedBody "invalid ID format for \\\"id\\\"")
        ∧ (Handler.GetAnswer.serve ⟨sampleService⟩ (http.ResponseWriter.fresh [] none)
          (sampleRequest "slovo" none)).service.calls = sampleService.calls)
    ∧ ((Handler.DeleteAnswer.serve ⟨sampleService⟩ (http.ResponseWriter.fresh [] none)
          (sampleRequest "0" none)).Answered 400
            (specValidationFailedBody "ID must be a positive integer")
        ∧ (Handler.DeleteAnswer.serve ⟨sampleService⟩ (http.ResponseWriter.fresh [] none)
          (sampleRequest "0" none)).service.calls = sampleService.calls)
    ∧ ((Handler.GetQuestionAndAnswers.serve ⟨sampleService⟩ (http.ResponseWriter.fresh [] none)
          (sampleRequest "7" none)).w.status ≠ 400
        ∧ (Handler.GetQuestionAndAnswers.serve ⟨sampleService⟩
          (http.ResponseWriter.fresh [] none)
          (sampleRequest "7" none)).service.calls
            = sampleService.calls ++ [Call.GetQuestionAndAnswers 7])
    ∧ ((serverAPI.CreateAnswerToQuestion ⟨sampleService⟩ (http.ResponseWriter.fresh [] none)
          (sampleRequest "-3" (answerBody sampleUUID "text"))).Answered 400
            (specValidationFailedBody "ID must be a positive integer")
        ∧ (serverAPI.CreateAnswerToQuestion ⟨sampleService⟩ (http.ResponseWriter.fresh [] none)
          (sampleRequest "-3" (answerBody sampleUUID "text"))).service.calls
            = sampleService.calls)
    ∧ ((serverAPI.CreateAnswerToQuestion ⟨sampleService⟩ (http.ResponseWriter.fresh [] none)
          (sampleRequest "2" (answerBody sampleUUID "text"))).w.status ≠ 400
        ∧ (serverAPI.CreateAnswerToQuestion ⟨sampleService⟩ (http.ResponseWriter.fresh [] none)
          (sampleRequest "2" (answerBody sampleUUID "text"))).service.calls
            = sampleService.calls ++ [Call.CreateAnswerToQuestion
                { Id := 0, QuestionId := 2, UserId := sampleUUID, Text := "text" }])
    ∧ ((serverAPI.CreateAnswerToQuestion ⟨sampleService⟩ (http.ResponseWriter.fresh [] none)
          (sampleRequest "2" (answerBody sampleUUID ""))).Answered 400
            (specValidationFailedBody "field \\\"text\\\" must not be empty")
        ∧ (serverAPI.CreateAnswerToQuestion ⟨sampleService⟩ (http.ResponseWriter.fresh [] none)
          (sampleRequest "2" (answerBody sampleUUID ""))).service.calls = sampleService.calls)
    ∧ ((serverAPI.CreateAnswerToQuestion ⟨sampleService⟩ (http.ResponseWriter.fresh [] none)
          (sampleRequest "2" (answerBody "not-uuid" "text"))).Answered 400
            (specValidationFailedBody "invalid UUID format for \\\"user_id\\\"")
        ∧ (serverAPI.CreateAnswerToQuestion ⟨sampleService⟩ (http.ResponseWriter.fresh [] none)
          (sampleRequest "2" (answerBody "not-uuid" "text"))).service.calls
            = sampleService.calls)
    ∧ ((serverAPI.CreateAnswerToQuestion ⟨sampleService⟩ (http.ResponseWriter.fresh [] none)
          (sampleRequest "slovo" (answerBody sampleUUID "text"))).Answered 400
            (specValidationFailedBody "invalid ID format for \\\"id\\\"")
        ∧ (serverAPI.CreateAnswerToQuestion ⟨sampleService⟩ (http.ResponseWriter.fresh [] none)
          (sampleRequest "slovo" (answerBody sampleUUID "text"))).service.calls
            = sampleService.calls)
    ∧ (({ UserId := "not-uuid", Text := "text" } : request.CreateAnswerToQuestionRequest).Text
          = ""
        ∨ ∃ err, uuid.Parse
          ({ UserId := "not-uuid", Text := "text" } : request.CreateAnswerToQuestionRequest).UserId
            = .error err) :=
  ⟨((C5_path_id_validation ⟨sampleService⟩ [] none (sampleRequest "slovo" none)).2.1
      .GetAnswer (Or.inr (Or.inr (Or.inl rfl)))).1
      (.numError "Atoi" "slovo" "invalid syntax") rfl,
   ((C5_path_id_validation ⟨sampleService⟩ [] none (sampleRequest "0" none)).2.1
      .DeleteAnswer (Or.inr (Or.inr (Or.inr rfl)))).2.1 0 rfl (by decide),
   ((C5_path_id_validation ⟨sampleService⟩ [] none (sampleRequest "7" none)).2.1
      .GetQuestionAndAnswers (Or.inl rfl)).2.2 7 rfl (by decide),
   ((C5_path_id_validation ⟨sampleService⟩ [] none
      (sampleRequest "-3" (answerBody sampleUUID "text"))).2.2
      { UserId := sampleUUID, Text := "text" } rfl).2.1 (-3) rfl (by decide),
   (((C5_path_id_validation ⟨sampleService⟩ [] none
      (sampleRequest "2" (answerBody sampleUUID "text"))).2.2
      { UserId := sampleUUID, Text := "text" } rfl).2.2 2 rfl (by decide)).2.2.2
      (by decide) _ rfl,
   (((C5_path_id_validation ⟨sampleService⟩ [] none
      (sampleRequest "2" (answerBody sampleUUID ""))).2.2
      { UserId := sampleUUID, Text := "" } rfl).2.2 2 rfl (by decide)).2.1 rfl,
   (((C5_path_id_validation ⟨sampleService⟩ [] none
      (sampleRequest "2" (answerBody "not-uuid" "text"))).2.2
      { UserId := "not-uuid", Text := "text" } rfl).2.2 2 rfl (by decide)).2.2.1
      (by decide) _ rfl,
   ((C5_path_id_validation ⟨sampleService⟩ [] none
      (sampleRequest "slovo" (answerBody sampleUUID "text"))).2.2
      { UserId := sampleUUID, Text := "text" } rfl).1
      (.numError "Atoi" "slovo" "invalid syntax") rfl,
   (((C5_path_id_validation ⟨sampleService⟩ [] none
      (sampleRequest "2" (answerBody "not-uuid" "text"))).2.2
      { UserId := "not-uuid", Text := "text" } rfl).2.2 2 rfl (by decide)).1 (by decide)⟩

/-- Counterexample to C5 as stated: the request to CreateAnswerToQuestion with path id `1`
and body `{"user_id": <uuid>, "text": ""}` decodes and its id parses to 1, yet it is rejected
with status 400 and a VALIDATION_FAILED envelope, and no id reaches the service. -/
theorem C5_counterexample_valid_id_still_rejected :
    request.decodeCreateAnswerToQuestionRequest { UserId := "", Text := "" }
        (sampleRequest "1" (answerBody sampleUUID "")).Body
      = ({ UserId := sampleUUID, Text := "" }, none)
    ∧ strconv.Atoi ((sampleRequest "1" (answerBody sampleUUID "")).PathValue "id") = .ok 1
    ∧ (serverAPI.CreateAnswerToQuestion ⟨sampleService⟩ (http.ResponseWriter.fresh [] none)
        (sampleRequest "1" (answerBody sampleUUID ""))).Answered 400
          (specValidationFailedBody "field \\\"text\\\" must not be empty")
    ∧ (serverAPI.CreateAnswerToQuestion ⟨sampleService⟩ (http.ResponseWriter.fresh [] none)
        (sampleRequest "1" (answerBody sampleUUID ""))).service.calls = [] :=
  ⟨by decide, by rfl, by decide, by decide⟩

/-- C6: DeleteUser answers a path id that `uuid.Parse` rejects with status 400 and the
VALIDATION_FAILED envelope `invalid UUID format for "id"`; CreateAnswerToQuestion, given a
body that decodes, a path id that parses to at least 1 and a non-empty text, answers a
`user_id` that `uuid.Parse` rejects with the envelope `invalid UUID format for "user_id"`.
When the identifier parses, the service is called with the string of the client: the path
id itself in DeleteUser, the decoded `user_id` itself in CreateAnswerToQuestion. -/
theorem C6_uuid_validation (t : serverAPI) (hdr : http.Header) (we : Option GoError)
    (r : Request) :
    (∀ err, uuid.Parse (r.PathValue "id") = .error err →
        (serverAPI.DeleteUser t (http.ResponseWriter.fresh hdr we) r).Answered 400
          (specValidationFailedBody "invalid UUID format for \\\"id\\\""))
    ∧ (∀ req n err,
        request.decodeCreateAnswerToQuestionRequest { UserId := "", Text := "" } r.Body
          = (req, none) →
        strconv.Atoi (r.PathValue "id") = .ok n → 1 ≤ n → req.Text ≠ "" →
        uuid.Parse req.UserId = .error err →
        (serverAPI.CreateAnswerToQuestion t (http.ResponseWriter.fresh hdr we) r).Answered 400
          (specValidationFailedBody "invalid UUID format for \\\"user_id\\\""))
    ∧ (∀ u, uuid.Parse (r.PathValue "id") = .ok u →
        (serverAPI.DeleteUser t (http.ResponseWriter.fresh hdr we) r).service.calls
          = t.service.calls ++ [Call.DeleteUser (r.PathValue "id")])
    ∧ (∀ req n u,
        request.decodeCreateAnswerToQuestionRequest { UserId := "", Text := "" } r.Body
          = (req, none) →
        strconv.Atoi (r.PathValue "id") = .ok n → 1 ≤ n → req.Text ≠ "" →
        uuid.Parse req.UserId = .ok u →
        (serverAPI.CreateAnswerToQuestion t (http.ResponseWriter.fresh hdr we) r).service.calls
          = t.service.calls ++ [Call.CreateAnswerToQuestion
              { Id := 0, QuestionId := n, UserId := req.UserId, Text := req.Text }]) := by
  refine ⟨?_, ?_, ?_, ?_⟩
  · intro err hu
    rw [DeleteUser_invalidUUID t hdr we r err hu, ← validation_uuidId_text]
    exact finished_Answered _ _ _ _ _ _ _
  · intro req n err hd ha hn hne hu
    rw [CreateAnswerToQuestion_invalidUUID t hdr we r req n err hd ha (by omega) hne hu,
      ← validation_uuidUserId_text]
    exact finished_Answered _ _ _ _ _ _ _
  · intro u hu
    rcases hs : t.service.deleteUser (r.PathValue "id") with _ | err
    · rw [DeleteUser_ok t hdr we r u hu hs]
      rfl
    · rw [DeleteUser_serviceFailed t hdr we r u err hu hs]
      rfl
  · intro req n u hd ha hn hne hu
    rcases hs : t.service.createAnswerToQuestion
      { Id := 0, QuestionId := n, UserId := req.UserId, Text := req.Text }
      with ⟨answerId, _ | err⟩
    · rw [CreateAnswerToQuestion_ok t hdr we r req n u answerId hd ha (by omega) hne hu hs]
      rfl
    · rw [CreateAnswerToQuestion_serviceFailed t hdr we r req n u _ err hd ha (by omega) hne
        hu hs]
      rfl

/-- Witness of C6: `not-uuid` as the path id of DeleteUser and as the `user_id` of
CreateAnswerToQuestion, and the UUID of the test suite in upper case in both places. -/
theorem C6_uuid_validation_witness :
    (serverAPI.DeleteUser ⟨sampleService⟩ (http.ResponseWriter.fresh [] none)
        (sampleRequest "not-uuid" none)).Answered 400
          (specValidationFailedBody "invalid UUID format for \\\"id\\\"")
    ∧ (serverAPI.CreateAnswerToQuestion ⟨sampleService⟩ (http.ResponseWriter.fresh [] none)
        (sampleRequest "1" (answerBody "not-uuid" "text"))).Answered 400
          (specValidationFailedBody "invalid UUID format for \\\"user_id\\\"")
    ∧ (serverAPI.DeleteUser ⟨sampleService⟩ (http.ResponseWriter.fresh [] none)
        (sampleRequest "F47AC10B-58CC-4372-A567-0E02B2C3DE91" none)).service.calls
          = sampleService.calls
            ++ [Call.DeleteUser ((sampleRequest "F47AC10B-58CC-4372-A567-0E02B2C3DE91"
                none).PathValue "id")]
    ∧ (serverAPI.CreateAnswerToQuestion ⟨sampleService⟩ (http.ResponseWriter.fresh [] none)
        (sampleRequest "1"
          (answerBody "F47AC10B-58CC-4372-A567-0E02B2C3DE91" "text"))).service.calls
          = sampleService.calls ++ [Call.CreateAnswerToQuestion
              { Id := 0, QuestionId := 1, UserId := "F47AC10B-58CC-4372-A567-0E02B2C3DE91",
                Text := "text" }] :=
  ⟨(C6_uuid_validation ⟨sampleService⟩ [] none (sampleRequest "not-uuid" none)).1
      (.invalidLengthError 8) rfl,
   (C6_uuid_validation ⟨sampleService⟩ [] none
      (sampleRequest "1" (answerBody "not-uuid" "text"))).2.1
      { UserId := "not-uuid", Text := "text" } 1 (.invalidLengthError 8) rfl rfl (by decide)
      (by decide) rfl,
   (C6_uuid_validation ⟨sampleService⟩ [] none
      (sampleRequest "F47AC10B-58CC-4372-A567-0E02B2C3DE91" none)).2.2.1 _ rfl,
   (C6_uuid_validation ⟨sampleService⟩ [] none
      (sampleRequest "1" (answerBody "F47AC10B-58CC-4372-A567-0E02B2C3DE91" "text"))).2.2.2
      { UserId := "F47AC10B-58CC-4372-A567-0E02B2C3DE91", Text := "text" } 1 _ rfl rfl
      (by decide) (by decide) rfl⟩

/-- C7: whatever the handler, the request, the headers already set, the connection and the
service, a handler that answers with status 400 has made no call on the service. -/
theorem C7_status_400_means_no_service_call (h : Handler) (t : serverAPI) (hdr : http.Header)
    (we : Option GoError) (r : Request) :
    (h.serve t (http.ResponseWriter.fresh hdr we) r).w.status = 400 →
      (h.serve t (http.ResponseWriter.fresh hdr we) r).service.calls = t.service.calls := by
  have hsh := serve_shape h t hdr we r
  generalize h.serve t (http.ResponseWriter.fresh hdr we) r = o at hsh
  intro hst
  cases hsh with
  | rejected err code desc hcode => rfl
  | failed c err => exact absurd hst (by decide : (500 : Int) ≠ 400)
  | succeeded c data => exact absurd hst (by decide : (200 : Int) ≠ 400)
  | panicked c => exact absurd hst (by decide : (0 : Int) ≠ 400)

/-- Witness of C7: CreateUser with an empty name answers 400 and the record of calls of the
service is as it was. -/
theorem C7_status_400_means_no_service_call_witness :
    (Handler.CreateUser.serve ⟨sampleService⟩ (http.ResponseWriter.fresh [] none)
        (sampleRequest "" (fieldBody "name" ""))).w.status = 400
    ∧ (Handler.CreateUser.serve ⟨sampleService⟩ (http.ResponseWriter.fresh [] none)
        (sampleRequest "" (fieldBody "name" ""))).service.calls = sampleService.calls :=
  ⟨by decide,
   C7_status_400_means_no_service_call .CreateUser ⟨sampleService⟩ [] none
     (sampleRequest "" (fieldBody "name" "")) (by decide)⟩

/-- C8: CreateAnswerToQuestion, given a body that decodes to `user_id` u and a non-empty
`text` t, u a valid UUID, and a path id that parses to n with n at least 1, calls the service
exactly once, with the answer `{Id: 0, QuestionId: n, UserId: u, Text: t}`; when that call
returns k and no error the answer is status 200 with the body
`{"status":"OK","data":{"answer_id":k}}`. -/
theorem C8_create_answer_calls_service_once (t : serverAPI) (hdr : http.Header)
    (we : Option GoError) (r : Request) (req : request.CreateAnswerToQuestionRequest) (n : Int)
    (u : List Nat)
    (hd : request.decodeCreateAnswerToQuestionRequest { UserId := "", Text := "" } r.Body
      = (req, none))
    (hne : req.Text ≠ "") (hu : uuid.Parse req.UserId = .ok u)
    (ha : strconv.Atoi (r.PathValue "id") = .ok n) (hn : 1 ≤ n) :
    (serverAPI.CreateAnswerToQuestion t (http.ResponseWriter.fresh hdr we) r).service.calls
        = t.service.calls ++ [Call.CreateAnswerToQuestion
            { Id := 0, QuestionId := n, UserId := req.UserId, Text := req.Text }]
    ∧ (∀ k, t.service.createAnswerToQuestion
          { Id := 0, QuestionId := n, UserId := req.UserId, Text := req.Text } = (k, none) →
        (serverAPI.CreateAnswerToQuestion t (http.ResponseWriter.fresh hdr we) r).Answered 200
          (specOkBody ("\x7b\"answer_id\":" ++ json.encodeInt k ++ "\x7d"))) := by
  have hn1 : ¬ n < 1 := by omega
  constructor
  · rcases hs : t.service.createAnswerToQuestion
      { Id := 0, QuestionId := n, UserId := req.UserId, Text := req.Text }
      with ⟨answerId, _ | err⟩
    · rw [CreateAnswerToQuestion_ok t hdr we r req n u answerId hd ha hn1 hne hu hs]
      rfl
    · rw [CreateAnswerToQuestion_serviceFailed t hdr we r req n u _ err hd ha hn1 hne hu hs]
      rfl
  · intro k hs
    rw [CreateAnswerToQuestion_ok t hdr we r req n u k hd ha hn1 hne hu hs]
    have htext := success_text (.createAnswerToQuestion { AnswerId := k })
    have hfin := finished_Answered hdr we
      (t.service.record (.CreateAnswerToQuestion
        { Id := 0, QuestionId := n, UserId := req.UserId, Text := req.Text }))
      r [] 200 (success (some (.createAnswerToQuestion { AnswerId := k })))
    rw [htext] at hfin
    exact hfin

/-- Witness of C8: the successful case of the test suite. -/
theorem C8_create_answer_calls_service_once_witness :
    (serverAPI.CreateAnswerToQuestion ⟨sampleService⟩ (http.ResponseWriter.fresh [] none)
        (sampleRequest "1" (answerBody sampleUUID "text"))).service.calls
        = sampleService.calls ++ [Call.CreateAnswerToQuestion
            { Id := 0, QuestionId := 1, UserId := sampleUUID, Text := "text" }]
    ∧ (serverAPI.CreateAnswerToQuestion ⟨sampleService⟩ (http.ResponseWriter.fresh [] none)
        (sampleRequest "1" (answerBody sampleUUID "text"))).Answered 200
          (specOkBody ("\x7b\"answer_id\":" ++ json.encodeInt 1 ++ "\x7d")) :=
  ⟨(C8_create_answer_calls_service_once ⟨sampleService⟩ [] none
      (sampleRequest "1" (answerBody sampleUUID "text"))
      { UserId := sampleUUID, Text := "text" } 1 _ rfl (by decide) rfl rfl (by decide)).1,
   (C8_create_answer_calls_service_once ⟨sampleService⟩ [] none
      (sampleRequest "1" (answerBody sampleUUID "text"))
      { UserId := sampleUUID, Text := "text" } 1 _ rfl (by decide) rfl rfl (by decide)).2
      1 rfl⟩

/-- C9: CreateQuestion, given a body that decodes to a non-empty `text` t, calls the service
with t, and when that call returns k and no error the answer is status 200 with the body
`{"status":"OK","data":{"question_id":k}}`; CreateUser, given a non-empty `name`, answers
status 200 with the data `{"user_id": id}` for the id string the service returned. -/
theorem C9_create_question_and_user_succeed (t : serverAPI) (hdr : http.Header)
    (we : Option GoError) (r : Request) :
    (∀ req, request.decodeCreateQuestionRequest { Text := "" } r.Body = (req, none) →
        req.Text ≠ "" →
        (serverAPI.CreateQuestion t (http.ResponseWriter.fresh hdr we) r).service.calls
            = t.service.calls ++ [Call.CreateQuestion req.Text]
          ∧ ∀ k, t.service.createQuestion req.Text = (k, none) →
            (serverAPI.CreateQuestion t (http.ResponseWriter.fresh hdr we) r).Answered 200
              (specOkBody ("\x7b\"question_id\":" ++ json.encodeInt k ++ "\x7d")))
    ∧ (∀ req userId, request.decodeCreateUserRequest { Name := "" } r.Body = (req, none) →
        req.Name ≠ "" → t.service.createUser req.Name = (some userId, none) →
        (serverAPI.CreateUser t (http.ResponseWriter.fresh hdr we) r).service.calls
            = t.service.calls ++ [Call.CreateUser req.Name]
          ∧ (serverAPI.CreateUser t (http.ResponseWriter.fresh hdr we) r).Answered 200
              (specOkBody ("\x7b\"user_id\":" ++ json.encodeString userId ++ "\x7d"))) := by
  constructor
  · intro req hd hne
    constructor
    · rcases hs : t.service.createQuestion req.Text with ⟨questionId, _ | err⟩
      · rw [CreateQuestion_ok t hdr we r req questionId hd hne hs]
        rfl
      · rw [CreateQuestion_serviceFailed t hdr we r req _ err hd hne hs]
        rfl
    · intro k hs
      rw [CreateQuestion_ok t hdr we r req k hd hne hs]
      have htext := success_text (.createQuestion { QuestionId := k })
      have hfin := finished_Answered hdr we (t.service.record (.CreateQuestion req.Text))
        r [] 200 (success (some (.createQuestion { QuestionId := k })))
      rw [htext] at hfin
      exact hfin
  · intro req userId hd hne hs
    rw [CreateUser_ok t hdr we r req userId hd hne hs]
    have htext := success_text (.createUser { UserId := userId })
    have hfin := finished_Answered hdr we (t.service.record (.CreateUser req.Name))
      r [] 200 (success (some (.createUser { UserId := userId })))
    rw [htext] at hfin
    exact ⟨rfl, hfin⟩

/-- Witness of C9: the question `what?` gets the id 1, the user `ann` the UUID of the test
suite. -/
theorem C9_create_question_and_user_succeed_witness :
    ((serverAPI.CreateQuestion ⟨sampleService⟩ (http.ResponseWriter.fresh [] none)
        (sampleRequest "" (fieldBody "text" "what?"))).service.calls
          = sampleService.calls ++ [Call.CreateQuestion "what?"]
      ∧ (serverAPI.CreateQuestion ⟨sampleService⟩ (http.ResponseWriter.fresh [] none)
        (sampleRequest "" (fieldBody "text" "what?"))).Answered 200
          (specOkBody ("\x7b\"question_id\":" ++ json.encodeInt 1 ++ "\x7d")))
    ∧ ((serverAPI.CreateUser ⟨sampleService⟩ (http.ResponseWriter.fresh [] none)
        (sampleRequest "" (fieldBody "name" "ann"))).service.calls
          = sampleService.calls ++ [Call.CreateUser "ann"]
      ∧ (serverAPI.CreateUser ⟨sampleService⟩ (http.ResponseWriter.fresh [] none)
        (sampleRequest "" (fieldBody "name" "ann"))).Answered 200
          (specOkBody ("\x7b\"user_id\":" ++ json.encodeString sampleUUID ++ "\x7d"))) :=
  ⟨⟨((C9_create_question_and_user_succeed ⟨sampleService⟩ [] none
        (sampleRequest "" (fieldBody "text" "what?"))).1 { Text := "what?" } rfl
        (by decide)).1,
    ((C9_create_question_and_user_succeed ⟨sampleService⟩ [] none
        (sampleRequest "" (fieldBody "text" "what?"))).1 { Text := "what?" } rfl
        (by decide)).2 1 rfl⟩,
   (C9_create_question_and_user_succeed ⟨sampleService⟩ [] none
      (sampleRequest "" (fieldBody "name" "ann"))).2 { Name := "ann" } sampleUUID rfl
      (by decide) rfl⟩

/-- C10, as amended: GetQuestionAndAnswers, given a path id that parses to n with n at least
1 for which the service returns a question and a list of answers, answers status 200 with the
data `{"question": Q, "answers": [A1, ..., An]}` in which the question is serialised as
`{"Id":..,"Text":..}` and each answer as `{"Id":..,"QuestionId":..,"UserId":..,"Text":..}`,
the keys being the Go field names, in the order the service returned the answers. -/
theorem C10_question_and_answers_keys_are_field_names (t : serverAPI) (hdr : http.Header)
    (we : Option GoError) (r : Request) (n : Int) (q : domain.Question)
    (answers : List domain.Answer)
    (ha : strconv.Atoi (r.PathValue "id") = .ok n) (hn : 1 ≤ n)
    (hs : t.service.getQuestionAndAnswers n = (some q, some (some answers), none)) :
    (serverAPI.GetQuestionAndAnswers t (http.ResponseWriter.fresh hdr we) r).Answered 200
      (specOkBody (codeQuestionAndAnswers q answers)) := by
  rw [GetQuestionAndAnswers_ok t hdr we r n q (some answers) ha (by omega) hs]
  have htext := success_text (.questionAndAnswers { Question := q, Answers := some answers })
  have hfin := finished_Answered hdr we (t.service.record (.GetQuestionAndAnswers n))
    r [] 200 (success (some (.questionAndAnswers { Question := q, Answers := some answers })))
  rw [htext] at hfin
  exact hfin

/-- Witness of C10: question 1 of the sample service with its one answer. -/
theorem C10_question_and_answers_keys_are_field_names_witness :
    (serverAPI.GetQuestionAndAnswers ⟨sampleService⟩ (http.ResponseWriter.fresh [] none)
        (sampleRequest "1" none)).Answered 200
      (specOkBody (codeQuestionAndAnswers { Id := 1, Text := "what?" }
        [{ Id := 1, QuestionId := 1, UserId := sampleUUID, Text := "42" }])) :=
  C10_question_and_answers_keys_are_field_names ⟨sampleService⟩ [] none
    (sampleRequest "1" none) 1 { Id := 1, Text := "what?" }
    [{ Id := 1, QuestionId := 1, UserId := sampleUUID, Text := "42" }] rfl (by decide) rfl

/-- Counterexample to C10 as stated: for question 1 with the text `what?` and one answer the
service returns, the body of the 200 response is not the one with the lower-case keys `id`,
`text`, `question_id`, `user_id`; it is the one with the keys `Id`, `Text`, `QuestionId`,
`UserId`. -/
theorem C10_counterexample_keys_are_not_lower_case :
    (serverAPI.GetQuestionAndAnswers ⟨sampleService⟩ (http.ResponseWriter.fresh [] none)
        (sampleRequest "1" none)).w.status = 200
    ∧ (serverAPI.GetQuestionAndAnswers ⟨sampleService⟩ (http.ResponseWriter.fresh [] none)
        (sampleRequest "1" none)).w.body
      ≠ specOkBody (specQuestionAndAnswers { Id := 1, Text := "what?" }
          [{ Id := 1, QuestionId := 1, UserId := sampleUUID, Text := "42" }])
    ∧ (serverAPI.GetQuestionAndAnswers ⟨sampleService⟩ (http.ResponseWriter.fresh [] none)
        (sampleRequest "1" none)).w.body
      = "\x7b\"status\":\"OK\",\"data\":\x7b\"question\":\x7b\"Id\":1,\"Text\":\"what?\"\x7d,\"answers\":[\x7b\"Id\":1,\"QuestionId\":1,\"UserId\":\"f47ac10b-58cc-4372-a567-0e02b2c3de91\",\"Text\":\"42\"\x7d]\x7d\x7d\n" := by
  decide


/-! ### Every outcome of a handler is one of its replies -/

/-- Replies of `CreateUser`. -/
theorem CreateUser_reply (t : serverAPI) (hdr : http.Header) (we : Option GoError) (r : Request) :
    Reply .CreateUser t hdr we r (serverAPI.CreateUser t (http.ResponseWriter.fresh hdr we) r) := by
  rcases hd : request.decodeCreateUserRequest { Name := "" } r.Body with ⟨req, _ | err⟩
  · by_cases he : req.Name = ""
    · rw [CreateUser_emptyField t hdr we r req hd he]
      exact .rejected _ _ _ (Or.inl rfl)
    · rcases hs : t.service.createUser req.Name with ⟨_ | userId, _ | err⟩
      · rw [CreateUser_nilResult t hdr we r req hd he hs]
        exact .panicked _ (by simp [QNADispatcher.returnsNil, hs])
      · rw [CreateUser_serviceFailed t hdr we r req _ err hd he hs]
        exact .failed _ _
      · rw [CreateUser_ok t hdr we r req userId hd he hs]
        exact .succeeded _ _ rfl
      · rw [CreateUser_serviceFailed t hdr we r req _ err hd he hs]
        exact .failed _ _
  · rw [CreateUser_decodeFailed t hdr we r req err hd]
    exact .rejected _ _ _ (Or.inr rfl)

/-- Replies of `GetUsers`. -/
theorem GetUsers_reply (t : serverAPI) (hdr : http.Header) (we : Option GoError) (r : Request) :
    Reply .GetUsers t hdr we r (serverAPI.GetUsers t (http.ResponseWriter.fresh hdr we) r) := by
  rcases hs : t.service.getUsers with ⟨_ | users, _ | err⟩
  · rw [GetUsers_nilResult t hdr we r hs]
    exact .panicked _ (by simp [QNADispatcher.returnsNil, hs])
  · rw [GetUsers_serviceFailed t hdr we r _ err hs]
    exact .failed _ _
  · rw [GetUsers_ok t hdr we r users hs]
    exact .succeeded _ _ rfl
  · rw [GetUsers_serviceFailed t hdr we r _ err hs]
    exact .failed _ _

/-- Replies of `DeleteUser`. -/
theorem DeleteUser_reply (t : serverAPI) (hdr : http.Header) (we : Option GoError) (r : Request) :
    Reply .DeleteUser t hdr we r (serverAPI.DeleteUser t (http.ResponseWriter.fresh hdr we) r) := by
  rcases hu : uuid.Parse (r.PathValue "id") with err | u
  · rw [DeleteUser_invalidUUID t hdr we r err hu]
    exact .rejected _ _ _ (Or.inl rfl)
  · rcases hs : t.service.deleteUser (r.PathValue "id") with _ | err
    · rw [DeleteUser_ok t hdr we r u hu hs]
      exact .succeeded _ _ rfl
    · rw [DeleteUser_serviceFailed t hdr we r u err hu hs]
      exact .failed _ _

/-- Replies of `GetQuestions`. -/
theorem GetQuestions_reply (t : serverAPI) (hdr : http.Header) (we : Option GoError)
    (r : Request) :
    Reply .GetQuestions t hdr we r (serverAPI.GetQuestions t (http.ResponseWriter.fresh hdr we) r) := by
  rcases hs : t.service.getQuestions with ⟨_ | questions, _ | err⟩
  · rw [GetQuestions_nilResult t hdr we r hs]
    exact .panicked _ (by simp [QNADispatcher.returnsNil, hs])
  · rw [GetQuestions_serviceFailed t hdr we r _ err hs]
    exact .failed _ _
  · rw [GetQuestions_ok t hdr we r questions hs]
    exact .succeeded _ _ rfl
  · rw [GetQuestions_serviceFailed t hdr we r _ err hs]
    exact .failed _ _

/-- Replies of `CreateQuestion`. -/
theorem CreateQuestion_reply (t : serverAPI) (hdr : http.Header) (we : Option GoError)
    (r : Request) :
    Reply .CreateQuestion t hdr we r (serverAPI.CreateQuestion t (http.ResponseWriter.fresh hdr we) r) := by
  rcases hd : request.decodeCreateQuestionRequest { Text := "" } r.Body with ⟨req, _ | err⟩
  · by_cases he : req.Text = ""
    · rw [CreateQuestion_emptyField t hdr we r req hd he]
      exact .rejected _ _ _ (Or.inl rfl)
    · rcases hs : t.service.createQuestion req.Text with ⟨questionId, _ | err⟩
      · rw [CreateQuestion_ok t hdr we r req questionId hd he hs]
        exact .succeeded _ _ rfl
      · rw [CreateQuestion_serviceFailed t hdr we r req _ err hd he hs]
        exact .failed _ _
  · rw [CreateQuestion_decodeFailed t hdr we r req err hd]
    exact .rejected _ _ _ (Or.inr rfl)

/-- Replies of `GetQuestionAndAnswers`. -/
theorem GetQuestionAndAnswers_reply (t : serverAPI) (hdr : http.Header) (we : Option GoError)
    (r : Request) :
    Reply .GetQuestionAndAnswers t hdr we r (serverAPI.GetQuestionAndAnswers t (http.ResponseWriter.fresh hdr we) r) := by
  rcases ha : strconv.Atoi (r.PathValue "id") with err | n
  · rw [GetQuestionAndAnswers_invalidId t hdr we r err ha]
    exact .rejected _ _ _ (Or.inl rfl)
  · by_cases hn : n < 1
    · rw [GetQuestionAndAnswers_notPositive t hdr we r n ha hn]
      exact .rejected _ _ _ (Or.inl rfl)
    · rcases hs : t.service.getQuestionAndAnswers n with ⟨_ | question, _ | answers, _ | err⟩
      · rw [GetQuestionAndAnswers_nilQuestion t hdr we r n _ ha hn hs]
        exact .panicked _ (by simp [QNADispatcher.returnsNil, hs])
      · rw [GetQuestionAndAnswers_serviceFailed t hdr we r n _ _ err ha hn hs]
        exact .failed _ _
      · rw [GetQuestionAndAnswers_nilQuestion t hdr we r n _ ha hn hs]
        exact .panicked _ (by simp [QNADispatcher.returnsNil, hs])
      · rw [GetQuestionAndAnswers_serviceFailed t hdr we r n _ _ err ha hn hs]
        exact .failed _ _
      · rw [GetQuestionAndAnswers_nilAnswers t hdr we r n question ha hn hs]
        exact .panicked _ (by simp [QNADispatcher.returnsNil, hs])
      · rw [GetQuestionAndAnswers_serviceFailed t hdr we r n _ _ err ha hn hs]
        exact .failed _ _
      · rw [GetQuestionAndAnswers_ok t hdr we r n question answers ha hn hs]
        exact .succeeded _ _ rfl
      · rw [GetQuestionAndAnswers_serviceFailed t hdr we r n _ _ err ha hn hs]
        exact .failed _ _

/-- Replies of `DeleteQuestionAndAnswers`. -/
theorem DeleteQuestionAndAnswers_reply (t : serverAPI) (hdr : http.Header)
    (we : Option GoError) (r : Request) :
    Reply .DeleteQuestionAndAnswers t hdr we r
      (serverAPI.DeleteQuestionAndAnswers t (http.ResponseWriter.fresh hdr we) r) := by
  rcases ha : strconv.Atoi (r.PathValue "id") with err | n
  · rw [DeleteQuestionAndAnswers_invalidId t hdr we r err ha]
    exact .rejected _ _ _ (Or.inl rfl)
  · by_cases hn : n < 1
    · rw [DeleteQuestionAndAnswers_notPositive t hdr we r n ha hn]
      exact .rejected _ _ _ (Or.inl rfl)
    · rcases hs : t.service.deleteQuestionAndAnswers n with _ | err
      · rw [DeleteQuestionAndAnswers_ok t hdr we r n ha hn hs]
        exact .succeeded _ _ rfl
      · rw [DeleteQuestionAndAnswers_serviceFailed t hdr we r n err ha hn hs]
        exact .failed _ _

/-- Replies of `CreateAnswerToQuestion`. -/
theorem CreateAnswerToQuestion_reply (t : serverAPI) (hdr : http.Header) (we : Option GoError)
    (r : Request) :
    Reply .CreateAnswerToQuestion t hdr we r
      (serverAPI.CreateAnswerToQuestion t (http.ResponseWriter.fresh hdr we) r) := by
  rcases hd : request.decodeCreateAnswerToQuestionRequest { UserId := "", Text := "" } r.Body
    with ⟨req, _ | err⟩
  · rcases ha : strconv.Atoi (r.PathValue "id") with err | n
    · rw [CreateAnswerToQuestion_invalidId t hdr we r req err hd ha]
      exact .rejected _ _ _ (Or.inl rfl)
    · by_cases hn : n < 1
      · rw [CreateAnswerToQuestion_notPositive t hdr we r req n hd ha hn]
        exact .rejected _ _ _ (Or.inl rfl)
      · by_cases he : req.Text = ""
        · rw [CreateAnswerToQuestion_emptyField t hdr we r req n hd ha hn he]
          exact .rejected _ _ _ (Or.inl rfl)
        · rcases hu : uuid.Parse req.UserId with err | u
          · rw [CreateAnswerToQuestion_invalidUUID t hdr we r req n err hd ha hn he hu]
            exact .rejected _ _ _ (Or.inl rfl)
          · rcases hs : t.service.createAnswerToQuestion
              { Id := 0, QuestionId := n, UserId := req.UserId, Text := req.Text }
              with ⟨answerId, _ | err⟩
            · rw [CreateAnswerToQuestion_ok t hdr we r req n u answerId hd ha hn he hu hs]
              exact .succeeded _ _ rfl
            · rw [CreateAnswerToQuestion_serviceFailed t hdr we r req n u _ err hd ha hn he hu hs]
              exact .failed _ _
  · rw [CreateAnswerToQuestion_decodeFailed t hdr we r req err hd]
    exact .rejected _ _ _ (Or.inr rfl)

/-- Replies of `GetAnswer`. -/
theorem GetAnswer_reply (t : serverAPI) (hdr : http.Header) (we : Option GoError) (r : Request) :
    Reply .GetAnswer t hdr we r (serverAPI.GetAnswer t (http.ResponseWriter.fresh hdr we) r) := by
  rcases ha : strconv.Atoi (r.PathValue "id") with err | n
  · rw [GetAnswer_invalidId t hdr we r err ha]
    exact .rejected _ _ _ (Or.inl rfl)
  · by_cases hn : n < 1
    · rw [GetAnswer_notPositive t hdr we r n ha hn]
      exact .rejected _ _ _ (Or.inl rfl)
    · rcases hs : t.service.getAnswer n with ⟨answer, _ | err⟩
      · rw [GetAnswer_ok t hdr we r n answer ha hn hs]
        exact .succeeded _ _ rfl
      · rw [GetAnswer_serviceFailed t hdr we r n _ err ha hn hs]
        exact .failed _ _

/-- Replies of `DeleteAnswer`. -/
theorem DeleteAnswer_reply (t : serverAPI) (hdr : http.Header) (we : Option GoError)
    (r : Request) :
    Reply .DeleteAnswer t hdr we r (serverAPI.DeleteAnswer t (http.ResponseWriter.fresh hdr we) r) := by
  rcases ha : strconv.Atoi (r.PathValue "id") with err | n
  · rw [DeleteAnswer_invalidId t hdr we r err ha]
    exact .rejected _ _ _ (Or.inl rfl)
  · by_cases hn : n < 1
    · rw [DeleteAnswer_notPositive t hdr we r n ha hn]
      exact .rejected _ _ _ (Or.inl rfl)
    · rcases hs : t.service.deleteAnswer n with _ | err
      · rw [DeleteAnswer_ok t hdr we r n ha hn hs]
        exact .succeeded _ _ rfl
      · rw [DeleteAnswer_serviceFailed t hdr we r n err ha hn hs]
        exact .failed _ _

/-- On a fresh writer, whatever the request and the service, the outcome of each of the ten
handlers is one of its replies. -/
theorem serve_reply (h : Handler) (t : serverAPI) (hdr : http.Header) (we : Option GoError)
    (r : Request) : Reply h t hdr we r (h.serve t (http.ResponseWriter.fresh hdr we) r) := by
  cases h
  · exact CreateUser_reply t hdr we r
  · exact GetUsers_reply t hdr we r
  · exact DeleteUser_reply t hdr we r
  · exact GetQuestionAndAnswers_reply t hdr we r
  · exact DeleteQuestionAndAnswers_reply t hdr we r
  · exact CreateAnswerToQuestion_reply t hdr we r
  · exact GetQuestions_reply t hdr we r
  · exact CreateQuestion_reply t hdr we r
  · exact GetAnswer_reply t hdr we r
  · exact DeleteAnswer_reply t hdr we r

/-! ### The envelope as a JSON object -/

/-- The text the encoder writes for a `Response` is the JSON object of its members. -/
theorem encodeResponse_eq_objectText (r : response.Response) :
    response.encodeResponse r = json.objectText (response.members r) := by
  have h1 : "\x7b\"status\":" = "\x7b" ++ ("\"" ++ ("status" ++ "\":")) := by decide
  have h2 : ",\"error\":" = "," ++ ("\"" ++ ("error" ++ "\":")) := by decide
  have h3 : ",\"data\":" = "," ++ ("\"" ++ ("data" ++ "\":")) := by decide
  obtain ⟨status, error, data⟩ := r
  cases error <;> cases data <;>
    simp only [response.encodeResponse, json.objectText, response.members, List.map_cons,
      List.map_nil, List.append_nil, List.cons_append, List.nil_append, String.intercalate,
      String.intercalate.go, h1, h2, h3, String.append_assoc, String.append_empty,
      String.empty_append]

/-- The keys of a failure envelope. -/
theorem keys_failure (status : Int) (code desc : String) :
    response.keys (failure status code desc) = ["status", "error"] := rfl

/-- The keys of a success envelope. -/
theorem keys_success (data : Option response.Data) :
    response.keys (success data) = if data.isSome then ["status", "data"] else ["status"] := by
  cases data <;> rfl

/-- C11: whenever a handler returns, the body it wrote is the JSON object of an envelope whose
keys are `status` and `error` on a 400 or 500 response, `status` alone on the 200 response of
a delete, and `status` and `data` on the 200 response of every other handler; the status is
one of the three. The data key is there also when GetUsers or GetQuestions get an empty list
from the service (the body is then `{"status":"OK","data":[]}`). -/
theorem C11_envelope_has_error_or_data (h : Handler) (t : serverAPI) (hdr : http.Header)
    (we : Option GoError) (r : Request) :
    ((h.serve t (http.ResponseWriter.fresh hdr we) r).panicked = none →
      ∃ resp : response.Response,
        (h.serve t (http.ResponseWriter.fresh hdr we) r).Answered
            (h.serve t (http.ResponseWriter.fresh hdr we) r).w.status
            (json.objectText (response.members resp) ++ "\n")
        ∧ ((h.serve t (http.ResponseWriter.fresh hdr we) r).w.status = 400
              ∨ (h.serve t (http.ResponseWriter.fresh hdr we) r).w.status = 500 →
            response.keys resp = ["status", "error"])
        ∧ ((h.serve t (http.ResponseWriter.fresh hdr we) r).w.status = 200 →
            response.keys resp = if h.isDelete then ["status"] else ["status", "data"])
        ∧ ((h.serve t (http.ResponseWriter.fresh hdr we) r).w.status = 200
            ∨ (h.serve t (http.ResponseWriter.fresh hdr we) r).w.status = 400
            ∨ (h.serve t (http.ResponseWriter.fresh hdr we) r).w.status = 500))
    ∧ (t.service.getUsers = (some (some []), none) →
        (serverAPI.GetUsers t (http.ResponseWriter.fresh hdr we) r).Answered 200
          "\x7b\"status\":\"OK\",\"data\":[]\x7d\n")
    ∧ (t.service.getQuestions = (some (some []), none) →
        (serverAPI.GetQuestions t (http.ResponseWriter.fresh hdr we) r).Answered 200
          "\x7b\"status\":\"OK\",\"data\":[]\x7d\n") := by
  refine ⟨?_, ?_, ?_⟩
  · have hr := serve_reply h t hdr we r
    generalize h.serve t (http.ResponseWriter.fresh hdr we) r = o at hr
    intro hp
    cases hr with
    | rejected err code desc hcode =>
      refine ⟨failure 400 code desc, ?_, fun _ => keys_failure _ _ _,
        fun h200 => absurd h200 (by decide : (400 : Int) ≠ 200), Or.inr (Or.inl rfl)⟩
      rw [← encodeResponse_eq_objectText]
      exact finished_Answered _ _ _ _ _ _ _
    | failed c err =>
      refine ⟨failure 500 response.ErrCodeInternalServerError "internal server error", ?_,
        fun _ => keys_failure _ _ _,
        fun h200 => absurd h200 (by decide : (500 : Int) ≠ 200), Or.inr (Or.inr rfl)⟩
      rw [← encodeResponse_eq_objectText]
      exact finished_Answered _ _ _ _ _ _ _
    | succeeded c data hdata =>
      refine ⟨success data, ?_, ?_, ?_, Or.inl rfl⟩
      · rw [← encodeResponse_eq_objectText]
        exact finished_Answered _ _ _ _ _ _ _
      · rintro (h4 | h5)
        · exact absurd h4 (by decide : (200 : Int) ≠ 400)
        · exact absurd h5 (by decide : (200 : Int) ≠ 500)
      · intro _
        rw [keys_success, hdata]
        cases h.isDelete <;> rfl
    | panicked c hnil => cases hp
  · intro hs
    rw [GetUsers_ok t hdr we r (some []) hs]
    have htext : response.encodeResponse (success (some (.users (some [])))) ++ "\n"
        = "\x7b\"status\":\"OK\",\"data\":[]\x7d\n" := by decide
    rw [← htext]
    exact finished_Answered _ _ _ _ _ _ _
  · intro hs
    rw [GetQuestions_ok t hdr we r (some []) hs]
    have htext : response.encodeResponse (success (some (.questions (some [])))) ++ "\n"
        = "\x7b\"status\":\"OK\",\"data\":[]\x7d\n" := by decide
    rw [← htext]
    exact finished_Answered _ _ _ _ _ _ _

/-- Witness of C11: DeleteAnswer of the sample service returns with status 200 and an envelope
with the key `status` alone; GetUsers and GetQuestions with empty lists answer
`{"status":"OK","data":[]}`. -/
theorem C11_envelope_has_error_or_data_witness :
    (∃ resp : response.Response,
        (Handler.DeleteAnswer.serve ⟨sampleService⟩ (http.ResponseWriter.fresh [] none)
          (sampleRequest "1" none)).Answered
            (Handler.DeleteAnswer.serve ⟨sampleService⟩ (http.ResponseWriter.fresh [] none)
              (sampleRequest "1" none)).w.status
            (json.objectText (response.members resp) ++ "\n")
        ∧ ((Handler.DeleteAnswer.serve ⟨sampleService⟩ (http.ResponseWriter.fresh [] none)
              (sampleRequest "1" none)).w.status = 400
            ∨ (Handler.DeleteAnswer.serve ⟨sampleService⟩ (http.ResponseWriter.fresh [] none)
              (sampleRequest "1" none)).w.status = 500 →
            response.keys resp = ["status", "error"])
        ∧ ((Handler.DeleteAnswer.serve ⟨sampleService⟩ (http.ResponseWriter.fresh [] none)
              (sampleRequest "1" none)).w.status = 200 →
            response.keys resp
              = if Handler.DeleteAnswer.isDelete then ["status"] else ["status", "data"])
        ∧ ((Handler.DeleteAnswer.serve ⟨sampleService⟩ (http.ResponseWriter.fresh [] none)
              (sampleRequest "1" none)).w.status = 200
            ∨ (Handler.DeleteAnswer.serve ⟨sampleService⟩ (http.ResponseWriter.fresh [] none)
              (sampleRequest "1" none)).w.status = 400
            ∨ (Handler.DeleteAnswer.serve ⟨sampleService⟩ (http.ResponseWriter.fresh [] none)
              (sampleRequest "1" none)).w.status = 500))
    ∧ (serverAPI.GetUsers ⟨emptyService⟩ (http.ResponseWriter.fresh [] none)
        (sampleRequest "" none)).Answered 200 "\x7b\"status\":\"OK\",\"data\":[]\x7d\n"
    ∧ (serverAPI.GetQuestions ⟨emptyService⟩ (http.ResponseWriter.fresh [] none)
        (sampleRequest "" none)).Answered 200 "\x7b\"status\":\"OK\",\"data\":[]\x7d\n" :=
  ⟨(C11_envelope_has_error_or_data .DeleteAnswer ⟨sampleService⟩ [] none
      (sampleRequest "1" none)).1 (by decide),
   (C11_envelope_has_error_or_data .GetUsers ⟨emptyService⟩ [] none
      (sampleRequest "" none)).2.1 rfl,
   (C11_envelope_has_error_or_data .GetQuestions ⟨emptyService⟩ [] none
      (sampleRequest "" none)).2.2 rfl⟩

/-! ### `ReturnResponse` for any final status that allows a body -/

/-- Options that leave the field `Status` alone leave it alone together. -/
theorem foldl_options_status (opts : List response.ResponseOption) (resp : response.Response)
    (hopts : ∀ opt ∈ opts, ∀ r : response.Response, (opt r).Status = r.Status) :
    (opts.foldl (fun r opt => opt r) resp).Status = resp.Status := by
  induction opts generalizing resp with
  | nil => rfl
  | cons opt rest ih =>
    simp only [List.foldl_cons]
    rw [ih _ (fun o ho => hopts o (List.mem_cons_of_mem _ ho))]
    exact hopts opt (List.mem_cons_self _ _) resp

/-- On a fresh writer `ReturnResponse` with a status from 200 to 999 other than 204 and 304
does not panic: it leaves that status line and the envelope built from the options. -/
theorem ReturnResponse_fresh_final (hdr : http.Header) (we : Option GoError) (status : Int)
    (opts : List response.ResponseOption)
    (h200 : 200 ≤ status) (h999 : status ≤ 999) (h204 : status ≠ 204) (h304 : status ≠ 304) :
    response.ReturnResponse (http.ResponseWriter.fresh hdr we) status opts
      = .ok (written hdr we status
          (response.encodeResponse
            (opts.foldl (fun r opt => opt r)
              { Status := http.StatusText status, Error := none, Data := none }) ++ "\n"),
          writeFailure we) := by
  have hb : http.bodyAllowedForStatus status = true := by
    unfold http.bodyAllowedForStatus
    have h1 : ¬ (100 ≤ status ∧ status ≤ 199) := by omega
    simp only [h1, if_false, h204, h304]
  have h1 : ¬ (status < 100 ∨ status > 999) := by omega
  have h2 : ¬ (100 ≤ status ∧ status ≤ 199 ∧ status ≠ 101) := by omega
  cases we <;>
    simp [response.ReturnResponse, http.ResponseWriter.WriteHeader, http.ResponseWriter.fresh,
      response.Encode, http.ResponseWriter.Write, http.ResponseWriter.SetHeader, hb, h1, h2,
      written, writeFailure]

/-- C12, as amended: on a writer whose status line is not written yet, for every status code
c from 200 to 999 other than 204 and 304 and every list of options that leave the field
`Status` alone (as `WithError` and `WithData` do), `ReturnResponse` writes the status line
with c and an envelope whose `status` is `http.StatusText(c)`. Every handler either panics
before it writes anything, or answers 200 with the status field `OK`, 400 with `Bad Request`
or 500 with `Internal Server Error`. -/
theorem C12_status_line_and_status_field (hdr : http.Header) (we : Option GoError) :
    (∀ (c : Int) (opts : List response.ResponseOption), 200 ≤ c → c ≤ 999 → c ≠ 204 →
        c ≠ 304 → (∀ opt ∈ opts, ∀ resp : response.Response, (opt resp).Status = resp.Status) →
        ∃ w resp, response.ReturnResponse (http.ResponseWriter.fresh hdr we) c opts
              = .ok (w, writeFailure we)
            ∧ w.wroteHeader = true ∧ w.status = c
            ∧ resp.Status = http.StatusText c
            ∧ (we = none → w.body = response.encodeResponse resp ++ "\n"))
    ∧ (∀ (code desc : String) (resp : response.Response),
        (response.WithError code desc resp).Status = resp.Status)
    ∧ (∀ (data : response.Data) (resp : response.Response),
        (response.WithData data resp).Status = resp.Status)
    ∧ (∀ (h : Handler) (t : serverAPI) (r : Request),
        ((h.serve t (http.ResponseWriter.fresh hdr we) r).panicked ≠ none
            ∧ (h.serve t (http.ResponseWriter.fresh hdr we) r).w.wroteHeader = false)
          ∨ ∃ resp : response.Response,
              (h.serve t (http.ResponseWriter.fresh hdr we) r).Answered
                (h.serve t (http.ResponseWriter.fresh hdr we) r).w.status
                (response.encodeResponse resp ++ "\n")
              ∧ (((h.serve t (http.ResponseWriter.fresh hdr we) r).w.status = 200
                    ∧ resp.Status = "OK")
                ∨ ((h.serve t (http.ResponseWriter.fresh hdr we) r).w.status = 400
                    ∧ resp.Status = "Bad Request")
                ∨ ((h.serve t (http.ResponseWriter.fresh hdr we) r).w.status = 500
                    ∧ resp.Status = "Internal Server Error"))) := by
  refine ⟨?_, fun _ _ _ => rfl, fun _ _ => rfl, ?_⟩
  · intro c opts h200 h999 h204 h304 hopts
    refine ⟨_, opts.foldl (fun r opt => opt r)
        { Status := http.StatusText c, Error := none, Data := none },
      ReturnResponse_fresh_final hdr we c opts h200 h999 h204 h304, rfl, rfl,
      foldl_options_status opts _ hopts, ?_⟩
    intro hwe
    subst hwe
    rfl
  · intro h t r
    have hr := serve_reply h t hdr we r
    generalize h.serve t (http.ResponseWriter.fresh hdr we) r = o at hr
    cases hr with
    | rejected err code desc hcode =>
      exact Or.inr ⟨failure 400 code desc, finished_Answered _ _ _ _ _ _ _,
        Or.inr (Or.inl ⟨rfl, (by decide : http.StatusText 400 = "Bad Request")⟩)⟩
    | failed c err =>
      exact Or.inr ⟨failure 500 response.ErrCodeInternalServerError "internal server error",
        finished_Answered _ _ _ _ _ _ _,
        Or.inr (Or.inr ⟨rfl, (by decide : http.StatusText 500 = "Internal Server Error")⟩)⟩
    | succeeded c data hdata =>
      exact Or.inr ⟨success data, finished_Answered _ _ _ _ _ _ _,
        Or.inl ⟨rfl, (by decide : http.StatusText 200 = "OK")⟩⟩
    | panicked c hnil =>
      exact Or.inl ⟨by simp, rfl⟩

/-- Witness of C12: status 201 with the two options of the package; the handler part has no
hypothesis. -/
theorem C12_status_line_and_status_field_witness :
    ∃ w resp, response.ReturnResponse (http.ResponseWriter.fresh [] none) 201
          [response.WithError "X" "y", response.WithData (.users none)]
          = .ok (w, writeFailure none)
        ∧ w.wroteHeader = true ∧ w.status = 201
        ∧ resp.Status = http.StatusText 201
        ∧ ((none : Option GoError) = none → w.body = response.encodeResponse resp ++ "\n") :=
  (C12_status_line_and_status_field [] none).1 201
    [response.WithError "X" "y", response.WithData (.users none)]
    (by decide) (by decide) (by decide) (by decide)
    (by
      intro opt hopt resp
      simp only [List.mem_cons, List.mem_singleton, List.not_mem_nil, or_false] at hopt
      rcases hopt with rfl | rfl <;> rfl)

/-- Counterexample to C12 as stated: with the status code 0 `ReturnResponse` panics in
`WriteHeader` and writes nothing; with 100 the status line that ends up written is 200; with
204 the envelope is refused and the body stays empty; and an option that overwrites `Status`
makes the status field differ from the text of the code. -/
theorem C12_counterexample_codes_that_are_not_written :
    response.ReturnResponse (http.ResponseWriter.fresh [] none) 0 []
      = .error "invalid WriteHeader code 0"
    ∧ response.ReturnResponse (http.ResponseWriter.fresh [] none) 100 []
      = .ok ({ handlerHeader := [("Content-Type", "application/json")], wroteHeader := true,
               status := 200, sentHeader := [("Content-Type", "application/json")],
               informational := [100], body := "\x7b\"status\":\"Continue\"\x7d\n",
               writeErr := none }, none)
    ∧ response.ReturnResponse (http.ResponseWriter.fresh [] none) 204 []
      = .ok ({ handlerHeader := [("Content-Type", "application/json")], wroteHeader := true,
               status := 204, sentHeader := [], informational := [], body := "",
               writeErr := none },
          some (.wrap (.new "http: request method or response status code does not allow body")
            "failed to encode and write JSON response"))
    ∧ response.ReturnResponse (http.ResponseWriter.fresh [] none) 200
        [fun resp => { resp with Status := "teapot" }]
      = .ok ({ handlerHeader := [("Content-Type", "application/json")], wroteHeader := true,
               status := 200, sentHeader := [], informational := [],
               body := "\x7b\"status\":\"teapot\"\x7d\n", writeErr := none }, none) :=
  ⟨by rfl, by rfl, by rfl, by rfl⟩

/-- C13, at the failing input: GetUsers on a writer with no header set answers 200, the
header set in force when the status line was written is empty, so `Content-Type` is not part
of it; `application/json` is in the handler's header map only, set after the status line. -/
theorem C13_content_type_is_set_after_the_status_line :
    (serverAPI.GetUsers ⟨sampleService⟩ (http.ResponseWriter.fresh [] none)
        (sampleRequest "" none)).w.status = 200
    ∧ (serverAPI.GetUsers ⟨sampleService⟩ (http.ResponseWriter.fresh [] none)
        (sampleRequest "" none)).w.sentHeader = []
    ∧ http.Header.Get (serverAPI.GetUsers ⟨sampleService⟩ (http.ResponseWriter.fresh [] none)
        (sampleRequest "" none)).w.sentHeader "Content-Type" = ""
    ∧ http.Header.Get (serverAPI.GetUsers ⟨sampleService⟩ (http.ResponseWriter.fresh [] none)
        (sampleRequest "" none)).w.handlerHeader "Content-Type" = "application/json" := by
  decide

/-- Whatever the handler and the request, the headers sent with its status line are the
headers that were set before the handler ran: `ReturnResponse` adds none in time. -/
theorem serve_sentHeader (h : Handler) (t : serverAPI) (hdr : http.Header)
    (we : Option GoError) (r : Request)
    (hw : (h.serve t (http.ResponseWriter.fresh hdr we) r).w.wroteHeader = true) :
    (h.serve t (http.ResponseWriter.fresh hdr we) r).w.sentHeader = hdr := by
  have hr := serve_reply h t hdr we r
  generalize h.serve t (http.ResponseWriter.fresh hdr we) r = o at hr hw
  cases hr with
  | rejected err code desc hcode => rfl
  | failed c err => rfl
  | succeeded c data hdata => rfl
  | panicked c hnil => cases hw

/-! ### What the logging middleware reads back -/

/-- The status `UpdateContext` stored is the one `ctx.Value(CtxKeyStatus)` finds. -/
theorem Value_status_UpdateContext (ctx : middleware.Context) (r : Request) (status : Int)
    (errorList : List GoError) :
    middleware.Value (middleware.UpdateContext ctx r status errorList).ctx
      middleware.CtxKeyStatus = some (.int status) := by
  simp [middleware.UpdateContext, middleware.WithValue, middleware.Value,
    middleware.CtxKeyStatus, middleware.CtxKeyErrorList, List.find?]

/-- The error list `UpdateContext` stored is the one `ctx.Value(CtxKeyErrorList)` finds. -/
theorem Value_errorList_UpdateContext (ctx : middleware.Context) (r : Request) (status : Int)
    (errorList : List GoError) :
    middleware.Value (middleware.UpdateContext ctx r status errorList).ctx
      middleware.CtxKeyErrorList = some (.errors errorList) := by
  simp [middleware.UpdateContext, middleware.WithValue, middleware.Value,
    middleware.CtxKeyErrorList, List.find?]

/-- The lines `LoggMiddleware` logs around a handler that returned after one
`UpdateContext`. -/
theorem LoggMiddleware_lines (next : http.ResponseWriter → Request → Outcome)
    (w : http.ResponseWriter) (r : Request) (status : Int) (errorList : List GoError)
    (hp : (next w r).panicked = none)
    (hr : (next w r).r = middleware.UpdateContext r.Context r status errorList) :
    (middleware.LoggMiddleware next w r).1
      = [{ level := .info, tag := "[START]", status := none, errorList := [] },
         if errorList.length > 0 then
           { level := .error, tag := "[ERROR]", status := some status, errorList := errorList }
         else { level := .info, tag := "[ END ]", status := some status, errorList := [] }] := by
  unfold middleware.LoggMiddleware
  simp only [hp, Request.Context, hr, Value_status_UpdateContext,
    Value_errorList_UpdateContext]
  split_ifs <;> rfl

/-- C20: whenever a handler returns, the request it leaves is the incoming request after
exactly one `UpdateContext`, with the status of the status line it wrote and an error list;
when the connection took the response that list is non-empty exactly when the status is not
200, and `LoggMiddleware` around the handler logs its second line at error level exactly
when the status is 400 or 500, printing that status. -/
theorem C20_logged_status_is_the_written_status (h : Handler) (t : serverAPI)
    (hdr : http.Header) (we : Option GoError) (r : Request) :
    (h.serve t (http.ResponseWriter.fresh hdr we) r).panicked = none →
      ∃ errorList : List GoError,
        (h.serve t (http.ResponseWriter.fresh hdr we) r).r
            = middleware.UpdateContext r.Context r
                (h.serve t (http.ResponseWriter.fresh hdr we) r).w.status errorList
        ∧ middleware.Value (h.serve t (http.ResponseWriter.fresh hdr we) r).r.Context
              middleware.CtxKeyStatus
            = some (.int (h.serve t (http.ResponseWriter.fresh hdr we) r).w.status)
        ∧ (h.serve t (http.ResponseWriter.fresh hdr we) r).w.wroteHeader = true
        ∧ (we = none →
            (errorList ≠ [] ↔ (h.serve t (http.ResponseWriter.fresh hdr we) r).w.status ≠ 200)
            ∧ ∃ line : middleware.LogLine,
                (middleware.LoggMiddleware (h.serve t) (http.ResponseWriter.fresh hdr we) r).1
                  = [{ level := .info, tag := "[START]", status := none, errorList := [] },
                     line]
                ∧ line.status
                  = some (h.serve t (http.ResponseWriter.fresh hdr we) r).w.status
                ∧ (line.level = .error ↔
                    (h.serve t (http.ResponseWriter.fresh hdr we) r).w.status = 400
                    ∨ (h.serve t (http.ResponseWriter.fresh hdr we) r).w.status = 500)) := by
  intro hp
  have hr := serve_reply h t hdr we r
  have hlines := fun status errorList =>
    LoggMiddleware_lines (h.serve t) (http.ResponseWriter.fresh hdr we) r status errorList hp
  generalize h.serve t (http.ResponseWriter.fresh hdr we) r = o at hr hp hlines
  cases hr with
  | rejected err code desc hcode =>
    refine ⟨appendIfErr [err] (writeFailure we), rfl, Value_status_UpdateContext _ _ _ _, rfl,
      ?_⟩
    intro hwe
    subst hwe
    refine ⟨by simp [appendIfErr, writeFailure, finished, written], _,
      hlines 400 [err] rfl, rfl, ?_⟩
    simp [finished, written]
  | failed c err =>
    refine ⟨appendIfErr [err] (writeFailure we), rfl, Value_status_UpdateContext _ _ _ _, rfl,
      ?_⟩
    intro hwe
    subst hwe
    refine ⟨by simp [appendIfErr, writeFailure, finished, written], _,
      hlines 500 [err] rfl, rfl, ?_⟩
    simp [finished, written]
  | succeeded c data hdata =>
    refine ⟨appendIfErr [] (writeFailure we), rfl, Value_status_UpdateContext _ _ _ _, rfl,
      ?_⟩
    intro hwe
    subst hwe
    refine ⟨by simp [appendIfErr, writeFailure, finished, written], _,
      hlines 200 [] rfl, rfl, ?_⟩
    simp [finished, written]
  | panicked c hnil => cases hp

/-- Witness of C20: DeleteUser of the sample service with a path id that is no UUID. -/
theorem C20_logged_status_is_the_written_status_witness :
    ∃ errorList : List GoError,
      (Handler.DeleteUser.serve ⟨sampleService⟩ (http.ResponseWriter.fresh [] none)
          (sampleRequest "x" none)).r
          = middleware.UpdateContext (sampleRequest "x" none).Context (sampleRequest "x" none)
              (Handler.DeleteUser.serve ⟨sampleService⟩ (http.ResponseWriter.fresh [] none)
                (sampleRequest "x" none)).w.status errorList
      ∧ middleware.Value (Handler.DeleteUser.serve ⟨sampleService⟩
            (http.ResponseWriter.fresh [] none) (sampleRequest "x" none)).r.Context
            middleware.CtxKeyStatus
          = some (.int (Handler.DeleteUser.serve ⟨sampleService⟩
              (http.ResponseWriter.fresh [] none) (sampleRequest "x" none)).w.status)
      ∧ (Handler.DeleteUser.serve ⟨sampleService⟩ (http.ResponseWriter.fresh [] none)
          (sampleRequest "x" none)).w.wroteHeader = true
      ∧ ((none : Option GoError) = none →
          (errorList ≠ [] ↔ (Handler.DeleteUser.serve ⟨sampleService⟩
              (http.ResponseWriter.fresh [] none) (sampleRequest "x" none)).w.status ≠ 200)
          ∧ ∃ line : middleware.LogLine,
              (middleware.LoggMiddleware (Handler.DeleteUser.serve ⟨sampleService⟩)
                  (http.ResponseWriter.fresh [] none) (sampleRequest "x" none)).1
                = [{ level := .info, tag := "[START]", status := none, errorList := [] }, line]
              ∧ line.status
                = some (Handler.DeleteUser.serve ⟨sampleService⟩
                    (http.ResponseWriter.fresh [] none) (sampleRequest "x" none)).w.status
              ∧ (line.level = .error ↔
                  (Handler.DeleteUser.serve ⟨sampleService⟩ (http.ResponseWriter.fresh [] none)
                      (sampleRequest "x" none)).w.status = 400
                  ∨ (Handler.DeleteUser.serve ⟨sampleService⟩
                      (http.ResponseWriter.fresh [] none)
                      (sampleRequest "x" none)).w.status = 500)) :=
  C20_logged_status_is_the_written_status .DeleteUser ⟨sampleService⟩ [] none
    (sampleRequest "x" none) (by decide)

end rest

/-! ### Wrapped errors -/

/-- An error is itself in the sense of `errors.Is`. -/
theorem GoError.Is_self (e : GoError) : e.Is e = true := by
  cases e <;> simp [GoError.Is]

/-- An error that wraps `e` is `e` in the sense of `errors.Is`. -/
theorem GoError.Is_wrap (e : GoError) (msg : String) : (GoError.wrap e msg).Is e = true := by
  simp [GoError.Is, GoError.Is_self]

/-- The root cause of an error that wraps `e` is the root cause of `e`. -/
theorem GoError.Cause_wrap (e : GoError) (msg : String) :
    (GoError.wrap e msg).Cause = e.Cause := rfl

/-- The message of an error that wraps `e`. -/
theorem GoError.Error_wrap (libText : GoError → String) (e : GoError) (msg : String) :
    (GoError.wrap e msg).Error libText = msg ++ ": " ++ e.Error libText := rfl

/-! ### The use-case layer -/

/-- C14, as amended: each of the ten methods of `QNACrud` makes exactly one call, on the one
gateway method that is its own, with its own arguments; when the gateway returns no error the
method returns the result of the gateway and no error; when the gateway returns the error e
the method returns the zero result and an error that wraps e: `errors.Is` finds e in it, and
its root cause in the sense of `errors.Cause` is the root cause of e (e itself when e wraps
nothing). -/
theorem C14_usecase_delegates_and_wraps :
    (∀ (t : usecase.QNACrud) (userName : String),
      (t.CreateUser userName).2.userManager.calls = t.userManager.calls ++ [usecase.GatewayCall.CreateUser userName]
      ∧ (t.CreateUser userName).2.qnaManager.calls = t.qnaManager.calls
      ∧ (∀ x, t.userManager.createUser userName = (x, none) → (t.CreateUser userName).1 = (x, none))
      ∧ (∀ x e, t.userManager.createUser userName = (x, some e) →
          ∃ err, (t.CreateUser userName).1 = (none, some err) ∧ err.Is e = true
            ∧ err.Cause = e.Cause))
    ∧
    (∀ (t : usecase.QNACrud),
      (t.GetUsers).2.userManager.calls = t.userManager.calls ++ [usecase.GatewayCall.ReadUsers]
      ∧ (t.GetUsers).2.qnaManager.calls = t.qnaManager.calls
      ∧ (∀ x, t.userManager.readUsers = (x, none) → (t.GetUsers).1 = (x, none))
      ∧ (∀ x e, t.userManager.readUsers = (x, some e) →
          ∃ err, (t.GetUsers).1 = (none, some err) ∧ err.Is e = true
            ∧ err.Cause = e.Cause))
    ∧
    (∀ (t : usecase.QNACrud) (userId : String),
      (t.DeleteUser userId).2.userManager.calls = t.userManager.calls ++ [usecase.GatewayCall.DeleteUser userId]
      ∧ (t.DeleteUser userId).2.qnaManager.calls = t.qnaManager.calls
      ∧ (t.userManager.deleteUser userId = none → (t.DeleteUser userId).1 = none)
      ∧ (∀ e, t.userManager.deleteUser userId = some e →
          ∃ err, (t.DeleteUser userId).1 = some err ∧ err.Is e = true ∧ err.Cause = e.Cause))
    ∧
    (∀ (t : usecase.QNACrud),
      (t.GetQuestions).2.qnaManager.calls = t.qnaManager.calls ++ [usecase.GatewayCall.ReadQuestions]
      ∧ (t.GetQuestions).2.userManager.calls = t.userManager.calls
      ∧ (∀ x, t.qnaManager.readQuestions = (x, none) → (t.GetQuestions).1 = (x, none))
      ∧ (∀ x e, t.qnaManager.readQuestions = (x, some e) →
          ∃ err, (t.GetQuestions).1 = (none, some err) ∧ err.Is e = true
            ∧ err.Cause = e.Cause))
    ∧
    (∀ (t : usecase.QNACrud) (question : String),
      (t.CreateQuestion question).2.qnaManager.calls = t.qnaManager.calls ++ [usecase.GatewayCall.CreateQuestion question]
      ∧ (t.CreateQuestion question).2.userManager.calls = t.userManager.calls
      ∧ (∀ x, t.qnaManager.createQuestion question = (x, none) → (t.CreateQuestion question).1 = (x, none))
      ∧ (∀ x e, t.qnaManager.createQuestion question = (x, some e) →
          ∃ err, (t.CreateQuestion question).1 = (0, some err) ∧ err.Is e = true
            ∧ err.Cause = e.Cause))
    ∧
    (∀ (t : usecase.QNACrud) (questionId : Int),
      (t.GetQuestionAndAnswers questionId).2.qnaManager.calls = t.qnaManager.calls ++ [usecase.GatewayCall.ReadQuestionAndAnswers questionId]
      ∧ (t.GetQuestionAndAnswers questionId).2.userManager.calls = t.userManager.calls
      ∧ (∀ x y, t.qnaManager.readQuestionAndAnswers questionId = (x, y, none) → (t.GetQuestionAndAnswers questionId).1 = (x, y, none))
      ∧ (∀ x y e, t.qnaManager.readQuestionAndAnswers questionId = (x, y, some e) →
          ∃ err, (t.GetQuestionAndAnswers questionId).1 = (none, none, some err) ∧ err.Is e = true
            ∧ err.Cause = e.Cause))
    ∧
    (∀ (t : usecase.QNACrud) (questionId : Int),
      (t.DeleteQuestionAndAnswers questionId).2.qnaManager.calls = t.qnaManager.calls ++ [usecase.GatewayCall.DeleteQuestionAndAnswers questionId]
      ∧ (t.DeleteQuestionAndAnswers questionId).2.userManager.calls = t.userManager.calls
      ∧ (t.qnaManager.deleteQuestionAndAnswers questionId = none → (t.DeleteQuestionAndAnswers questionId).1 = none)
      ∧ (∀ e, t.qnaManager.deleteQuestionAndAnswers questionId = some e →
          ∃ err, (t.DeleteQuestionAndAnswers questionId).1 = some err ∧ err.Is e = true ∧ err.Cause = e.Cause))
    ∧
    (∀ (t : usecase.QNACrud) (answer : domain.Answer),
      (t.CreateAnswerToQuestion answer).2.qnaManager.calls = t.qnaManager.calls ++ [usecase.GatewayCall.CreateAnswerToQuestion answer]
      ∧ (t.CreateAnswerToQuestion answer).2.userManager.calls = t.userManager.calls
      ∧ (∀ x, t.qnaManager.createAnswerToQuestion answer = (x, none) → (t.CreateAnswerToQuestion answer).1 = (x, none))
      ∧ (∀ x e, t.qnaManager.createAnswerToQuestion answer = (x, some e) →
          ∃ err, (t.CreateAnswerToQuestion answer).1 = (0, some err) ∧ err.Is e = true
            ∧ err.Cause = e.Cause))
    ∧
    (∀ (t : usecase.QNACrud) (answerId : Int),
      (t.GetAnswer answerId).2.qnaManager.calls = t.qnaManager.calls ++ [usecase.GatewayCall.ReadAnswer answerId]
      ∧ (t.GetAnswer answerId).2.userManager.calls = t.userManager.calls
      ∧ (∀ x, t.qnaManager.readAnswer answerId = (x, none) → (t.GetAnswer answerId).1 = (x, none))
      ∧ (∀ x e, t.qnaManager.readAnswer answerId = (x, some e) →
          ∃ err, (t.GetAnswer answerId).1 = (none, some err) ∧ err.Is e = true
            ∧ err.Cause = e.Cause))
    ∧
    (∀ (t : usecase.QNACrud) (answerId : Int),
      (t.DeleteAnswer answerId).2.qnaManager.calls = t.qnaManager.calls ++ [usecase.GatewayCall.DeleteAnswer answerId]
      ∧ (t.DeleteAnswer answerId).2.userManager.calls = t.userManager.calls
      ∧ (t.qnaManager.deleteAnswer answerId = none → (t.DeleteAnswer answerId).1 = none)
      ∧ (∀ e, t.qnaManager.deleteAnswer answerId = some e →
          ∃ err, (t.DeleteAnswer answerId).1 = some err ∧ err.Is e = true ∧ err.Cause = e.Cause)) := by
  refine ⟨?_, ?_, ?_, ?_, ?_, ?_, ?_, ?_, ?_, ?_⟩
  · intro t userName
    rcases h : t.userManager.createUser userName with ⟨x, _ | e⟩ <;>
      simp [usecase.QNACrud.CreateUser, usecase.UserManager.CreateUser, usecase.UserManager.record, h,
        GoError.Is_wrap, GoError.Cause_wrap]
  · intro t
    rcases h : t.userManager.readUsers with ⟨x, _ | e⟩ <;>
      simp [usecase.QNACrud.GetUsers, usecase.UserManager.ReadUsers, usecase.UserManager.record, h,
        GoError.Is_wrap, GoError.Cause_wrap]
  · intro t userId
    rcases h : t.userManager.deleteUser userId with _ | e <;>
      simp [usecase.QNACrud.DeleteUser, usecase.UserManager.DeleteUser, usecase.UserManager.record, h,
        GoError.Is_wrap, GoError.Cause_wrap]
  · intro t
    rcases h : t.qnaManager.readQuestions with ⟨x, _ | e⟩ <;>
      simp [usecase.QNACrud.GetQuestions, usecase.QNAManager.ReadQuestions, usecase.QNAManager.record, h,
        GoError.Is_wrap, GoError.Cause_wrap]
  · intro t question
    rcases h : t.qnaManager.createQuestion question with ⟨x, _ | e⟩ <;>
      simp [usecase.QNACrud.CreateQuestion, usecase.QNAManager.CreateQuestion, usecase.QNAManager.record, h,
        GoError.Is_wrap, GoError.Cause_wrap]
  · intro t questionId
    rcases h : t.qnaManager.readQuestionAndAnswers questionId with ⟨x, y, _ | e⟩ <;>
      simp [usecase.QNACrud.GetQuestionAndAnswers, usecase.QNAManager.ReadQuestionAndAnswers, usecase.QNAManager.record, h,
        GoError.Is_wrap, GoError.Cause_wrap]
  · intro t questionId
    rcases h : t.qnaManager.deleteQuestionAndAnswers questionId with _ | e <;>
      simp [usecase.QNACrud.DeleteQuestionAndAnswers, usecase.QNAManager.DeleteQuestionAndAnswers, usecase.QNAManager.record, h,
        GoError.Is_wrap, GoError.Cause_wrap]
  · intro t answer
    rcases h : t.qnaManager.createAnswerToQuestion answer with ⟨x, _ | e⟩ <;>
      simp [usecase.QNACrud.CreateAnswerToQuestion, usecase.QNAManager.CreateAnswerToQuestion, usecase.QNAManager.record, h,
        GoError.Is_wrap, GoError.Cause_wrap]
  · intro t answerId
    rcases h : t.qnaManager.readAnswer answerId with ⟨x, _ | e⟩ <;>
      simp [usecase.QNACrud.GetAnswer, usecase.QNAManager.ReadAnswer, usecase.QNAManager.record, h,
        GoError.Is_wrap, GoError.Cause_wrap]
  · intro t answerId
    rcases h : t.qnaManager.deleteAnswer answerId with _ | e <;>
      simp [usecase.QNACrud.DeleteAnswer, usecase.QNAManager.DeleteAnswer, usecase.QNAManager.record, h,
        GoError.Is_wrap, GoError.Cause_wrap]

/-- Witness of C14: on the store that affects no row the gateway answers DeleteAnswer with
not-found wrapped by the repository, and `QNACrud.DeleteAnswer` makes that one call and
returns an error that wraps the error of the gateway; on the sample store the gateway finds
answer 1 and `QNACrud.GetAnswer` returns it as it is. -/
theorem C14_usecase_delegates_and_wraps_witness :
    ((usecase.serviceOf db.idleRepository ()).DeleteAnswer 7).2.qnaManager.calls
        = [usecase.GatewayCall.DeleteAnswer 7]
    ∧ (∃ err, ((usecase.serviceOf db.idleRepository ()).DeleteAnswer 7).1 = some err
        ∧ err.Is (.wrap db.ErrNotFound
            "internal/infrastructure/db/repository.Repository.DeleteAnswer") = true
        ∧ err.Cause = GoError.Cause (.wrap db.ErrNotFound
            "internal/infrastructure/db/repository.Repository.DeleteAnswer"))
    ∧ ((usecase.serviceOf db.Database.repository db.Database.sample).GetAnswer 1).1
        = (some { Id := 1, QuestionId := 1, UserId := db.Database.userKey 0, Text := "42" },
            none) :=
  ⟨(C14_usecase_delegates_and_wraps.2.2.2.2.2.2.2.2.2
      (usecase.serviceOf db.idleRepository ()) 7).1,
   (C14_usecase_delegates_and_wraps.2.2.2.2.2.2.2.2.2
      (usecase.serviceOf db.idleRepository ()) 7).2.2.2 _ rfl,
   (C14_usecase_delegates_and_wraps.2.2.2.2.2.2.2.2.1
      (usecase.serviceOf db.Database.repository db.Database.sample) 1).2.2.1 _ rfl⟩

/-- Counterexample to C14 as stated: the repository answers DeleteAnswer on a store that
affects no row with the error e that wraps `ErrNotFound`; the cause `errors.Cause` finds in
the error `QNACrud.DeleteAnswer` returns is `ErrNotFound`, the root of the chain, and not
e. -/
theorem C14_counterexample_cause_is_the_root_cause :
    (usecase.serviceOf db.idleRepository ()).qnaManager.deleteAnswer 7
        = some (.wrap db.ErrNotFound
            "internal/infrastructure/db/repository.Repository.DeleteAnswer")
    ∧ ((usecase.serviceOf db.idleRepository ()).DeleteAnswer 7).1
        = some (.wrap (.wrap db.ErrNotFound
            "internal/infrastructure/db/repository.Repository.DeleteAnswer")
            "internal/usecase/service.QNACrud.DeleteAnswer")
    ∧ GoError.Cause (.wrap (.wrap db.ErrNotFound
            "internal/infrastructure/db/repository.Repository.DeleteAnswer")
            "internal/usecase/service.QNACrud.DeleteAnswer") = db.ErrNotFound
    ∧ GoError.Cause (.wrap (.wrap db.ErrNotFound
            "internal/infrastructure/db/repository.Repository.DeleteAnswer")
            "internal/usecase/service.QNACrud.DeleteAnswer")
        ≠ .wrap db.ErrNotFound "internal/infrastructure/db/repository.Repository.DeleteAnswer" :=
  ⟨rfl, rfl, rfl, by decide⟩

/-- The other nine methods of `QNACrud`: when the gateway fails with the error e, the message
of the error the method returns is `internal/usecase/service.QNACrud.`, the name of the
method, a colon and a blank, and the message of e. -/
theorem QNACrud_error_names_the_method (libText : GoError → String) :
    (∀ (t : usecase.QNACrud) (userName : String) x e, t.userManager.createUser userName = (x, some e) →
      (t.CreateUser userName).1.2.map (GoError.Error libText)
        = some ("internal/usecase/service.QNACrud.CreateUser" ++ ": " ++ e.Error libText))
    ∧
    (∀ (t : usecase.QNACrud) x e, t.userManager.readUsers = (x, some e) →
      (t.GetUsers).1.2.map (GoError.Error libText)
        = some ("internal/usecase/service.QNACrud.GetUsers" ++ ": " ++ e.Error libText))
    ∧
    (∀ (t : usecase.QNACrud) x e, t.qnaManager.readQuestions = (x, some e) →
      (t.GetQuestions).1.2.map (GoError.Error libText)
        = some ("internal/usecase/service.QNACrud.GetQuestions" ++ ": " ++ e.Error libText))
    ∧
    (∀ (t : usecase.QNACrud) (question : String) x e, t.qnaManager.createQuestion question = (x, some e) →
      (t.CreateQuestion question).1.2.map (GoError.Error libText)
        = some ("internal/usecase/service.QNACrud.CreateQuestion" ++ ": " ++ e.Error libText))
    ∧
    (∀ (t : usecase.QNACrud) (questionId : Int) x y e, t.qnaManager.readQuestionAndAnswers questionId = (x, y, some e) →
      (t.GetQuestionAndAnswers questionId).1.2.2.map (GoError.Error libText)
        = some ("internal/usecase/service.QNACrud.GetQuestionAndAnswers" ++ ": " ++ e.Error libText))
    ∧
    (∀ (t : usecase.QNACrud) (questionId : Int) e, t.qnaManager.deleteQuestionAndAnswers questionId = some e →
      (t.DeleteQuestionAndAnswers questionId).1.map (GoError.Error libText)
        = some ("internal/usecase/service.QNACrud.DeleteQuestionAndAnswers" ++ ": " ++ e.Error libText))
    ∧
    (∀ (t : usecase.QNACrud) (answer : domain.Answer) x e, t.qnaManager.createAnswerToQuestion answer = (x, some e) →
      (t.CreateAnswerToQuestion answer).1.2.map (GoError.Error libText)
        = some ("internal/usecase/service.QNACrud.CreateAnswerToQuestion" ++ ": " ++ e.Error libText))
    ∧
    (∀ (t : usecase.QNACrud) (answerId : Int) x e, t.qnaManager.readAnswer answerId = (x, some e) →
      (t.GetAnswer answerId).1.2.map (GoError.Error libText)
        = some ("internal/usecase/service.QNACrud.GetAnswer" ++ ": " ++ e.Error libText))
    ∧
    (∀ (t : usecase.QNACrud) (answerId : Int) e, t.qnaManager.deleteAnswer answerId = some e →
      (t.DeleteAnswer answerId).1.map (GoError.Error libText)
        = some ("internal/usecase/service.QNACrud.DeleteAnswer" ++ ": " ++ e.Error libText)) := by
  refine ⟨?_, ?_, ?_, ?_, ?_, ?_, ?_, ?_, ?_⟩
  · intro t userName x e h
    simp [usecase.QNACrud.CreateUser, usecase.UserManager.CreateUser, h, GoError.Error]
  · intro t x e h
    simp [usecase.QNACrud.GetUsers, usecase.UserManager.ReadUsers, h, GoError.Error]
  · intro t x e h
    simp [usecase.QNACrud.GetQuestions, usecase.QNAManager.ReadQuestions, h, GoError.Error]
  · intro t question x e h
    simp [usecase.QNACrud.CreateQuestion, usecase.QNAManager.CreateQuestion, h, GoError.Error]
  · intro t questionId x y e h
    simp [usecase.QNACrud.GetQuestionAndAnswers, usecase.QNAManager.ReadQuestionAndAnswers, h, GoError.Error]
  · intro t questionId e h
    simp [usecase.QNACrud.DeleteQuestionAndAnswers, usecase.QNAManager.DeleteQuestionAndAnswers, h, GoError.Error]
  · intro t answer x e h
    simp [usecase.QNACrud.CreateAnswerToQuestion, usecase.QNAManager.CreateAnswerToQuestion, h, GoError.Error]
  · intro t answerId x e h
    simp [usecase.QNACrud.GetAnswer, usecase.QNAManager.ReadAnswer, h, GoError.Error]
  · intro t answerId e h
    simp [usecase.QNACrud.DeleteAnswer, usecase.QNAManager.DeleteAnswer, h, GoError.Error]

/-- The texts that `QNACrud.DeleteUser` uses and the text of its own name differ, whatever
follows them. -/
theorem op_GetUsers_ne_DeleteUser (x : String) :
    "internal/usecase/service.QNACrud.GetUsers" ++ ": " ++ x
      ≠ "internal/usecase/service.QNACrud.DeleteUser" ++ ": " ++ x := by
  intro h
  have h2 := congrArg String.data h
  simp only [String.data_append] at h2
  revert h2
  simp

/-- C15, for `DeleteUser`: when the gateway fails with the error e, the message of the error
`QNACrud.DeleteUser` returns is `internal/usecase/service.QNACrud.GetUsers: ` followed by the
message of e: the operation it names is GetUsers, not the method that was called. -/
theorem C15_delete_user_error_names_get_users (libText : GoError → String)
    (t : usecase.QNACrud) (userId : String) (e : GoError)
    (h : t.userManager.deleteUser userId = some e) :
    ∃ err, (t.DeleteUser userId).1 = some err
      ∧ err.Error libText
          = "internal/usecase/service.QNACrud.GetUsers" ++ ": " ++ e.Error libText
      ∧ err.Error libText
          ≠ "internal/usecase/service.QNACrud.DeleteUser" ++ ": " ++ e.Error libText := by
  refine ⟨.wrap e "internal/usecase/service.QNACrud.GetUsers", ?_, rfl, ?_⟩
  · simp [usecase.QNACrud.DeleteUser, usecase.UserManager.DeleteUser, h]
  · exact op_GetUsers_ne_DeleteUser _

/-- Witness of C15: on the store that affects no row, the message of the error of
`QNACrud.DeleteUser` names GetUsers. -/
theorem C15_delete_user_error_names_get_users_witness :
    (usecase.serviceOf db.idleRepository ()).userManager.deleteUser "x"
        = some (.wrap db.ErrNotFound
            "internal/infrastructure/db/repository.Repository.DeleteUser")
    ∧ ∃ err, ((usecase.serviceOf db.idleRepository ()).DeleteUser "x").1 = some err
      ∧ err.Error noLibText
          = "internal/usecase/service.QNACrud.GetUsers" ++ ": "
              ++ GoError.Error noLibText (.wrap db.ErrNotFound
                  "internal/infrastructure/db/repository.Repository.DeleteUser")
      ∧ err.Error noLibText
          ≠ "internal/usecase/service.QNACrud.DeleteUser" ++ ": "
              ++ GoError.Error noLibText (.wrap db.ErrNotFound
                  "internal/infrastructure/db/repository.Repository.DeleteUser") :=
  ⟨rfl, C15_delete_user_error_names_get_users noLibText
    (usecase.serviceOf db.idleRepository ()) "x" _ rfl⟩

/-- The message `QNACrud.DeleteUser` gives on the store that affects no row, in full. -/
theorem DeleteUser_message :
    ((usecase.serviceOf db.idleRepository ()).DeleteUser "x").1.map (GoError.Error noLibText)
      = some ("internal/usecase/service.QNACrud.GetUsers: "
          ++ "internal/infrastructure/db/repository.Repository.DeleteUser: not found") := by
  decide

/-! ### The repository -/

/-- C16: for the six mutating operations of `Repository`, over every store and every state:
when the store reports no error and zero affected rows the operation returns an error whose
cause is `ErrNotFound` (and a nil id or the id 0 for the creates); when the store reports no
error and at least one affected row it returns a nil error (and for a create the id of the
row as the store left it). -/
theorem C16_zero_rows_is_not_found {σ : Type} (r : db.Repository σ) (s : σ) :
    (∀ userName row n s',
        r.db.createUser s { Id := "", Name := userName, CreatedAt := 0 }
          = ((row, { Error := none, RowsAffected := n }), s') →
        (n = 0 → ∃ err, r.CreateUser s userName = ((none, some err), s')
          ∧ err.Cause = db.ErrNotFound)
        ∧ (1 ≤ n → r.CreateUser s userName = ((some row.Id, none), s')))
    ∧ (∀ userId n s',
        r.db.deleteUser s userId = ({ Error := none, RowsAffected := n }, s') →
        (n = 0 → ∃ err, r.DeleteUser s userId = (some err, s') ∧ err.Cause = db.ErrNotFound)
        ∧ (1 ≤ n → r.DeleteUser s userId = (none, s')))
    ∧ (∀ question row n s',
        r.db.createQuestion s { Id := 0, Text := question, CreatedAt := 0 }
          = ((row, { Error := none, RowsAffected := n }), s') →
        (n = 0 → ∃ err, r.CreateQuestion s question = ((0, some err), s')
          ∧ err.Cause = db.ErrNotFound)
        ∧ (1 ≤ n → r.CreateQuestion s question = ((row.Id, none), s')))
    ∧ (∀ questionId n s',
        r.db.deleteQuestion s questionId = ({ Error := none, RowsAffected := n }, s') →
        (n = 0 → ∃ err, r.DeleteQuestionAndAnswers s questionId = (some err, s')
          ∧ err.Cause = db.ErrNotFound)
        ∧ (1 ≤ n → r.DeleteQuestionAndAnswers s questionId = (none, s')))
    ∧ (∀ (answer : domain.Answer) row n s',
        r.db.createAnswer s
            { Id := 0, QuestionId := answer.QuestionId, UserId := answer.UserId,
              Text := answer.Text, CreatedAt := 0,
              Question := { Id := 0, Text := "", CreatedAt := 0 },
              User := { Id := "", Name := "", CreatedAt := 0 } }
          = ((row, { Error := none, RowsAffected := n }), s') →
        (n = 0 → ∃ err, r.CreateAnswerToQuestion s answer = ((0, some err), s')
          ∧ err.Cause = db.ErrNotFound)
        ∧ (1 ≤ n → r.CreateAnswerToQuestion s answer = ((row.Id, none), s')))
    ∧ (∀ answerId n s',
        r.db.deleteAnswer s answerId = ({ Error := none, RowsAffected := n }, s') →
        (n = 0 → ∃ err, r.DeleteAnswer s answerId = (some err, s') ∧ err.Cause = db.ErrNotFound)
        ∧ (1 ≤ n → r.DeleteAnswer s answerId = (none, s'))) := by
  refine ⟨?_, ?_, ?_, ?_, ?_, ?_⟩
  · intro userName row n s' h
    refine ⟨fun hn => ?_, fun hn => ?_⟩
    · subst hn
      simp [db.Repository.CreateUser, h, GoError.Cause, db.ErrNotFound]
    · have hne : n ≠ 0 := by omega
      simp [db.Repository.CreateUser, h, hne]
  · intro userId n s' h
    refine ⟨fun hn => ?_, fun hn => ?_⟩
    · subst hn
      simp [db.Repository.DeleteUser, h, GoError.Cause, db.ErrNotFound]
    · have hne : n ≠ 0 := by omega
      simp [db.Repository.DeleteUser, h, hne]
  · intro question row n s' h
    refine ⟨fun hn => ?_, fun hn => ?_⟩
    · subst hn
      simp [db.Repository.CreateQuestion, h, GoError.Cause, db.ErrNotFound]
    · have hne : n ≠ 0 := by omega
      simp [db.Repository.CreateQuestion, h, hne]
  · intro questionId n s' h
    refine ⟨fun hn => ?_, fun hn => ?_⟩
    · subst hn
      simp [db.Repository.DeleteQuestionAndAnswers, h, GoError.Cause, db.ErrNotFound]
    · have hne : n ≠ 0 := by omega
      simp [db.Repository.DeleteQuestionAndAnswers, h, hne]
  · intro answer row n s' h
    refine ⟨fun hn => ?_, fun hn => ?_⟩
    · subst hn
      simp [db.Repository.CreateAnswerToQuestion, h, GoError.Cause, db.ErrNotFound]
    · have hne : n ≠ 0 := by omega
      simp [db.Repository.CreateAnswerToQuestion, h, hne]
  · intro answerId n s' h
    refine ⟨fun hn => ?_, fun hn => ?_⟩
    · subst hn
      simp [db.Repository.DeleteAnswer, h, GoError.Cause, db.ErrNotFound]
    · have hne : n ≠ 0 := by omega
      simp [db.Repository.DeleteAnswer, h, hne]

/-- Witness of C16: on the store that affects no row `DeleteAnswer` and `CreateQuestion`
return not-found, and on the sample store `DeleteAnswer` of answer 1 and `CreateQuestion`
return no error. -/
theorem C16_zero_rows_is_not_found_witness :
    (∃ err, db.idleRepository.DeleteAnswer () 7 = (some err, ())
        ∧ err.Cause = db.ErrNotFound)
    ∧ (∃ err, db.idleRepository.CreateQuestion () "what?" = ((0, some err), ())
        ∧ err.Cause = db.ErrNotFound)
    ∧ (db.Database.repository.DeleteAnswer db.Database.sample 1).1 = none
    ∧ (db.Database.repository.CreateQuestion db.Database.sample "how?").1 = (3, none) :=
  ⟨((C16_zero_rows_is_not_found db.idleRepository ()).2.2.2.2.2 7 0 () rfl).1 rfl,
   ((C16_zero_rows_is_not_found db.idleRepository ()).2.2.1 "what?" _ 0 () rfl).1 rfl,
   congrArg Prod.fst
    (((C16_zero_rows_is_not_found db.Database.repository db.Database.sample).2.2.2.2.2
      1 1 _ rfl).2 (by decide)),
   congrArg Prod.fst
    (((C16_zero_rows_is_not_found db.Database.repository db.Database.sample).2.2.1
      "how?" _ 1 _ rfl).2 (by decide))⟩

/-! ### From the handler to the store -/

namespace rest

/-- C17: the handlers on the service `main` builds over a repository, whatever the store and
its state: when the id of the path is valid (a UUID for DeleteUser, an integer of at least
1 for DeleteQuestionAndAnswers and DeleteAnswer) and the delete of the store reports no
error and zero affected rows, the handler answers status 500 with the
INTERNAL_SERVER_ERROR envelope. -/
theorem C17_delete_of_a_missing_row_answers_500 {σ : Type} (repo : db.Repository σ) (s : σ)
    (hdr : http.Header) (we : Option GoError) (r : Request) :
    (∀ u s', uuid.Parse (r.PathValue "id") = .ok u →
        repo.db.deleteUser s (r.PathValue "id") = ({ Error := none, RowsAffected := 0 }, s') →
        (serverAPI.DeleteUser (app repo s) (http.ResponseWriter.fresh hdr we) r).Answered 500
          specInternalServerErrorBody)
    ∧ (∀ n s', strconv.Atoi (r.PathValue "id") = .ok n → 1 ≤ n →
        repo.db.deleteQuestion s n = ({ Error := none, RowsAffected := 0 }, s') →
        (serverAPI.DeleteQuestionAndAnswers (app repo s) (http.ResponseWriter.fresh hdr we)
          r).Answered 500 specInternalServerErrorBody)
    ∧ (∀ n s', strconv.Atoi (r.PathValue "id") = .ok n → 1 ≤ n →
        repo.db.deleteAnswer s n = ({ Error := none, RowsAffected := 0 }, s') →
        (serverAPI.DeleteAnswer (app repo s) (http.ResponseWriter.fresh hdr we) r).Answered 500
          specInternalServerErrorBody) := by
  refine ⟨?_, ?_, ?_⟩
  · intro u s' hu hs
    have hc : (app repo s).service.deleteUser (r.PathValue "id")
        = some (.wrap (.wrap db.ErrNotFound
            "internal/infrastructure/db/repository.Repository.DeleteUser")
            "internal/usecase/service.QNACrud.GetUsers") := by
      simp [app, usecase.QNACrud.asDispatcher, usecase.QNACrud.DeleteUser,
        usecase.UserManager.DeleteUser, usecase.NewQNAManagerService,
        db.Repository.asUserManager, db.Repository.DeleteUser, hs]
    rw [DeleteUser_serviceFailed (app repo s) hdr we r u _ hu hc, ← internalServerError_text]
    exact finished_Answered _ _ _ _ _ _ _
  · intro n s' ha hn hs
    have hc : (app repo s).service.deleteQuestionAndAnswers n
        = some (.wrap (.wrap db.ErrNotFound
            "internal/infrastructure/db/repository.Repository.ReadQuestionAndAnswers")
            "internal/usecase/service.QNACrud.DeleteQuestionAndAnswers") := by
      simp [app, usecase.QNACrud.asDispatcher, usecase.QNACrud.DeleteQuestionAndAnswers,
        usecase.QNAManager.DeleteQuestionAndAnswers, usecase.NewQNAManagerService,
        db.Repository.asQNAManager, db.Repository.DeleteQuestionAndAnswers, hs]
    rw [DeleteQuestionAndAnswers_serviceFailed (app repo s) hdr we r n _ ha (by omega) hc,
      ← internalServerError_text]
    exact finished_Answered _ _ _ _ _ _ _
  · intro n s' ha hn hs
    have hc : (app repo s).service.deleteAnswer n
        = some (.wrap (.wrap db.ErrNotFound
            "internal/infrastructure/db/repository.Repository.DeleteAnswer")
            "internal/usecase/service.QNACrud.DeleteAnswer") := by
      simp [app, usecase.QNACrud.asDispatcher, usecase.QNACrud.DeleteAnswer,
        usecase.QNAManager.DeleteAnswer, usecase.NewQNAManagerService,
        db.Repository.asQNAManager, db.Repository.DeleteAnswer, hs]
    rw [DeleteAnswer_serviceFailed (app repo s) hdr we r n _ ha (by omega) hc,
      ← internalServerError_text]
    exact finished_Answered _ _ _ _ _ _ _

/-- Witness of C17: on the sample store, which has one user, questions 1 and 2 and answers 1
to 3, the deletes of a user with another UUID, of question 9 and of answer 9 are answered
with status 500 and the INTERNAL_SERVER_ERROR envelope. -/
theorem C17_delete_of_a_missing_row_answers_500_witness :
    (serverAPI.DeleteUser (app db.Database.repository db.Database.sample)
        (http.ResponseWriter.fresh [] none) (sampleRequest sampleUUID none)).Answered 500
          specInternalServerErrorBody
    ∧ (serverAPI.DeleteQuestionAndAnswers (app db.Database.repository db.Database.sample)
        (http.ResponseWriter.fresh [] none) (sampleRequest "9" none)).Answered 500
          specInternalServerErrorBody
    ∧ (serverAPI.DeleteAnswer (app db.Database.repository db.Database.sample)
        (http.ResponseWriter.fresh [] none) (sampleRequest "9" none)).Answered 500
          specInternalServerErrorBody :=
  ⟨(C17_delete_of_a_missing_row_answers_500 db.Database.repository db.Database.sample [] none
      (sampleRequest sampleUUID none)).1 _ _ rfl rfl,
   (C17_delete_of_a_missing_row_answers_500 db.Database.repository db.Database.sample [] none
      (sampleRequest "9" none)).2.1 9 _ rfl (by decide) rfl,
   (C17_delete_of_a_missing_row_answers_500 db.Database.repository db.Database.sample [] none
      (sampleRequest "9" none)).2.2 9 _ rfl (by decide) rfl⟩

end rest

namespace rest

/-- The service `main` builds over a repository never returns a nil pointer together with a
nil error, whatever the store and its state. -/
theorem app_NeverNil {σ : Type} (repo : db.Repository σ) (s : σ) :
    (app repo s).service.NeverNil := by
  intro c
  cases c with
  | CreateUser userName =>
    rcases h : repo.db.createUser s { Id := "", Name := userName, CreatedAt := 0 }
      with ⟨⟨row, ⟨_ | e, n⟩⟩, s'⟩
    · by_cases hn : n = 0 <;>
        simp [QNADispatcher.returnsNil, app, usecase.QNACrud.asDispatcher,
          usecase.NewQNAManagerService, usecase.QNACrud.CreateUser,
          usecase.UserManager.CreateUser, db.Repository.asUserManager,
          db.Repository.CreateUser, h, hn]
    · simp [QNADispatcher.returnsNil, app, usecase.QNACrud.asDispatcher,
        usecase.NewQNAManagerService, usecase.QNACrud.CreateUser,
        usecase.UserManager.CreateUser, db.Repository.asUserManager,
        db.Repository.CreateUser, h]
  | GetUsers =>
    rcases h : repo.db.findUsers s with ⟨⟨rows, ⟨_ | e, n⟩⟩, s'⟩ <;>
      simp [QNADispatcher.returnsNil, app, usecase.QNACrud.asDispatcher,
        usecase.NewQNAManagerService, usecase.QNACrud.GetUsers, usecase.UserManager.ReadUsers,
        db.Repository.asUserManager, db.Repository.ReadUsers, h]
  | GetQuestions =>
    rcases h : repo.db.findQuestions s with ⟨⟨rows, ⟨_ | e, n⟩⟩, s'⟩ <;>
      simp [QNADispatcher.returnsNil, app, usecase.QNACrud.asDispatcher,
        usecase.NewQNAManagerService, usecase.QNACrud.GetQuestions,
        usecase.QNAManager.ReadQuestions, db.Repository.asQNAManager,
        db.Repository.ReadQuestions, h]
  | GetQuestionAndAnswers questionId =>
    rcases h : repo.db.firstQuestion s questionId with ⟨⟨row, ⟨_ | e, n⟩⟩, s'⟩
    · rcases h2 : repo.db.findAnswers s' questionId with ⟨⟨rows, ⟨_ | e, n⟩⟩, s''⟩ <;>
        simp [QNADispatcher.returnsNil, app, usecase.QNACrud.asDispatcher,
          usecase.NewQNAManagerService, usecase.QNACrud.GetQuestionAndAnswers,
          usecase.QNAManager.ReadQuestionAndAnswers, db.Repository.asQNAManager,
          db.Repository.ReadQuestionAndAnswers, h, h2]
    · simp [QNADispatcher.returnsNil, app, usecase.QNACrud.asDispatcher,
        usecase.NewQNAManagerService, usecase.QNACrud.GetQuestionAndAnswers,
        usecase.QNAManager.ReadQuestionAndAnswers, db.Repository.asQNAManager,
        db.Repository.ReadQuestionAndAnswers, h]
  | DeleteUser _ => rfl
  | CreateQuestion _ => rfl
  | DeleteQuestionAndAnswers _ => rfl
  | CreateAnswerToQuestion _ => rfl
  | GetAnswer _ => rfl
  | DeleteAnswer _ => rfl

/-- C18, as amended: when the service never answers a call with a nil pointer together with
a nil error, every handler returns on every request without a panic; the service `main`
builds over the repository is such a service, whatever the store and its state; and a
handler that panics has called a service that answered with a nil pointer and a nil
error. -/
theorem C18_no_panic_when_service_returns_no_nil :
    (∀ (h : Handler) (t : serverAPI) (hdr : http.Header) (we : Option GoError) (r : Request),
        t.service.NeverNil → (h.serve t (http.ResponseWriter.fresh hdr we) r).panicked = none)
    ∧ (∀ (σ : Type) (repo : db.Repository σ) (s : σ) (h : Handler) (hdr : http.Header)
        (we : Option GoError) (r : Request),
        (h.serve (app repo s) (http.ResponseWriter.fresh hdr we) r).panicked = none)
    ∧ (∀ (h : Handler) (t : serverAPI) (hdr : http.Header) (we : Option GoError) (r : Request)
        (p : String), (h.serve t (http.ResponseWriter.fresh hdr we) r).panicked = some p →
        p = nilDereference ∧ ∃ c, t.service.returnsNil c = true) := by
  have key : ∀ (h : Handler) (t : serverAPI) (hdr : http.Header) (we : Option GoError)
      (r : Request),
      t.service.NeverNil → (h.serve t (http.ResponseWriter.fresh hdr we) r).panicked = none := by
    intro h t hdr we r hnever
    have hr := serve_reply h t hdr we r
    generalize h.serve t (http.ResponseWriter.fresh hdr we) r = o at hr
    cases hr with
    | rejected err code desc hcode => rfl
    | failed c err => rfl
    | succeeded c data hdata => rfl
    | panicked c hnil =>
      rw [hnever c] at hnil
      cases hnil
  refine ⟨key, ?_, ?_⟩
  · intro σ repo s h hdr we r
    exact key h (app repo s) hdr we r (app_NeverNil repo s)
  · intro h t hdr we r p hp
    have hr := serve_reply h t hdr we r
    generalize h.serve t (http.ResponseWriter.fresh hdr we) r = o at hr hp
    cases hr with
    | rejected err code desc hcode => cases hp
    | failed c err => cases hp
    | succeeded c data hdata => cases hp
    | panicked c hnil =>
      refine ⟨?_, c, hnil⟩
      cases hp
      rfl

/-- The sample service never returns a nil pointer. -/
theorem sampleService_NeverNil : sampleService.NeverNil := by
  intro c
  cases c <;> rfl

/-- Witness of C18: on the sample service, which returns no nil pointer, `CreateUser` returns
without a panic. -/
theorem C18_no_panic_when_service_returns_no_nil_witness :
    (Handler.CreateUser.serve ⟨sampleService⟩ (http.ResponseWriter.fresh [] none)
        (sampleRequest "" (fieldBody "name" "ann"))).panicked = none
    ∧ (Handler.GetQuestionAndAnswers.serve (app db.Database.repository db.Database.sample)
        (http.ResponseWriter.fresh [] none) (sampleRequest "1" none)).panicked = none :=
  ⟨C18_no_panic_when_service_returns_no_nil.1 .CreateUser ⟨sampleService⟩ [] none
      (sampleRequest "" (fieldBody "name" "ann")) sampleService_NeverNil,
   C18_no_panic_when_service_returns_no_nil.2.1 _ db.Database.repository db.Database.sample
      .GetQuestionAndAnswers [] none (sampleRequest "1" none)⟩

/-- Counterexample to C18 as stated: a service that answers with nil pointers and nil errors
makes `CreateUser`, `GetUsers`, `GetQuestions` and `GetQuestionAndAnswers` panic on a valid
request, at the dereference of the result, before anything is written. -/
theorem C18_counterexample_nil_result_panics :
    (Handler.CreateUser.serve ⟨nilService⟩ (http.ResponseWriter.fresh [] none)
        (sampleRequest "" (fieldBody "name" "ann"))).panicked = some nilDereference
    ∧ (Handler.GetUsers.serve ⟨nilService⟩ (http.ResponseWriter.fresh [] none)
        (sampleRequest "" none)).panicked = some nilDereference
    ∧ (Handler.GetQuestions.serve ⟨nilService⟩ (http.ResponseWriter.fresh [] none)
        (sampleRequest "" none)).panicked = some nilDereference
    ∧ (Handler.GetQuestionAndAnswers.serve ⟨nilService⟩ (http.ResponseWriter.fresh [] none)
        (sampleRequest "1" none)).panicked = some nilDereference
    ∧ (Handler.GetQuestionAndAnswers.serve ⟨nilService⟩ (http.ResponseWriter.fresh [] none)
        (sampleRequest "1" none)).w.wroteHeader = false := by
  decide

end rest

/-! ### The cascade of the relational store -/

namespace db

/-- What a successful `DeleteQuestionAndAnswers` leaves of the relational store: the question
was there, and the questions and the answers of the key are gone. -/
theorem DeleteQuestionAndAnswers_state (s s' : Database) (q : Int)
    (hdel : Database.repository.DeleteQuestionAndAnswers s q = (none, s')) :
    s'.answers = s.answers.filter (fun a => a.QuestionId != q)
      ∧ s'.questions = s.questions.filter (fun x => x.Id != q) := by
  simp only [Repository.DeleteQuestionAndAnswers, Database.repository, Database.store,
    Database.deleteQuestion] at hdel
  split at hdel
  · cases hdel
  · simp only [Prod.mk.injEq, true_and] at hdel
    subst hdel
    exact ⟨rfl, rfl⟩

/-- C19: in the relational store, where the delete of a question cascades to its answers and
the keys of the answers are unique: after `DeleteQuestionAndAnswers` of q returned no error,
no answer of the store has the question q, `ReadAnswer` of the id of every answer that had
the question q fails, and `ReadQuestionAndAnswers` of q fails, each with an error whose
cause is the record-not-found error of the library. -/
theorem C19_delete_question_removes_its_answers (s s' : Database) (q : Int)
    (hkeys : (s.answers.map (fun a => a.Id)).Nodup)
    (hdel : Database.repository.DeleteQuestionAndAnswers s q = (none, s')) :
    (∀ a ∈ s'.answers, a.QuestionId ≠ q)
    ∧ (∀ a ∈ s.answers, a.QuestionId = q →
        ∃ err, (Database.repository.ReadAnswer s' a.Id).1 = (none, some err)
          ∧ err.Cause = gorm.ErrRecordNotFound)
    ∧ (∃ err, (Database.repository.ReadQuestionAndAnswers s' q).1 = (none, none, some err)
          ∧ err.Cause = gorm.ErrRecordNotFound) := by
  obtain ⟨ha, hq⟩ := DeleteQuestionAndAnswers_state s s' q hdel
  refine ⟨?_, ?_, ?_⟩
  · intro a hmem
    rw [ha] at hmem
    simpa using (List.mem_filter.mp hmem).2
  · intro a hmem haq
    have hnone : s'.answers.find? (fun x => x.Id == a.Id) = none := by
      rw [List.find?_eq_none]
      intro x hx hxa
      rw [ha] at hx
      obtain ⟨hxs, hxq⟩ := List.mem_filter.mp hx
      have hid : x.Id = a.Id := by simpa using hxa
      have hxeq : x = a := List.inj_on_of_nodup_map hkeys hxs hmem hid
      subst hxeq
      simp [haq] at hxq
    refine ⟨.wrap gorm.ErrRecordNotFound
      "internal/infrastructure/db/repository.Repository.ReadAnswer", ?_, rfl⟩
    simp [Repository.ReadAnswer, Database.repository, Database.store, Database.firstAnswer,
      hnone]
  · have hnone : s'.questions.find? (fun x => x.Id == q) = none := by
      rw [List.find?_eq_none]
      intro x hx hxq
      rw [hq] at hx
      have h2 := (List.mem_filter.mp hx).2
      have hid : x.Id = q := by simpa using hxq
      simp [hid] at h2
    refine ⟨.wrap gorm.ErrRecordNotFound
      "internal/infrastructure/db/repository.Repository.ReadQuestionAndAnswers", ?_, rfl⟩
    simp [Repository.ReadQuestionAndAnswers, Database.repository, Database.store,
      Database.firstQuestion, hnone]

/-- Witness of C19: on the sample store the delete of question 1 succeeds; afterwards the
answers 1 and 3, which were its answers, are not found, and neither is the question, while
answer 2 is still read. -/
theorem C19_delete_question_removes_its_answers_witness :
    Database.repository.DeleteQuestionAndAnswers Database.sample 1
        = (none, Database.sampleAfterDelete)
    ∧ (∀ a ∈ Database.sampleAfterDelete.answers, a.QuestionId ≠ 1)
    ∧ (∀ a ∈ Database.sample.answers, a.QuestionId = 1 →
        ∃ err, (Database.repository.ReadAnswer Database.sampleAfterDelete a.Id).1
            = (none, some err) ∧ err.Cause = gorm.ErrRecordNotFound)
    ∧ (∃ err, (Database.repository.ReadQuestionAndAnswers Database.sampleAfterDelete 1).1
          = (none, none, some err) ∧ err.Cause = gorm.ErrRecordNotFound)
    ∧ (Database.repository.ReadAnswer Database.sampleAfterDelete 2).1.2 = none :=
  ⟨by decide,
   (C19_delete_question_removes_its_answers Database.sample Database.sampleAfterDelete 1
      (by decide) (by decide)).1,
   (C19_delete_question_removes_its_answers Database.sample Database.sampleAfterDelete 1
      (by decide) (by decide)).2.1,
   (C19_delete_question_removes_its_answers Database.sample Database.sampleAfterDelete 1
      (by decide) (by decide)).2.2,
   by decide⟩

end db

namespace rest

/-! ### The order of the checks of `CreateAnswerToQuestion` -/

/-- The envelope of a failed check is the text the specification gives for it. -/
theorem Check.body_text (c : Check) :
    response.encodeResponse (failure 400 c.code c.desc) ++ "\n" = c.body := by
  cases c <;> decide

/-- C21: when a request to `CreateAnswerToQuestion` fails at least one of the five checks,
and c is the earliest check it fails in the order body decoding, path id is an integer, path
id is at least 1, text is not empty, user_id is a UUID, the handler answers status 400 with
the code and the desc of c, whatever later checks the request fails as well; the whole
outcome is the same for every service, which is not called. When the request passes all
five, the handler calls the service once and the status is not 400. -/
theorem C21_create_answer_reports_first_failing_check (hdr : http.Header)
    (we : Option GoError) (r : Request) :
    (∀ c, specFirstFailingCheck r = some c →
      ∃ err, ∀ t : serverAPI,
        serverAPI.CreateAnswerToQuestion t (http.ResponseWriter.fresh hdr we) r
            = finished hdr we t.service r [err] 400 (failure 400 c.code c.desc)
          ∧ (serverAPI.CreateAnswerToQuestion t (http.ResponseWriter.fresh hdr we) r).Answered
              400 c.body)
    ∧ (specFirstFailingCheck r = none →
      ∀ t : serverAPI,
        (serverAPI.CreateAnswerToQuestion t (http.ResponseWriter.fresh hdr we) r).w.status
            ≠ 400
          ∧ ∃ answer,
            (serverAPI.CreateAnswerToQuestion t (http.ResponseWriter.fresh hdr we)
              r).service.calls = t.service.calls ++ [Call.CreateAnswerToQuestion answer]) := by
  have answered : ∀ (t : serverAPI) (c : Check) (err : GoError),
      serverAPI.CreateAnswerToQuestion t (http.ResponseWriter.fresh hdr we) r
          = finished hdr we t.service r [err] 400 (failure 400 c.code c.desc) →
      (serverAPI.CreateAnswerToQuestion t (http.ResponseWriter.fresh hdr we) r).Answered
        400 c.body := by
    intro t c err h
    rw [h, ← Check.body_text]
    exact finished_Answered _ _ _ _ _ _ _
  rcases hd : request.decodeCreateAnswerToQuestionRequest { UserId := "", Text := "" } r.Body
    with ⟨req, _ | err⟩
  · rcases ha : strconv.Atoi (r.PathValue "id") with err | n
    · have hf : specFirstFailingCheck r = some .idIsInteger := by
        simp [specFirstFailingCheck, Check.fails, hd, ha]
      rw [hf]
      refine ⟨?_, fun h => by cases h⟩
      intro c hc
      cases hc
      exact ⟨err, fun t =>
        ⟨CreateAnswerToQuestion_invalidId t hdr we r req err hd ha,
          answered t _ _ (CreateAnswerToQuestion_invalidId t hdr we r req err hd ha)⟩⟩
    · by_cases hn : n < 1
      · have hf : specFirstFailingCheck r = some .idIsPositive := by
          simp [specFirstFailingCheck, Check.fails, hd, ha, hn]
        rw [hf]
        refine ⟨?_, fun h => by cases h⟩
        intro c hc
        cases hc
        exact ⟨_, fun t =>
          ⟨CreateAnswerToQuestion_notPositive t hdr we r req n hd ha hn,
            answered t _ _ (CreateAnswerToQuestion_notPositive t hdr we r req n hd ha hn)⟩⟩
      · by_cases he : req.Text = ""
        · have hf : specFirstFailingCheck r = some .textNotEmpty := by
            simp [specFirstFailingCheck, Check.fails, hd, ha, hn, he]
          rw [hf]
          refine ⟨?_, fun h => by cases h⟩
          intro c hc
          cases hc
          exact ⟨_, fun t =>
            ⟨CreateAnswerToQuestion_emptyField t hdr we r req n hd ha hn he,
              answered t _ _ (CreateAnswerToQuestion_emptyField t hdr we r req n hd ha hn he)⟩⟩
        · rcases hu : uuid.Parse req.UserId with err | u
          · have hf : specFirstFailingCheck r = some .userIdIsUUID := by
              simp [specFirstFailingCheck, Check.fails, hd, ha, hn, he, hu]
            rw [hf]
            refine ⟨?_, fun h => by cases h⟩
            intro c hc
            cases hc
            exact ⟨err, fun t =>
              ⟨CreateAnswerToQuestion_invalidUUID t hdr we r req n err hd ha hn he hu,
                answered t _ _
                  (CreateAnswerToQuestion_invalidUUID t hdr we r req n err hd ha hn he hu)⟩⟩
          · have hf : specFirstFailingCheck r = none := by
              simp [specFirstFailingCheck, Check.fails, hd, ha, hn, he, hu]
            rw [hf]
            refine ⟨fun c hc => (by cases hc), fun _ t => ?_⟩
            rcases hs : t.service.createAnswerToQuestion
              { Id := 0, QuestionId := n, UserId := req.UserId, Text := req.Text }
              with ⟨answerId, _ | e⟩
            · rw [CreateAnswerToQuestion_ok t hdr we r req n u answerId hd ha hn he hu hs]
              exact ⟨(by decide : (200 : Int) ≠ 400), _, rfl⟩
            · rw [CreateAnswerToQuestion_serviceFailed t hdr we r req n u answerId e hd ha hn
                he hu hs]
              exact ⟨(by decide : (500 : Int) ≠ 400), _, rfl⟩
  · have hf : specFirstFailingCheck r = some .bodyDecodes := by
      simp [specFirstFailingCheck, Check.fails, hd]
    rw [hf]
    refine ⟨?_, fun h => by cases h⟩
    intro c hc
    cases hc
    exact ⟨err, fun t =>
      ⟨CreateAnswerToQuestion_decodeFailed t hdr we r req err hd,
        answered t _ _ (CreateAnswerToQuestion_decodeFailed t hdr we r req err hd)⟩⟩

/-- Witness of C21: the request with the path id `slovo`, an empty `text` and a `user_id`
that is no UUID fails three checks, the earliest of them the check of the id format, and is
answered with `invalid ID format for "id"` by every service; with the path id `0` the
earliest is the check that the id is positive; the request of the test suite passes all
five and is not answered with status 400. -/
theorem C21_create_answer_reports_first_failing_check_witness :
    (Check.idIsInteger.fails (sampleRequest "slovo" (answerBody "not-uuid" "")) = true
      ∧ Check.textNotEmpty.fails (sampleRequest "slovo" (answerBody "not-uuid" "")) = true
      ∧ Check.userIdIsUUID.fails (sampleRequest "slovo" (answerBody "not-uuid" "")) = true)
    ∧ (∀ t : serverAPI,
        (serverAPI.CreateAnswerToQuestion t (http.ResponseWriter.fresh [] none)
          (sampleRequest "slovo" (answerBody "not-uuid" ""))).Answered 400
            (specValidationFailedBody "invalid ID format for \\\"id\\\""))
    ∧ (∀ t : serverAPI,
        (serverAPI.CreateAnswerToQuestion t (http.ResponseWriter.fresh [] none)
          (sampleRequest "0" (answerBody "not-uuid" ""))).Answered 400
            (specValidationFailedBody "ID must be a positive integer"))
    ∧ (∀ t : serverAPI,
        (serverAPI.CreateAnswerToQuestion t (http.ResponseWriter.fresh [] none)
          (sampleRequest "1" (answerBody "not-uuid" ""))).Answered 400
            (specValidationFailedBody "field \\\"text\\\" must not be empty"))
    ∧ (serverAPI.CreateAnswerToQuestion ⟨sampleService⟩ (http.ResponseWriter.fresh [] none)
          (sampleRequest "1" (answerBody sampleUUID "text"))).w.status ≠ 400 :=
  ⟨by decide,
   fun t => Exists.elim
    ((C21_create_answer_reports_first_failing_check [] none
      (sampleRequest "slovo" (answerBody "not-uuid" ""))).1 .idIsInteger rfl)
    (fun _ h => (h t).2),
   fun t => Exists.elim
    ((C21_create_answer_reports_first_failing_check [] none
      (sampleRequest "0" (answerBody "not-uuid" ""))).1 .idIsPositive rfl)
    (fun _ h => (h t).2),
   fun t => Exists.elim
    ((C21_create_answer_reports_first_failing_check [] none
      (sampleRequest "1" (answerBody "not-uuid" ""))).1 .textNotEmpty rfl)
    (fun _ h => (h t).2),
   ((C21_create_answer_reports_first_failing_check [] none
      (sampleRequest "1" (answerBody sampleUUID "text"))).2 rfl ⟨sampleService⟩).1⟩

end rest

namespace db

/-! ### The lists the repository reads -/

/-- A loop that appends the image of each row to a slice leaves the slice followed by the
images of the rows, in their order. -/
theorem foldl_append_eq_map {α β : Type} (f : α → β) (rows : List α) (init : List β) :
    rows.foldl (fun acc row => acc ++ [f row]) init = init ++ rows.map f := by
  induction rows generalizing init with
  | nil => simp
  | cons row rest ih => simp [List.foldl_cons, ih]

/-- C22: over every store and every state, when the store returns a list of rows without an
error, `ReadUsers`, `ReadQuestions` and `ReadQuestionAndAnswers` return no error and a
non-nil list that has the length of the rows and at each index the fields of the row at that
index (`Id` and `Name`; `Id` and `Text`; `Id`, `QuestionId`, `UserId` and `Text`), without
`CreatedAt`; for zero rows the list is empty, so a question without answers is read with an
empty list of answers. -/
theorem C22_read_lists_mirror_the_rows {σ : Type} (r : Repository σ) (s : σ) :
    (∀ rows n s', r.db.findUsers s = ((rows, { Error := none, RowsAffected := n }), s') →
      ∃ users : List domain.User,
        r.ReadUsers s = ((some (some users), none), s')
        ∧ users.length = rows.length
        ∧ (∀ i : Nat, users[i]?
            = rows[i]?.map (fun row : dto.User => ({ Id := row.Id, Name := row.Name } : domain.User)))
        ∧ (rows = [] → users = []))
    ∧ (∀ rows n s', r.db.findQuestions s = ((rows, { Error := none, RowsAffected := n }), s') →
      ∃ questions : List domain.Question,
        r.ReadQuestions s = ((some (some questions), none), s')
        ∧ questions.length = rows.length
        ∧ (∀ i : Nat, questions[i]?
            = rows[i]?.map (fun row : dto.Question => ({ Id := row.Id, Text := row.Text } : domain.Question)))
        ∧ (rows = [] → questions = []))
    ∧ (∀ questionId row n s' rows m s'',
      r.db.firstQuestion s questionId = ((row, { Error := none, RowsAffected := n }), s') →
      r.db.findAnswers s' questionId = ((rows, { Error := none, RowsAffected := m }), s'') →
      ∃ answers : List domain.Answer,
        r.ReadQuestionAndAnswers s questionId
          = ((some { Id := row.Id, Text := row.Text }, some (some answers), none), s'')
        ∧ answers.length = rows.length
        ∧ (∀ i : Nat, answers[i]? = rows[i]?.map (fun a : dto.Answer =>
            ({ Id := a.Id, QuestionId := a.QuestionId, UserId := a.UserId, Text := a.Text }
              : domain.Answer)))
        ∧ (rows = [] → answers = [])) := by
  refine ⟨?_, ?_, ?_⟩
  · intro rows n s' h
    refine ⟨rows.map (fun row => { Id := row.Id, Name := row.Name }), ?_, ?_, ?_, ?_⟩
    · simp [Repository.ReadUsers, h, foldl_append_eq_map]
    · simp
    · intro i
      rw [List.getElem?_map]
    · intro hr
      simp [hr]
  · intro rows n s' h
    refine ⟨rows.map (fun row => { Id := row.Id, Text := row.Text }), ?_, ?_, ?_, ?_⟩
    · simp [Repository.ReadQuestions, h, foldl_append_eq_map]
    · simp
    · intro i
      rw [List.getElem?_map]
    · intro hr
      simp [hr]
  · intro questionId row n s' rows m s'' h1 h2
    refine ⟨rows.map (fun a =>
      { Id := a.Id, QuestionId := a.QuestionId, UserId := a.UserId, Text := a.Text }),
      ?_, ?_, ?_, ?_⟩
    · simp [Repository.ReadQuestionAndAnswers, h1, h2, foldl_append_eq_map]
    · simp
    · intro i
      rw [List.getElem?_map]
    · intro hr
      simp [hr]

/-- Witness of C22: on the sample store, `ReadUsers` returns its one user, `ReadQuestions`
its two questions in their order, `ReadQuestionAndAnswers` of question 1 its answers 1 and 3
in their order, and, once the answers of question 2 are gone, `ReadQuestionAndAnswers` of
question 2 returns the question with an empty list of answers and no error. -/
theorem C22_read_lists_mirror_the_rows_witness :
    (∃ users : List domain.User,
      Database.repository.ReadUsers Database.sample
          = ((some (some users), none), Database.sample)
        ∧ users.length = 1
        ∧ users[0]? = some { Id := Database.userKey 0, Name := "ann" })
    ∧ (∃ questions : List domain.Question,
      Database.repository.ReadQuestions Database.sample
          = ((some (some questions), none), Database.sample)
        ∧ questions.length = 2
        ∧ questions[0]? = some { Id := 1, Text := "what?" }
        ∧ questions[1]? = some { Id := 2, Text := "why?" })
    ∧ (∃ answers : List domain.Answer,
      Database.repository.ReadQuestionAndAnswers Database.sample 1
          = ((some { Id := 1, Text := "what?" }, some (some answers), none), Database.sample)
        ∧ answers.length = 2
        ∧ answers[0]?
            = some { Id := 1, QuestionId := 1, UserId := Database.userKey 0, Text := "42" }
        ∧ answers[1]?
            = some { Id := 3, QuestionId := 1, UserId := Database.userKey 0, Text := "43" })
    ∧ (∃ answers : List domain.Answer,
      Database.repository.ReadQuestionAndAnswers
          Database.sampleUnanswered 2
          = ((some { Id := 2, Text := "why?" }, some (some answers), none),
              Database.sampleUnanswered)
        ∧ answers = []) := by
  refine ⟨?_, ?_, ?_, ?_⟩
  · obtain ⟨users, h, hl, hi, _⟩ :=
      (C22_read_lists_mirror_the_rows Database.repository Database.sample).1 _ _ _ rfl
    exact ⟨users, h, hl, hi 0⟩
  · obtain ⟨questions, h, hl, hi, _⟩ :=
      (C22_read_lists_mirror_the_rows Database.repository Database.sample).2.1 _ _ _ rfl
    exact ⟨questions, h, hl, hi 0, hi 1⟩
  · obtain ⟨answers, h, hl, hi, _⟩ :=
      (C22_read_lists_mirror_the_rows Database.repository Database.sample).2.2
        1 _ _ _ _ _ _ rfl rfl
    exact ⟨answers, h, hl, hi 0, hi 1⟩
  · obtain ⟨answers, h, _, _, he⟩ :=
      (C22_read_lists_mirror_the_rows Database.repository
        Database.sampleUnanswered).2.2 2 _ _ _ _ _ _ rfl rfl
    exact ⟨answers, h, he rfl⟩

end db

end QNA
